import Mathlib

/-!
# webauthn-demo: session middleware, challenge handlers and credential store

A shallow embedding of the Go sources `session_middleware.go`, `serverresponse.go`,
`registration_handlers.go`, `authentication_handlers.go`, `user_handlers.go`, `db.go`
and `models.go`.

Conventions of the embedding.

* A Go `[]byte` is a `List Nat`; the nil slice is the empty list.
* A Go map is an association list read with `mapGet`; an assignment `m[k] = v` is
  `mapSet`, `delete(m, k)` is `mapDelete`.
* A request runs on a `World`: the sessions held in the request context, the recorded
  response, the session store and the datastore. A pointer shared between the request
  context and the handler (`*sessions.Session`, `*userSession`) is the entry of the
  `World` it points to, so a mutation through the pointer is an update of that entry.
* An `http.ResponseWriter` is a record of its three methods acting on the `World`.
* Packages outside the repository (`encoding/json`, `crypto/rand`, `encoding/base64`,
  `github.com/fxamacker/webauthn`) are parameters, collected in `External`.
* A Go panic sets `World.panicked`; the code that follows a panic does not run.
-/

namespace WebAuthnDemo

/-! ## Maps -/

/-- Map lookup `m[k]`: the value of the first binding of `k`. -/
def mapGet {β : Type} : List (String × β) → String → Option β
  | [], _ => none
  | (k', v) :: t, k => if k' = k then some v else mapGet t k

/-- Map deletion `delete(m, k)`. -/
def mapDelete {β : Type} : List (String × β) → String → List (String × β)
  | [], _ => []
  | (k', v) :: t, k => if k' = k then mapDelete t k else (k', v) :: mapDelete t k

/-- Map assignment `m[k] = v`. -/
def mapSet {β : Type} (m : List (String × β)) (k : String) (v : β) : List (String × β) :=
  (k, v) :: mapDelete m k

/-! ## models.go -/

abbrev Bytes := List Nat

/-- The type `user`. The code compares `UserID` with nil: `none` is the nil slice, and
`UserID.getD []` are the bytes of the slice, none for the nil one. -/
structure user where
  UserID : Option Bytes
  UserName : String
  DisplayName : String
  CredentialIDs : List Bytes
deriving DecidableEq, Repr

structure credential where
  CredentialID : Bytes
  UserID : Bytes
  Counter : Nat
  CoseKey : Bytes
deriving DecidableEq, Repr

structure userSession where
  User : user
  LoggedInCredentialID : Bytes
deriving DecidableEq, Repr

/-! ## Types of package webauthn (the fields the handlers read or write) -/

structure AuthenticatorSelectionCriteria where
  AuthenticatorAttachment : String
  RequireResidentKey : Bool
  ResidentKey : String
  UserVerification : String
deriving DecidableEq, Repr

/-- The `webauthn.User` handed to the option builders. -/
structure WebAuthnUser where
  ID : Bytes
  Name : String
  DisplayName : String
  CredentialIDs : List Bytes
deriving DecidableEq, Repr

structure PublicKeyCredentialCreationOptions where
  RPID : String
  User : WebAuthnUser
  Challenge : Bytes
  PubKeyCredParams : List Int
  ExcludeCredentials : List Bytes
  AuthenticatorSelection : AuthenticatorSelectionCriteria
  Attestation : String
deriving DecidableEq, Repr

structure PublicKeyCredentialRequestOptions where
  Challenge : Bytes
  RPID : String
  AllowCredentials : List Bytes
  UserVerification : String
deriving DecidableEq, Repr

structure AuthenticatorData where
  Counter : Nat
  CredentialRaw : Bytes
deriving DecidableEq, Repr

structure PublicKeyCredentialAttestation where
  RawID : Bytes
  AuthnData : AuthenticatorData
  ClientChallenge : String
deriving DecidableEq, Repr

structure PublicKeyCredentialAssertion where
  RawID : Bytes
  AuthnData : AuthenticatorData
  ClientChallenge : String
deriving DecidableEq, Repr

structure AttestationExpectedData where
  Origin : String
  RPID : String
  CredentialAlgs : List Int
  Challenge : String
  UserVerification : String
deriving DecidableEq, Repr

structure AssertionExpectedData where
  Origin : String
  RPID : String
  Challenge : String
  UserVerification : String
  UserID : Bytes
  UserCredentialIDs : List Bytes
  PrevCounter : Nat
  Credential : Bytes
deriving DecidableEq, Repr

structure Config where
  RPID : String
  RPName : String
  Timeout : Nat
  ChallengeLength : Nat
  UserVerification : String
  Attestation : String
  CredentialAlgs : List Int
deriving DecidableEq, Repr

/-! ## main.go: names and keys -/

def sessionNameLoginSession : String := "LoginSession"
def sessionMapKeyUserSession : String := "UserSession"
def sessionMapKeyWebAuthnCreationOptions : String := "WebAuthnCreationOptions"
def sessionMapKeyWebAuthnRequestOptions : String := "WebAuthnRequestOptions"
def contextKeyLoginSession : String := sessionNameLoginSession

/-! ## Sessions (package gorilla/sessions) -/

/-- A value of `session.Values`, by its dynamic type. -/
inductive SessionValue where
  | userSession (u : userSession)
  | creationOptions (o : PublicKeyCredentialCreationOptions)
  | requestOptions (o : PublicKeyCredentialRequestOptions)
  | other (tag : String)
deriving DecidableEq, Repr

/-- Type assertion `v.(*userSession)`. -/
def asUserSession : Option SessionValue → Option userSession
  | some (.userSession u) => some u
  | _ => none

/-- Type assertion `v.(*webauthn.PublicKeyCredentialCreationOptions)`. -/
def asCreationOptions : Option SessionValue → Option PublicKeyCredentialCreationOptions
  | some (.creationOptions o) => some o
  | _ => none

/-- Type assertion `v.(*webauthn.PublicKeyCredentialRequestOptions)`. -/
def asRequestOptions : Option SessionValue → Option PublicKeyCredentialRequestOptions
  | some (.requestOptions o) => some o
  | _ => none

structure Session where
  Values : List (String × SessionValue)
deriving DecidableEq, Repr

/-- The session store of the server, for one browser: `records` is what `Save` last
stored under each session name, `getErr` and `saveErr` name the sessions for which `Get`
and `Save` fail (with the error text), `saveCalls` logs every call of `Save`. -/
structure SessionStore where
  records : List (String × Session)
  getErr : List (String × String)
  saveErr : List (String × String)
  saveCalls : List (String × Session)
deriving DecidableEq, Repr

/-- The call `sessionStore.Get(r, name)`: the stored record, a new empty session when
there is none. -/
def SessionStore.Get (s : SessionStore) (name : String) : Except String Session :=
  match mapGet s.getErr name with
  | some e => .error e
  | none =>
    match mapGet s.records name with
    | some session => .ok session
    | none => .ok { Values := [] }

/-- The call `session.Save(r, w)`, that is `store.Save(r, w, session)`. -/
def SessionStore.Save (s : SessionStore) (name : String) (session : Session) :
    Option String × SessionStore :=
  match mapGet s.saveErr name with
  | some e => (some e, { s with saveCalls := s.saveCalls ++ [(name, session)] })
  | none =>
    (none, { s with records := mapSet s.records name session,
                    saveCalls := s.saveCalls ++ [(name, session)] })

/-! ## serverresponse.go and the response writer -/

def statusOK : String := "ok"
def statusFailed : String := "failed"
def serverResponseOKJSONString : String := "\x7b \"status\": \"ok\" \x7d"

structure serverResponse where
  Status : String
  ErrorMessage : String
deriving DecidableEq, Repr

def StatusOK : Nat := 200
def StatusBadRequest : Nat := 400
def StatusUnauthorized : Nat := 401
def StatusInternalServerError : Nat := 500

/-- The type `response` local to `handleUser` (user_handlers.go). -/
structure userResponse where
  Status : String
  Name : String
  DisplayName : String
  CredentialID : String
  RegisteredAt : String
  LoggedInAt : String
deriving DecidableEq, Repr

/-- The bytes handed to `Write`, kept as the value they encode. -/
inductive Payload where
  | failed (r : serverResponse)
  | raw (s : String)
  | creationOptions (r : serverResponse) (o : PublicKeyCredentialCreationOptions)
  | requestOptions (r : serverResponse) (o : PublicKeyCredentialRequestOptions)
  | user (r : userResponse)
deriving DecidableEq, Repr

/-- The response as the server's own `http.ResponseWriter` records it. -/
structure ResponseRecorder where
  Code : Nat
  wroteHeader : Bool
  HeaderMap : List (String × String)
  Body : List Payload
deriving DecidableEq, Repr

/-- The recorder of a new request (`httptest.NewRecorder`). -/
def NewRecorder : ResponseRecorder :=
  { Code := 200, wroteHeader := false, HeaderMap := [], Body := [] }

/-- The method `WriteHeader` of the server's writer: the first call fixes the status. -/
def ResponseRecorder.WriteHeader (rw : ResponseRecorder) (code : Nat) : ResponseRecorder :=
  if rw.wroteHeader then rw else { rw with Code := code, wroteHeader := true }

/-- The method `Write` of the server's writer: the first write fixes status 200 when
no header was written before. -/
def ResponseRecorder.Write (rw : ResponseRecorder) (b : Payload) : ResponseRecorder :=
  let rw1 := if rw.wroteHeader then rw else rw.WriteHeader 200
  { rw1 with Body := rw1.Body ++ [b] }

/-! ## The datastore interface (db.go) -/

/-- Go error values returned by the datastore. -/
inductive error where
  | errNoRecords
  | errRecordExists
  | other (msg : String)
deriving DecidableEq, Repr

/-- The text `err.Error()`. -/
def error.Error : error → String
  | .errNoRecords => "webauthn/datastore: no records"
  | .errRecordExists => "webauthn/datastore: record exists"
  | .other msg => msg

/-- One call of a method of the `dataStore` interface. -/
inductive dataStoreCall where
  | getUser (username : String)
  | getCredential (userID credentialID : Bytes)
  | getCredentialTimestamp (userID credentialID : Bytes)
  | addUserCredential (u : user) (c : credential)
  | updateCredential (c : credential)
deriving DecidableEq, Repr

/-- The interface `dataStore` over a store state `σ`: queries read the state, the two
writes return the new state. -/
structure dataStore (σ : Type) where
  getUser : σ → String → Except error user
  getCredential : σ → Bytes → Bytes → Except error credential
  getCredentialTimestamp : σ → Bytes → Bytes → Except error (Nat × Nat)
  addUserCredential : σ → user → credential → Option error × σ
  updateCredential : σ → credential → Option error × σ

/-! ## The state of a request -/

structure World (σ : Type) where
  ctx : List (String × Session)
  resp : ResponseRecorder
  status : Nat
  sessionStore : SessionStore
  db : σ
  dbCalls : List dataStoreCall
  panicked : Option String

/-- An `http.ResponseWriter`: its methods `Header().Set`, `WriteHeader` and `Write`. -/
structure ResponseWriter (σ : Type) where
  HeaderSet : String → String → World σ → World σ
  WriteHeader : Nat → World σ → World σ
  Write : Payload → World σ → World σ

/-- The server's own writer, writing to `World.resp`. -/
def serverWriter (σ : Type) : ResponseWriter σ where
  HeaderSet := fun k v st => { st with resp := { st.resp with HeaderMap := mapSet st.resp.HeaderMap k v } }
  WriteHeader := fun code st => { st with resp := st.resp.WriteHeader code }
  Write := fun b st => { st with resp := st.resp.Write b }

/-- The function `writeFailedServerResponse`. Its `json.Marshal` is applied to a struct
of two strings and returns no error, so the early return on `err != nil` is never
taken. -/
def writeFailedServerResponse {σ : Type} (w : ResponseWriter σ) (httpStatusCode : Nat)
    (errMsg : String) (st : World σ) : World σ :=
  let b := Payload.failed { Status := statusFailed, ErrorMessage := errMsg }
  let st := w.HeaderSet "Content-Type" "application/json" st
  let st := w.WriteHeader httpStatusCode st
  w.Write b st

def writeOKServerResponse {σ : Type} (w : ResponseWriter σ) (st : World σ) : World σ :=
  let st := w.HeaderSet "Content-Type" "application/json" st
  w.Write (Payload.raw serverResponseOKJSONString) st

/-! ## session_middleware.go -/

/-- The parts of an `*http.Request` the handlers read: the body, and the entropy the
request draws from `crypto/rand` and the challenge generator. -/
structure Request where
  Body : String
  rand : Nat
deriving DecidableEq, Repr

abbrev HandlerFunc (σ : Type) := ResponseWriter σ → Request → World σ → World σ

/-- Update of the value bound to `k` in place (a write through a pointer held in the map). -/
def mapModify {β : Type} : List (String × β) → String → (β → β) → List (String × β)
  | [], _, _ => []
  | (k', v) :: t, k, f => (k', if k' = k then f v else v) :: mapModify t k f

def storeSessionInContext (store : SessionStore) :
    List (String × Session) → List String → Except String (List (String × Session))
  | ctx, [] => .ok ctx
  | ctx, sessionName :: rest =>
    match store.Get sessionName with
    | .error e => .error ("failed to retrieve session \"" ++ sessionName ++ "\": " ++ e)
    | .ok session => storeSessionInContext store (mapSet ctx sessionName session) rest

/-- The loop of `sessionWriter.Write` over `w.rwSession`, followed by the write of `b`
to the wrapped writer. -/
def saveSessions {σ : Type} (inner : ResponseWriter σ) :
    List String → Payload → World σ → World σ
  | [], b, st => inner.Write b st
  | sessionName :: rest, b, st =>
    match mapGet st.ctx sessionName with
    | none =>
      { st with panicked := some ("Failed to get session " ++ sessionName ++ " from context") }
    | some session =>
      match st.sessionStore.Save sessionName session with
      | (some err, store) =>
        writeFailedServerResponse inner StatusInternalServerError
          ("Failed to save session " ++ sessionName ++ ": " ++ err)
          { st with sessionStore := store }
      | (none, store) => saveSessions inner rest b { st with sessionStore := store }

/-- The writer `&sessionWriter{ResponseWriter: inner, r: r, rwSession: rwSession}`; its
field `status` is `World.status`. -/
def sessionWriter {σ : Type} (inner : ResponseWriter σ) (rwSession : List String) :
    ResponseWriter σ where
  HeaderSet := inner.HeaderSet
  WriteHeader := fun status st => inner.WriteHeader status { st with status := status }
  Write := fun b st =>
    if st.status ≠ 0 then inner.Write b st else saveSessions inner rwSession b st

structure sessionHandler (σ : Type) where
  rwSessionNames : List String
  rSessionNames : List String
  next : HandlerFunc σ

def sessionHandler.ServeHTTP {σ : Type} (m : sessionHandler σ) : HandlerFunc σ :=
  fun w r st =>
    match storeSessionInContext st.sessionStore st.ctx m.rwSessionNames with
    | .error e => writeFailedServerResponse w StatusInternalServerError e st
    | .ok ctx =>
      match storeSessionInContext st.sessionStore ctx m.rSessionNames with
      | .error e => writeFailedServerResponse w StatusInternalServerError e st
      | .ok ctx =>
        if m.rwSessionNames.length > 0 then
          m.next (sessionWriter w m.rwSessionNames) r { st with ctx := ctx, status := 0 }
        else
          m.next w r { st with ctx := ctx }

def handleSession {σ : Type} (rwSessionNames rSessionNames : List String)
    (next : HandlerFunc σ) : HandlerFunc σ :=
  fun w r st =>
    sessionHandler.ServeHTTP
      { rwSessionNames := rwSessionNames, rSessionNames := rSessionNames, next := next } w r st

def handleAuthnSession {σ : Type} (next : HandlerFunc σ) : HandlerFunc σ :=
  handleSession [sessionNameLoginSession] [sessionNameLoginSession] next

def loggedInUserOnly {σ : Type} (next : HandlerFunc σ) : HandlerFunc σ :=
  fun w r st =>
    match st.sessionStore.Get sessionNameLoginSession with
    | .error e =>
      writeFailedServerResponse w StatusInternalServerError
        ("Failed to retrieve session \"" ++ sessionNameLoginSession ++ "\": " ++ e) st
    | .ok loginSession =>
      match asUserSession (mapGet loginSession.Values sessionMapKeyUserSession) with
      | none => writeFailedServerResponse w StatusUnauthorized "User is not logged in" st
      | some u =>
        if u.LoggedInCredentialID.length = 0 then
          writeFailedServerResponse w StatusUnauthorized "User is not logged in" st
        else next w r st

/-! ## Arbitrary handlers

The run of a handler, as far as the middleware can observe it, is the sequence of calls
it makes on its response writer and of writes to the sessions it finds in the request
context. -/

inductive HandlerOp where
  | HeaderSet (k v : String)
  | WriteHeader (status : Nat)
  | Write (b : Payload)
  | setValue (sessionName key : String) (v : SessionValue)
  | deleteValue (sessionName key : String)
deriving DecidableEq, Repr

def HandlerOp.run {σ : Type} (w : ResponseWriter σ) : HandlerOp → World σ → World σ
  | .HeaderSet k v, st => w.HeaderSet k v st
  | .WriteHeader status, st => w.WriteHeader status st
  | .Write b, st => w.Write b st
  | .setValue sessionName key v, st =>
    match mapGet st.ctx sessionName with
    | none => { st with panicked := some "Failed to get session data from context" }
    | some _ =>
      { st with ctx := mapModify st.ctx sessionName
                  (fun s => { Values := mapSet s.Values key v }) }
  | .deleteValue sessionName key, st =>
    match mapGet st.ctx sessionName with
    | none => { st with panicked := some "Failed to get session data from context" }
    | some _ =>
      { st with ctx := mapModify st.ctx sessionName
                  (fun s => { Values := mapDelete s.Values key }) }

/-- The handler that performs `ops` in order, stopping at a panic. -/
def runOps {σ : Type} (ops : List HandlerOp) : HandlerFunc σ :=
  fun w r st =>
    match ops with
    | [] => st
    | op :: rest =>
      if st.panicked.isSome then st else runOps rest w r (op.run w st)

/-! ## The server and the packages it calls -/

/-- The JSON body of `POST /attestation/options`. -/
structure attestationOptionsRequest where
  Username : String
  DisplayName : String
  AuthenticatorSelection : AuthenticatorSelectionCriteria
  Attestation : String
deriving DecidableEq, Repr

/-- The JSON body of `POST /assertion/options`. -/
structure assertionOptionsRequest where
  Username : String
  UserVerification : String
deriving DecidableEq, Repr

def UserVerificationPreferred : String := "preferred"
def AttestationNone : String := "none"

/-- The functions of other packages that the handlers call. `randRead` gives the bytes
`rand.Read` writes with its results `n` and `err`; `marshalErr` is the error of
`json.Marshal` on a response; `Format` is `time.Time.Format("02 Jan 06 15:04 MST")`. -/
structure External where
  decodeAttestationOptionsRequest : String → Except String attestationOptionsRequest
  decodeAssertionOptionsRequest : String → Except String assertionOptionsRequest
  randRead : Nat → Bytes × Nat × Option String
  NewAttestationOptions :
    Config → WebAuthnUser → Nat → Except String PublicKeyCredentialCreationOptions
  NewAssertionOptions :
    Config → WebAuthnUser → Nat → Except String PublicKeyCredentialRequestOptions
  ParseAttestation : String → Except String PublicKeyCredentialAttestation
  VerifyAttestation : PublicKeyCredentialAttestation → AttestationExpectedData → Option String
  ParseAssertion : String → Except String PublicKeyCredentialAssertion
  ParseCredential : Bytes → Except String Bytes
  VerifyAssertion : PublicKeyCredentialAssertion → AssertionExpectedData → Option String
  EncodeToString : Bytes → String
  marshalErr : Payload → Option String
  Format : Nat → String

structure server (σ : Type) where
  webAuthnConfig : Config
  rpOrigin : String
  dataStore : dataStore σ
  ext : External

/-- The buffer `make([]byte, n)` after a read that delivered `src`. -/
def fillBuffer : Nat → Bytes → Bytes
  | 0, _ => []
  | n + 1, [] => 0 :: fillBuffer n []
  | n + 1, b :: bs => b :: fillBuffer n bs

/-- The statement `delete(session.Values, key)` on the login session of the context. -/
def deleteSessionValue {σ : Type} (st : World σ) (key : String) : World σ :=
  { st with ctx := mapModify st.ctx contextKeyLoginSession
              (fun s => { Values := mapDelete s.Values key }) }

/-- The statement `session.Values[key] = v` on the login session of the context. -/
def setSessionValue {σ : Type} (st : World σ) (key : String) (v : SessionValue) : World σ :=
  { st with ctx := mapModify st.ctx contextKeyLoginSession
              (fun s => { Values := mapSet s.Values key v }) }

/-- A write through the pointer `uSession` held under `sessionMapKeyUserSession`. -/
def updateUserSession {σ : Type} (st : World σ) (u : userSession) : World σ :=
  { st with ctx := mapModify st.ctx contextKeyLoginSession
              (fun s => { Values := mapModify s.Values sessionMapKeyUserSession
                                      (fun _ => SessionValue.userSession u) }) }

/-! ## registration_handlers.go -/

def handleAttestationOptions {σ : Type} (s : server σ) : HandlerFunc σ :=
  fun w r st =>
    match mapGet st.ctx contextKeyLoginSession with
    | none => { st with panicked := some "Failed to get session data from context" }
    | some _ =>
    match s.ext.decodeAttestationOptionsRequest r.Body with
    | .error e =>
      writeFailedServerResponse w StatusBadRequest ("Failed to json decode request body: " ++ e) st
    | .ok optionsRequest =>
    if optionsRequest.Username = "" then
      writeFailedServerResponse w StatusBadRequest "Missing username" st
    else if optionsRequest.DisplayName = "" then
      writeFailedServerResponse w StatusBadRequest "Missing displayName" st
    else
    let authenticatorSelection : AuthenticatorSelectionCriteria :=
      if optionsRequest.AuthenticatorSelection.UserVerification = "" then
        { optionsRequest.AuthenticatorSelection with UserVerification := UserVerificationPreferred }
      else optionsRequest.AuthenticatorSelection
    let attestation :=
      if optionsRequest.Attestation = "" then AttestationNone else optionsRequest.Attestation
    let st := { st with dbCalls := st.dbCalls ++ [dataStoreCall.getUser optionsRequest.Username] }
    let found : Except String user :=
      match s.dataStore.getUser st.db optionsRequest.Username with
      | .error .errNoRecords =>
        .ok { UserID := none, UserName := optionsRequest.Username,
              DisplayName := optionsRequest.DisplayName, CredentialIDs := [] }
      | .error err => .error err.Error
      | .ok u => .ok u
    match found with
    | .error e =>
      writeFailedServerResponse w StatusInternalServerError
        ("Failed to query user in database: " ++ e) st
    | .ok u =>
    let generated : Except String user :=
      if u.UserID = none then
        match s.ext.randRead r.rand with
        | (_, _, some err) => .error ("Failed to generate user ID: " ++ err)
        | (src, n, none) =>
          if n ≠ 64 then .error "Failed to generate requested random bytes"
          else .ok { u with UserID := some (fillBuffer 64 src) }
      else .ok u
    match generated with
    | .error e => writeFailedServerResponse w StatusInternalServerError e st
    | .ok u =>
    match s.ext.NewAttestationOptions s.webAuthnConfig
        { ID := u.UserID.getD [], Name := u.UserName, DisplayName := u.DisplayName,
          CredentialIDs := u.CredentialIDs } r.rand with
    | .error e =>
      writeFailedServerResponse w StatusInternalServerError
        ("Failed to generate PublicKeyCredentialCreationOptions: " ++ e) st
    | .ok creationOptions0 =>
    let creationOptions : PublicKeyCredentialCreationOptions :=
      { creationOptions0 with AuthenticatorSelection := authenticatorSelection,
                              Attestation := attestation }
    let st := setSessionValue st sessionMapKeyWebAuthnCreationOptions
      (SessionValue.creationOptions creationOptions)
    let st := setSessionValue st sessionMapKeyUserSession
      (SessionValue.userSession { User := u, LoggedInCredentialID := [] })
    let b := Payload.creationOptions { Status := statusOK, ErrorMessage := "" } creationOptions
    match s.ext.marshalErr b with
    | some e =>
      writeFailedServerResponse w StatusInternalServerError
        ("Failed to json encode response body: " ++ e) st
    | none => w.Write b (w.HeaderSet "Content-Type" "application/json" st)

def handleAttestationResult {σ : Type} (s : server σ) : HandlerFunc σ :=
  fun w r st =>
    match mapGet st.ctx contextKeyLoginSession with
    | none => { st with panicked := some "Failed to get session data from context" }
    | some session =>
    match asCreationOptions (mapGet session.Values sessionMapKeyWebAuthnCreationOptions) with
    | none =>
      writeFailedServerResponse w StatusUnauthorized
        "Session doesn't have PublicKeyCredentialCreationOptions data"
        (deleteSessionValue st sessionMapKeyWebAuthnCreationOptions)
    | some savedCreationOptions =>
    match asUserSession (mapGet session.Values sessionMapKeyUserSession) with
    | none =>
      writeFailedServerResponse w StatusUnauthorized "Session doesn't have user data"
        (deleteSessionValue st sessionMapKeyWebAuthnCreationOptions)
    | some uSession =>
    match s.ext.ParseAttestation r.Body with
    | .error e =>
      writeFailedServerResponse w StatusBadRequest ("Failed to parse attestation: " ++ e)
        (deleteSessionValue st sessionMapKeyWebAuthnCreationOptions)
    | .ok credentialAttestation =>
    let credentialAlgs := savedCreationOptions.PubKeyCredParams
    let expected : AttestationExpectedData :=
      { Origin := s.rpOrigin,
        RPID := savedCreationOptions.RPID,
        CredentialAlgs := credentialAlgs,
        Challenge := s.ext.EncodeToString savedCreationOptions.Challenge,
        UserVerification := savedCreationOptions.AuthenticatorSelection.UserVerification }
    match s.ext.VerifyAttestation credentialAttestation expected with
    | some e =>
      writeFailedServerResponse w StatusBadRequest ("Failed to verify attestation: " ++ e)
        (deleteSessionValue st sessionMapKeyWebAuthnCreationOptions)
    | none =>
    let c : credential :=
      { CredentialID := credentialAttestation.RawID,
        UserID := uSession.User.UserID.getD [],
        Counter := credentialAttestation.AuthnData.Counter,
        CoseKey := credentialAttestation.AuthnData.CredentialRaw }
    let res := s.dataStore.addUserCredential st.db uSession.User c
    let st := { st with
      db := res.2, dbCalls := st.dbCalls ++ [dataStoreCall.addUserCredential uSession.User c] }
    match res.1 with
    | some .errRecordExists =>
      writeFailedServerResponse w StatusInternalServerError "User credential exists in the system"
        (deleteSessionValue st sessionMapKeyWebAuthnCreationOptions)
    | some err =>
      writeFailedServerResponse w StatusInternalServerError
        ("Failed to save user credential: " ++ err.Error)
        (deleteSessionValue st sessionMapKeyWebAuthnCreationOptions)
    | none =>
    let st := deleteSessionValue st sessionMapKeyWebAuthnCreationOptions
    let uSession1 : userSession :=
      { uSession with User := { uSession.User with
          CredentialIDs := uSession.User.CredentialIDs ++ [credentialAttestation.RawID] } }
    let uSession2 : userSession :=
      if uSession1.LoggedInCredentialID.length = 0 then
        { uSession1 with LoggedInCredentialID := credentialAttestation.RawID }
      else uSession1
    writeOKServerResponse w (updateUserSession st uSession2)

/-! ## authentication_handlers.go -/

def handleAssertionOptions {σ : Type} (s : server σ) : HandlerFunc σ :=
  fun w r st =>
    match mapGet st.ctx contextKeyLoginSession with
    | none => { st with panicked := some "Failed to get session data from context" }
    | some _ =>
    match s.ext.decodeAssertionOptionsRequest r.Body with
    | .error e =>
      writeFailedServerResponse w StatusBadRequest ("Failed to json decode request body: " ++ e) st
    | .ok optionsRequest =>
    if optionsRequest.Username = "" then
      writeFailedServerResponse w StatusBadRequest "Missing username" st
    else
    let userVerification :=
      if optionsRequest.UserVerification = "" then UserVerificationPreferred
      else optionsRequest.UserVerification
    let st := { st with dbCalls := st.dbCalls ++ [dataStoreCall.getUser optionsRequest.Username] }
    let found : Except String (Option user) :=
      match s.dataStore.getUser st.db optionsRequest.Username with
      | .error .errNoRecords => .ok none
      | .error err => .error err.Error
      | .ok u => .ok (some u)
    match found with
    | .error e =>
      writeFailedServerResponse w StatusInternalServerError
        ("Failed to query user in database: " ++ e) st
    | .ok none =>
      writeFailedServerResponse w StatusBadRequest
        (optionsRequest.Username ++ " is not registered") st
    | .ok (some u) =>
    if u.UserID = none then
      writeFailedServerResponse w StatusBadRequest
        (optionsRequest.Username ++ " is not registered") st
    else
    match s.ext.NewAssertionOptions s.webAuthnConfig
        { ID := u.UserID.getD [], Name := u.UserName, DisplayName := u.DisplayName,
          CredentialIDs := u.CredentialIDs } r.rand with
    | .error e =>
      writeFailedServerResponse w StatusInternalServerError
        ("Failed to generate PublicKeyCredentialRequestOptions: " ++ e) st
    | .ok requestOptions0 =>
    let requestOptions : PublicKeyCredentialRequestOptions :=
      { requestOptions0 with UserVerification := userVerification }
    let st := setSessionValue st sessionMapKeyWebAuthnRequestOptions
      (SessionValue.requestOptions requestOptions)
    let st := setSessionValue st sessionMapKeyUserSession
      (SessionValue.userSession { User := u, LoggedInCredentialID := [] })
    let b := Payload.requestOptions { Status := statusOK, ErrorMessage := "" } requestOptions
    match s.ext.marshalErr b with
    | some e =>
      writeFailedServerResponse w StatusInternalServerError
        ("Failed to json encode response body: " ++ e) st
    | none => w.Write b (w.HeaderSet "Content-Type" "application/json" st)

/-- The value `expected := &webauthn.AssertionExpectedData{...}` that
`handleAssertionResult` builds from the saved options, the user session, the credential
`c` loaded from the datastore and its parsed key. -/
def assertionExpectedData {σ : Type} (s : server σ)
    (savedRequestOptions : PublicKeyCredentialRequestOptions) (uSession : userSession)
    (c : credential) (credKey : Bytes) : AssertionExpectedData :=
  let userCredentialIDs := savedRequestOptions.AllowCredentials
  { Origin := s.rpOrigin,
    RPID := savedRequestOptions.RPID,
    Challenge := s.ext.EncodeToString savedRequestOptions.Challenge,
    UserVerification := savedRequestOptions.UserVerification,
    UserID := uSession.User.UserID.getD [],
    UserCredentialIDs := userCredentialIDs,
    PrevCounter := c.Counter,
    Credential := credKey }

def handleAssertionResult {σ : Type} (s : server σ) : HandlerFunc σ :=
  fun w r st =>
    match mapGet st.ctx contextKeyLoginSession with
    | none => { st with panicked := some "Failed to get session data from context" }
    | some session =>
    match asRequestOptions (mapGet session.Values sessionMapKeyWebAuthnRequestOptions) with
    | none =>
      writeFailedServerResponse w StatusUnauthorized
        "Session doesn't have PublicKeyCredentialRequestOptions data"
        (deleteSessionValue st sessionMapKeyWebAuthnRequestOptions)
    | some savedRequestOptions =>
    match asUserSession (mapGet session.Values sessionMapKeyUserSession) with
    | none =>
      writeFailedServerResponse w StatusUnauthorized "Session doesn't have user data"
        (deleteSessionValue st sessionMapKeyWebAuthnRequestOptions)
    | some uSession =>
    match s.ext.ParseAssertion r.Body with
    | .error e =>
      writeFailedServerResponse w StatusBadRequest ("Failed to parse assertion: " ++ e)
        (deleteSessionValue st sessionMapKeyWebAuthnRequestOptions)
    | .ok credentialAssertion =>
    let st := { st with dbCalls := st.dbCalls ++
      [dataStoreCall.getCredential (uSession.User.UserID.getD []) credentialAssertion.RawID] }
    match s.dataStore.getCredential st.db (uSession.User.UserID.getD [])
        credentialAssertion.RawID with
    | .error err =>
      writeFailedServerResponse w StatusInternalServerError
        ("Failed to find credential: " ++ err.Error)
        (deleteSessionValue st sessionMapKeyWebAuthnRequestOptions)
    | .ok c =>
    match s.ext.ParseCredential c.CoseKey with
    | .error e =>
      writeFailedServerResponse w StatusInternalServerError
        ("Failed to create credential public key: " ++ e)
        (deleteSessionValue st sessionMapKeyWebAuthnRequestOptions)
    | .ok credKey =>
    let expected := assertionExpectedData s savedRequestOptions uSession c credKey
    match s.ext.VerifyAssertion credentialAssertion expected with
    | some e =>
      writeFailedServerResponse w StatusBadRequest ("Failed to verify assertion: " ++ e)
        (deleteSessionValue st sessionMapKeyWebAuthnRequestOptions)
    | none =>
    let c1 : credential := { c with Counter := credentialAssertion.AuthnData.Counter }
    let res := s.dataStore.updateCredential st.db c1
    let st := { st with
      db := res.2, dbCalls := st.dbCalls ++ [dataStoreCall.updateCredential c1] }
    match res.1 with
    | some err =>
      writeFailedServerResponse w StatusInternalServerError
        ("Failed to update credential: " ++ err.Error)
        (deleteSessionValue st sessionMapKeyWebAuthnRequestOptions)
    | none =>
    let st := deleteSessionValue st sessionMapKeyWebAuthnRequestOptions
    writeOKServerResponse w
      (updateUserSession st { uSession with LoggedInCredentialID := credentialAssertion.RawID })

/-! ## user_handlers.go -/

def handleLogout {σ : Type} (_s : server σ) : HandlerFunc σ :=
  fun w _r st =>
    match mapGet st.ctx contextKeyLoginSession with
    | none => { st with panicked := some "Failed to get session data from context" }
    | some _ => writeOKServerResponse w (deleteSessionValue st sessionMapKeyUserSession)

def handleUser {σ : Type} (s : server σ) : HandlerFunc σ :=
  fun w _r st =>
    match mapGet st.ctx contextKeyLoginSession with
    | none => { st with panicked := some "Failed to get session data from context" }
    | some session =>
    match asUserSession (mapGet session.Values sessionMapKeyUserSession) with
    | none =>
      writeFailedServerResponse w StatusUnauthorized "Session doesn't have user credential" st
    | some uSession =>
    let st := { st with dbCalls := st.dbCalls ++
      [dataStoreCall.getCredentialTimestamp (uSession.User.UserID.getD [])
        uSession.LoggedInCredentialID] }
    match s.dataStore.getCredentialTimestamp st.db (uSession.User.UserID.getD [])
        uSession.LoggedInCredentialID with
    | .error err =>
      writeFailedServerResponse w StatusInternalServerError
        ("Failed to find credential: " ++ err.Error) st
    | .ok (registeredAt, loggedInAt) =>
    let resp : userResponse :=
      { Status := statusOK,
        Name := uSession.User.UserName,
        DisplayName := uSession.User.DisplayName,
        CredentialID := s.ext.EncodeToString uSession.LoggedInCredentialID,
        RegisteredAt := s.ext.Format registeredAt,
        LoggedInAt := s.ext.Format loggedInAt }
    match s.ext.marshalErr (Payload.user resp) with
    | some _ =>
      writeFailedServerResponse w StatusInternalServerError
        "failed to json marshal response body" st
    | none => w.Write (Payload.user resp) (w.HeaderSet "Content-Type" "application/json" st)

/-! ## routes.go -/

/-- The paths `routes()` registers a handler of the server for. -/
inductive Route where
  | attestationOptions
  | assertionOptions
  | attestationResult
  | assertionResult
  | logout
  | user
deriving DecidableEq, Repr

/-- The handler each path is registered with, before the middleware. -/
def Route.handler {σ : Type} (s : server σ) : Route → HandlerFunc σ
  | .attestationOptions => handleAttestationOptions s
  | .assertionOptions => handleAssertionOptions s
  | .attestationResult => handleAttestationResult s
  | .assertionResult => handleAssertionResult s
  | .logout => handleLogout s
  | .user => handleUser s

/-- The function `routes`: the handler registered for each path. -/
def routes {σ : Type} (s : server σ) : Route → HandlerFunc σ
  | .attestationOptions => handleAuthnSession (handleAttestationOptions s)
  | .assertionOptions => handleAuthnSession (handleAssertionOptions s)
  | .attestationResult => handleAuthnSession (handleAttestationResult s)
  | .assertionResult => handleAuthnSession (handleAssertionResult s)
  | .logout => handleAuthnSession (handleLogout s)
  | .user => loggedInUserOnly (handleSession [] [sessionNameLoginSession] (handleUser s))

/-! ## config.go -/

/-- The type `config`; `WebAuthn` is a pointer, nil when the file has no such section. -/
structure config where
  WebAuthn : Option Config
  Origin : String
  SessionKey : Bytes
  DBConnString : String
  RedisNetwork : String
  RedisAddr : String
  RedisPwd : String
deriving DecidableEq, Repr

/-- What `newConfig` reads from outside: `Decode` is `json.NewDecoder(configFile).Decode`
into an empty `config`, `Valid` the method `(*webauthn.Config).Valid` on a receiver that
is not nil, `DecodeString` the function `base64.RawStdEncoding.DecodeString`, `Getenv`
the function `os.Getenv`. -/
structure Environment where
  Decode : String → Except String config
  Valid : Config → Option String
  DecodeString : String → Except String Bytes
  Getenv : String → String

/-- How a call ends: it returns its results, or it panics. -/
inductive Outcome (α : Type) where
  | returns (a : α)
  | panics (msg : String)
deriving DecidableEq, Repr

/-- The function `newConfig`. The call `c.WebAuthn.Valid()` is made whether or not
`c.WebAuthn` is nil; `Valid` reads the fields of its receiver, which on the nil pointer
is a run-time panic. -/
def newConfig (env : Environment) (configFile : String) : Outcome (Except String config) :=
  match env.Decode configFile with
  | .error err => .returns (.error ("failed to decode config file: " ++ err))
  | .ok c =>
  match c.WebAuthn with
  | none => .panics "runtime error: invalid memory address or nil pointer dereference"
  | some webAuthn =>
  match env.Valid webAuthn with
  | some err => .returns (.error err)
  | none =>
  if c.Origin = "" then .returns (.error "origin is empty")
  else
  match env.DecodeString (env.Getenv "SESSION_KEY") with
  | .error err => .returns (.error ("failed to base64 decode session key: " ++ err))
  | .ok key =>
  let c := { c with SessionKey := key }
  if c.SessionKey.length = 0 then .returns (.error "SESSION_KEY is empty")
  else
  let c := { c with DBConnString := env.Getenv "DB_CONNSTRING" }
  if c.DBConnString = "" then .returns (.error "DB_CONNSTRING is empty")
  else
  let c := { c with RedisNetwork := env.Getenv "REDIS_NETWORK" }
  let c := if c.RedisNetwork = "" then { c with RedisNetwork := "tcp" } else c
  let c := { c with RedisAddr := env.Getenv "REDIS_ADDR" }
  let c := if c.RedisAddr = "" then { c with RedisAddr := "localhost:6379" } else c
  let c := { c with RedisPwd := env.Getenv "REDIS_PWD" }
  .returns (.ok c)

/-! ## db.go: the PostgreSQL store -/

structure userRow where
  id : Bytes
  username : String
  display_name : String
deriving DecidableEq, Repr

structure credentialRow where
  id : Bytes
  user_id : Bytes
  counter : Nat
  cose_key : Bytes
  registered_at : Nat
  loggedin_at : Nat
deriving DecidableEq, Repr

/-- The tables `users` and `credentials`. -/
structure Tables where
  users : List userRow
  credentials : List credentialRow
deriving DecidableEq, Repr

/-- The connection `*sql.DB` as the store methods see it: the clock `time.Now()` and
the errors the driver reports on each call (none when the call goes through). -/
structure dbStore where
  now : Nat
  beginErr : Option String
  execUserErr : Option String
  execCredentialErr : Option String
  commitErr : Option String
  execUpdateErr : Option String
  rowsAffectedErr : Option String
  queryErr : Option String
deriving DecidableEq, Repr

/-- Modelled from the spec: the schema of the database, which the sources only name
through the constraints `users_pkey` and `credentials_pkey`. The spec gives
`users(id, username unique, display_name)` with primary key `id`. The statement is
`INSERT INTO users ... ON CONFLICT ON CONSTRAINT users_pkey DO NOTHING`: a row with the
same `id` makes it a no-op, a row with the same `username` is a unique violation. -/
def insertUser (t : Tables) (u : user) : Except String Tables :=
  if t.users.any (fun row => row.id = (u.UserID.getD [])) then .ok t
  else if t.users.any (fun row => row.username = u.UserName) then
    .error "pq: duplicate key value violates unique constraint \"users_username_key\""
  else
    .ok { t with users := t.users ++
            [{ id := u.UserID.getD [], username := u.UserName, display_name := u.DisplayName }] }

/-- Modelled from the spec: the schema of the database. The spec gives
`credentials(id, user_id references users, ...)` with a uniqueness constraint on `id`.
The statement is `INSERT INTO credentials ... ON CONFLICT ON CONSTRAINT credentials_pkey
DO NOTHING`; the result is the new table and the number of rows affected. -/
def insertCredential (t : Tables) (c : credential) (now : Nat) : Except String (Tables × Nat) :=
  if t.credentials.any (fun row => row.id = c.CredentialID) then .ok (t, 0)
  else if ¬ t.users.any (fun row => row.id = c.UserID) then
    .error "pq: insert or update on table \"credentials\" violates foreign key constraint"
  else
    .ok ({ t with credentials := t.credentials ++
             [{ id := c.CredentialID, user_id := c.UserID, counter := c.Counter,
                cose_key := c.CoseKey, registered_at := now, loggedin_at := now }] }, 1)

/-- The statement `UPDATE credentials SET counter = $1, loggedin_at = $2 WHERE user_id = $3
and id = $4`: the new table and the number of rows affected. -/
def updateCredentialRows (t : Tables) (counter now : Nat) (userID credentialID : Bytes) :
    Tables × Nat :=
  ({ t with credentials := t.credentials.map (fun row =>
      if row.user_id = userID ∧ row.id = credentialID then
        { row with counter := counter, loggedin_at := now }
      else row) },
   (t.credentials.filter (fun row => row.user_id = userID ∧ row.id = credentialID)).length)

/-- The method `getUser`. `u.UserID` is nil until `rows.Scan` stores the `id` of a row
in it, which is a slice that is not nil also for an empty `bytea`. -/
def dbStore.getUser (db : dbStore) (t : Tables) (username : String) : Except error user :=
  match db.queryErr with
  | some e => .error (.other e)
  | none =>
    let rows := t.users.flatMap (fun ur =>
      (t.credentials.filter (fun cr => ur.id = cr.user_id ∧ ur.username = username)).map
        (fun cr => (ur, cr)))
    let u := rows.foldl
      (fun (u : user) (row : userRow × credentialRow) =>
        { u with UserID := some row.1.id, DisplayName := row.1.display_name,
                 CredentialIDs := u.CredentialIDs ++ [row.2.id] })
      { UserID := none, UserName := username, DisplayName := "", CredentialIDs := [] }
    if u.UserID = none then .error .errNoRecords else .ok u

def dbStore.getCredential (db : dbStore) (t : Tables) (userID credentialID : Bytes) :
    Except error credential :=
  match db.queryErr with
  | some e => .error (.other e)
  | none =>
    match t.credentials.find? (fun row => row.user_id = userID ∧ row.id = credentialID) with
    | none => .error .errNoRecords
    | some row =>
      .ok { CredentialID := credentialID, UserID := userID, Counter := row.counter,
            CoseKey := row.cose_key }

def dbStore.getCredentialTimestamp (db : dbStore) (t : Tables) (userID credentialID : Bytes) :
    Except error (Nat × Nat) :=
  match db.queryErr with
  | some e => .error (.other e)
  | none =>
    match t.credentials.find? (fun row => row.user_id = userID ∧ row.id = credentialID) with
    | none => .error .errNoRecords
    | some row => .ok (row.registered_at, row.loggedin_at)

def dbStore.addUserCredential (db : dbStore) (t : Tables) (u : user) (c : credential) :
    Option error × Tables :=
  match db.beginErr with
  | some e => (some (.other e), t)
  | none =>
  match db.execUserErr with
  | some e => (some (.other e), t)
  | none =>
  match insertUser t u with
  | .error e => (some (.other e), t)
  | .ok t1 =>
  let now := db.now
  match db.execCredentialErr with
  | some e => (some (.other e), t)
  | none =>
  match insertCredential t1 c now with
  | .error e => (some (.other e), t)
  | .ok (t2, rowsAffected) =>
  match db.commitErr with
  | some e => (some (.other e), t)
  | none =>
  if db.rowsAffectedErr = none ∧ rowsAffected = 0 then (some .errRecordExists, t2)
  else (none, t2)

def dbStore.updateCredential (db : dbStore) (t : Tables) (c : credential) :
    Option error × Tables :=
  match db.execUpdateErr with
  | some e => (some (.other e), t)
  | none =>
  let res := updateCredentialRows t c.Counter db.now c.UserID c.CredentialID
  if db.rowsAffectedErr = none ∧ res.2 = 0 then (some .errNoRecords, res.1)
  else (none, res.1)

/-- The store `&dbStore{db}` as a `dataStore`. -/
def dbStore.toDataStore (db : dbStore) : dataStore Tables where
  getUser := db.getUser
  getCredential := db.getCredential
  getCredentialTimestamp := db.getCredentialTimestamp
  addUserCredential := db.addUserCredential
  updateCredential := db.updateCredential

/-- A connection on which every call goes through, at time `now`. -/
def reliable (now : Nat) : dbStore :=
  { now := now, beginErr := none, execUserErr := none, execCredentialErr := none,
    commitErr := none, execUpdateErr := none, rowsAffectedErr := none, queryErr := none }

/-! ## The writers a handler is given -/

/-- The writers the server creates: its own, or a `sessionWriter` around its own. -/
inductive WriterKind where
  | server
  | session (rwSession : List String)
deriving DecidableEq, Repr

def WriterKind.writer (σ : Type) : WriterKind → ResponseWriter σ
  | .server => serverWriter σ
  | .session rwSession => sessionWriter (serverWriter σ) rwSession

/-- The entry `key` of the login session held in a request context. -/
def loginValue (ctx : List (String × Session)) (key : String) : Option SessionValue :=
  (mapGet ctx contextKeyLoginSession).bind (fun session => mapGet session.Values key)

/-! ## Notions used to state the properties -/

/-- The request passes every check of `handleAssertionResult` up to and including
`webauthn.VerifyAssertion`: the session holds the saved request options and the user
session, the body parses to `a`, the datastore returns the credential `c` for the
asserted ID, its key parses, and the verifier accepts. -/
def assertionAccepted {σ : Type} (s : server σ) (r : Request) (st : World σ)
    (a : PublicKeyCredentialAssertion) (c : credential) : Prop :=
  ∃ session savedRequestOptions uSession credKey,
    mapGet st.ctx contextKeyLoginSession = some session ∧
    asRequestOptions (mapGet session.Values sessionMapKeyWebAuthnRequestOptions)
      = some savedRequestOptions ∧
    asUserSession (mapGet session.Values sessionMapKeyUserSession) = some uSession ∧
    s.ext.ParseAssertion r.Body = .ok a ∧
    s.dataStore.getCredential st.db (uSession.User.UserID.getD []) a.RawID = .ok c ∧
    s.ext.ParseCredential c.CoseKey = .ok credKey ∧
    s.ext.VerifyAssertion a (assertionExpectedData s savedRequestOptions uSession c credKey)
      = none

/-- The first call a handler makes on the response is `WriteHeader`: the status is
fixed before any body is written. -/
def headerFirst : List HandlerOp → Bool
  | [] => false
  | .WriteHeader _ :: _ => true
  | .Write _ :: _ => false
  | _ :: rest => headerFirst rest

/-- Every status a handler passes to `WriteHeader` is an HTTP status code, as the
contract of `http.ResponseWriter` demands. -/
def validCodes : List HandlerOp → Bool
  | [] => true
  | .WriteHeader status :: rest => decide (100 ≤ status) && validCodes rest
  | _ :: rest => validCodes rest

/-- The world of a new request on the stores a previous request left behind. -/
def nextRequest {σ : Type} (st : World σ) : World σ :=
  { st with ctx := [], resp := NewRecorder, status := 0, panicked := none }

/-- The entry `key` of the login session as the session store holds it. -/
def storedLoginValue (store : SessionStore) (key : String) : Option SessionValue :=
  (mapGet store.records sessionNameLoginSession).bind (fun session => mapGet session.Values key)

/-- The counter the table `credentials` holds for `(userID, credentialID)`. -/
def storedCounter (t : Tables) (userID credentialID : Bytes) : Option Nat :=
  (t.credentials.find? (fun row => row.user_id = userID ∧ row.id = credentialID)).map
    (fun row => row.counter)

/-- The value `expected := &webauthn.AttestationExpectedData{...}` that
`handleAttestationResult` builds from the saved creation options. -/
def attestationExpectedData {σ : Type} (s : server σ)
    (savedCreationOptions : PublicKeyCredentialCreationOptions) : AttestationExpectedData :=
  { Origin := s.rpOrigin,
    RPID := savedCreationOptions.RPID,
    CredentialAlgs := savedCreationOptions.PubKeyCredParams,
    Challenge := s.ext.EncodeToString savedCreationOptions.Challenge,
    UserVerification := savedCreationOptions.AuthenticatorSelection.UserVerification }

/-- The session shows a completed login: its `UserSession` entry is a `*userSession`
with a non-empty `LoggedInCredentialID`. -/
def loggedIn (session : Session) : Prop :=
  ∃ u, asUserSession (mapGet session.Values sessionMapKeyUserSession) = some u ∧
    u.LoggedInCredentialID ≠ []

/-- The failed response body `json.Marshal(serverResponse{statusFailed, errMsg})`. -/
def failedBody (errMsg : String) : Payload :=
  Payload.failed { Status := statusFailed, ErrorMessage := errMsg }

/-- The user `u` of `handleAttestationOptions` after the block "Get user from
datastore": the stored user, a new user when the datastore has no records, or the text
of the error. -/
def attestationFoundUser {σ : Type} (s : server σ) (db : σ)
    (optionsRequest : attestationOptionsRequest) : Except String user :=
  match s.dataStore.getUser db optionsRequest.Username with
  | .error .errNoRecords =>
    .ok { UserID := none, UserName := optionsRequest.Username,
          DisplayName := optionsRequest.DisplayName, CredentialIDs := [] }
  | .error err => .error err.Error
  | .ok u => .ok u

/-- The user `u` of `handleAttestationOptions` after the block "Generate user ID for
new user". -/
def attestationGeneratedUser {σ : Type} (s : server σ) (r : Request) (u : user) :
    Except String user :=
  if u.UserID = none then
    match s.ext.randRead r.rand with
    | (_, _, some err) => .error ("Failed to generate user ID: " ++ err)
    | (src, n, none) =>
      if n ≠ 64 then .error "Failed to generate requested random bytes"
      else .ok { u with UserID := some (fillBuffer 64 src) }
  else .ok u

/-- The creation options `handleAttestationOptions` stores and returns: the options of
the builder with the authenticator selection and the attestation preference of the
request, defaults applied. -/
def issuedCreationOptions (optionsRequest : attestationOptionsRequest)
    (creationOptions0 : PublicKeyCredentialCreationOptions) :
    PublicKeyCredentialCreationOptions :=
  { creationOptions0 with
    AuthenticatorSelection :=
      if optionsRequest.AuthenticatorSelection.UserVerification = "" then
        { optionsRequest.AuthenticatorSelection with
          UserVerification := UserVerificationPreferred }
      else optionsRequest.AuthenticatorSelection,
    Attestation :=
      if optionsRequest.Attestation = "" then AttestationNone
      else optionsRequest.Attestation }

/-- The `webauthn.User` that the option handlers build from a `user`. -/
def webAuthnUserOf (u : user) : WebAuthnUser :=
  { ID := u.UserID.getD [], Name := u.UserName, DisplayName := u.DisplayName,
    CredentialIDs := u.CredentialIDs }

/-- Between the session stores `s0` and `s1`, `Save` was called only for sessions
named in `names`. -/
def savesOnly (names : List String) (s0 s1 : SessionStore) : Prop :=
  ∃ added : List (String × Session),
    s1.saveCalls = s0.saveCalls ++ added ∧ ∀ e ∈ added, e.1 ∈ names

/-- The two writers the routes hand to a handler. -/
def routeWriter (k : WriterKind) : Prop :=
  k = WriterKind.server ∨ k = WriterKind.session [sessionNameLoginSession]

/-- The handler has answered by writing `b` after having bound, in the login session of
the context, the User Session to the user `u` with no logged-in credential. -/
def optionsWritten {σ : Type} (k : WriterKind) (st out : World σ) (u : user) (b : Payload) :
    Prop :=
  ∃ (key : String) (v : SessionValue) (st0 : World σ),
    st0.ctx = st.ctx ∧ st0.resp = st.resp ∧ st0.status = st.status ∧
    st0.sessionStore = st.sessionStore ∧
    out = (k.writer σ).Write b ((k.writer σ).HeaderSet "Content-Type" "application/json"
      (setSessionValue (setSessionValue st0 key v) sessionMapKeyUserSession
        (SessionValue.userSession { User := u, LoggedInCredentialID := [] })))

/-! ### Response bodies as JSON objects

The members of the JSON object a response body is, in the order in which they are
written. For a value encoded by `json.Marshal` these are the fields of the struct under
the names of their tags, the fields of an embedded struct first; for the constant
`serverResponseOKJSONString` they are read from the text. -/

def skipSpaces : List Char → List Char
  | [] => []
  | c :: cs => if c.toNat = 32 ∨ c.toNat = 9 ∨ c.toNat = 10 ∨ c.toNat = 13 then skipSpaces cs
               else c :: cs

/-- The text up to the closing quote (code 34), and what follows it. -/
def readUntilQuote : List Char → List Char → Option (String × List Char)
  | [], _ => none
  | c :: cs, acc =>
    if c.toNat = 34 then some (String.mk acc.reverse, cs) else readUntilQuote cs (c :: acc)

/-- A JSON string without escapes. -/
def readString : List Char → Option (String × List Char)
  | [] => none
  | c :: cs => if c.toNat = 34 then readUntilQuote cs [] else none

/-- The members `"name": "value"` up to the closing brace (code 125). -/
def readMembers : Nat → List Char → Option (List (String × String))
  | 0, _ => none
  | fuel + 1, cs =>
    match readString (skipSpaces cs) with
    | none => none
    | some (k, cs1) =>
      match skipSpaces cs1 with
      | [] => none
      | c :: cs2 =>
        if c.toNat ≠ 58 then none
        else
          match readString (skipSpaces cs2) with
          | none => none
          | some (v, cs3) =>
            match skipSpaces cs3 with
            | [] => none
            | d :: cs4 =>
              if d.toNat = 44 then (readMembers fuel cs4).map (fun rest => (k, v) :: rest)
              else if d.toNat = 125 ∧ skipSpaces cs4 = [] then some [(k, v)]
              else none

/-- The members of a JSON object all of whose values are strings without escapes. -/
def readObject (text : String) : Option (List (String × String)) :=
  match skipSpaces text.toList with
  | [] => none
  | c :: cs => if c.toNat = 123 then readMembers text.length cs else none

/-- The members of the JSON object a response body is, in order, as far as the types
of this package give them: all of them for a `serverResponse`, for the response of
`handleUser` and for a text; for the two options responses the members of the embedded
`serverResponse`, which the members of the options follow. -/
def jsonMembers : Payload → List (String × String)
  | .failed r => [("status", r.Status), ("errorMessage", r.ErrorMessage)]
  | .raw text => (readObject text).getD []
  | .creationOptions r _ => [("status", r.Status), ("errorMessage", r.ErrorMessage)]
  | .requestOptions r _ => [("status", r.Status), ("errorMessage", r.ErrorMessage)]
  | .user r =>
    [("status", r.Status), ("name", r.Name), ("displayName", r.DisplayName),
     ("credentialID", r.CredentialID), ("registeredAt", r.RegisteredAt),
     ("loggedInAt", r.LoggedInAt)]

/-- A success body: the first member is `status` with the value "ok"; the member
`errorMessage`, when there is one, comes second and is empty. -/
def successBody (b : Payload) : Prop :=
  (jsonMembers b).head? = some ("status", "ok") ∧
  ((jsonMembers b)[1]? = some ("errorMessage", "") ∨
    ∀ m ∈ jsonMembers b, m.1 ≠ "errorMessage")

/-- The members of the success body of each route: the two options responses begin
with `status` and an empty `errorMessage`; the OK response of the result routes and of
logout has the member `status` alone; the response of `/user` has `status` and the five
fields of the user, and no `errorMessage`. -/
def successMembers : Route → Payload → Prop
  | .attestationOptions, b =>
    (jsonMembers b).take 2 = [("status", "ok"), ("errorMessage", "")]
  | .assertionOptions, b =>
    (jsonMembers b).take 2 = [("status", "ok"), ("errorMessage", "")]
  | .attestationResult, b => jsonMembers b = [("status", "ok")]
  | .assertionResult, b => jsonMembers b = [("status", "ok")]
  | .logout, b => jsonMembers b = [("status", "ok")]
  | .user, b =>
    ∃ name displayName credentialID registeredAt loggedInAt : String,
      jsonMembers b = [("status", "ok"), ("name", name), ("displayName", displayName),
        ("credentialID", credentialID), ("registeredAt", registeredAt),
        ("loggedInAt", loggedInAt)]

/-! ## A concrete server, for the examples -/

def demoExternal : External where
  decodeAttestationOptionsRequest := fun body =>
    if body = "" then .error "EOF"
    else .ok { Username := body, DisplayName := body,
               AuthenticatorSelection :=
                 { AuthenticatorAttachment := "", RequireResidentKey := false,
                   ResidentKey := "", UserVerification := "" },
               Attestation := "" }
  decodeAssertionOptionsRequest := fun body =>
    if body = "" then .error "EOF" else .ok { Username := body, UserVerification := "" }
  randRead := fun seed => ([seed], 64, none)
  NewAttestationOptions := fun cfg u seed =>
    .ok { RPID := cfg.RPID, User := u, Challenge := [seed],
          PubKeyCredParams := cfg.CredentialAlgs, ExcludeCredentials := u.CredentialIDs,
          AuthenticatorSelection :=
            { AuthenticatorAttachment := "", RequireResidentKey := false,
              ResidentKey := "", UserVerification := cfg.UserVerification },
          Attestation := cfg.Attestation }
  NewAssertionOptions := fun cfg u seed =>
    .ok { Challenge := [seed], RPID := cfg.RPID, AllowCredentials := u.CredentialIDs,
          UserVerification := cfg.UserVerification }
  ParseAttestation := fun body =>
    if body = "good" then
      .ok { RawID := [2], AuthnData := { Counter := 0, CredentialRaw := [7] },
            ClientChallenge := "9" }
    else .error "unexpected end of JSON input"
  VerifyAttestation := fun a e =>
    if a.ClientChallenge = e.Challenge then none else some "challenge mismatch"
  ParseAssertion := fun body =>
    if body = "good" then
      .ok { RawID := [1], AuthnData := { Counter := 3, CredentialRaw := [] },
            ClientChallenge := "9" }
    else .error "unexpected end of JSON input"
  ParseCredential := fun key => .ok key
  VerifyAssertion := fun a e =>
    if a.ClientChallenge = e.Challenge then
      (if e.PrevCounter ≤ a.AuthnData.Counter then none else some "counter regression")
    else some "challenge mismatch"
  EncodeToString := fun b => if b = [9] then "9" else "x"
  marshalErr := fun _ => none
  Format := fun t => toString t

def demoConfig : Config :=
  { RPID := "localhost", RPName := "WebAuthn local server", Timeout := 10000,
    ChallengeLength := 32, UserVerification := "preferred", Attestation := "direct",
    CredentialAlgs := [-7] }

/-- A server on the PostgreSQL store, with a connection on which every call goes through. -/
def demoServer : server Tables :=
  { webAuthnConfig := demoConfig, rpOrigin := "http://localhost:3000",
    dataStore := (reliable 0).toDataStore, ext := demoExternal }

def demoUser : user :=
  { UserID := some [5], UserName := "alice", DisplayName := "Alice", CredentialIDs := [[1]] }

/-- Tables in which `demoUser` is registered with one credential, counter 2. -/
def demoTables : Tables :=
  { users := [{ id := [5], username := "alice", display_name := "Alice" }],
    credentials := [{ id := [1], user_id := [5], counter := 2, cose_key := [7],
                      registered_at := 0, loggedin_at := 0 }] }

def demoCreationOptions : PublicKeyCredentialCreationOptions :=
  { RPID := "localhost",
    User := { ID := [6], Name := "bob", DisplayName := "Bob", CredentialIDs := [] },
    Challenge := [9], PubKeyCredParams := [-7], ExcludeCredentials := [],
    AuthenticatorSelection :=
      { AuthenticatorAttachment := "", RequireResidentKey := false, ResidentKey := "",
        UserVerification := "preferred" },
    Attestation := "none" }

def demoRequestOptions : PublicKeyCredentialRequestOptions :=
  { Challenge := [9], RPID := "localhost", AllowCredentials := [[1]],
    UserVerification := "preferred" }

/-- A session in which a registration for the new user bob is pending. -/
def registrationPending : Session :=
  { Values :=
      [(sessionMapKeyWebAuthnCreationOptions, .creationOptions demoCreationOptions),
       (sessionMapKeyUserSession,
        .userSession { User := { UserID := some [6], UserName := "bob", DisplayName := "Bob",
                                 CredentialIDs := [] },
                       LoggedInCredentialID := [] })] }

/-- A session in which a login of alice is pending. -/
def loginPending : Session :=
  { Values :=
      [(sessionMapKeyWebAuthnRequestOptions, .requestOptions demoRequestOptions),
       (sessionMapKeyUserSession,
        .userSession { User := demoUser, LoggedInCredentialID := [] })] }

/-- A new request on a session store holding `session` and on the tables `t`. -/
def demoWorld (session : Option Session) (t : Tables) : World Tables :=
  { ctx := [], resp := NewRecorder, status := 0,
    sessionStore :=
      { records := match session with
          | some x => [(sessionNameLoginSession, x)]
          | none => [],
        getErr := [], saveErr := [], saveCalls := [] },
    db := t, dbCalls := [], panicked := none }

/-- A world in which the middleware has put `session` into the request context. -/
def demoHandlerWorld (session : Session) (t : Tables) : World Tables :=
  { ctx := [(contextKeyLoginSession, session)], resp := NewRecorder, status := 0,
    sessionStore :=
      { records := [(sessionNameLoginSession, session)], getErr := [], saveErr := [],
        saveCalls := [] },
    db := t, dbCalls := [], panicked := none }

/-- The assertion the example verifier parses from the body `good`. -/
def demoAssertion : PublicKeyCredentialAssertion :=
  { RawID := [1], AuthnData := { Counter := 3, CredentialRaw := [] }, ClientChallenge := "9" }

/-- The credential of alice as the tables of the example hold it. -/
def demoCredential : credential :=
  { CredentialID := [1], UserID := [5], Counter := 2, CoseKey := [7] }

/-- A session in which alice is logged in under her credential. -/
def loggedInSession : Session :=
  { Values :=
      [(sessionMapKeyUserSession,
        .userSession { User := demoUser, LoggedInCredentialID := [1] })] }

/-- A session in which bob is logged in, with the credential `[3]`. -/
def bobLoggedIn : Session :=
  { Values :=
      [(sessionMapKeyUserSession,
        .userSession { User := { UserID := some [6], UserName := "bob", DisplayName := "Bob",
                                 CredentialIDs := [[3]] },
                       LoggedInCredentialID := [3] })] }

/-- The creation options the example builder issues to alice with the seed 3. -/
def aliceCreationOptions : PublicKeyCredentialCreationOptions :=
  { RPID := "localhost",
    User := { ID := [5], Name := "alice", DisplayName := "Alice", CredentialIDs := [[1]] },
    Challenge := [3], PubKeyCredParams := [-7], ExcludeCredentials := [[1]],
    AuthenticatorSelection :=
      { AuthenticatorAttachment := "", RequireResidentKey := false, ResidentKey := "",
        UserVerification := "preferred" },
    Attestation := "direct" }

/-- A config file with an origin and no WebAuthn section. -/
def originOnlyConfigFile : String :=
  "\x7b \"Origin\": \"https://localhost:8443\" \x7d"

/-- An environment for the examples: the file `originOnlyConfigFile` decodes to a
`config` whose `WebAuthn` is nil, the empty file is an error, every other file decodes
to the configuration of the example; the two required variables are set. -/
def demoEnvironment : Environment where
  Decode := fun text =>
    if text = "" then .error "EOF"
    else if text = originOnlyConfigFile then
      .ok { WebAuthn := none, Origin := "https://localhost:8443", SessionKey := [],
            DBConnString := "", RedisNetwork := "", RedisAddr := "", RedisPwd := "" }
    else
      .ok { WebAuthn := some demoConfig, Origin := "https://localhost:8443",
            SessionKey := [], DBConnString := "", RedisNetwork := "", RedisAddr := "",
            RedisPwd := "" }
  Valid := fun c => if c.RPID = "" then some "rp id is required" else none
  DecodeString := fun text => if text = "" then .ok [] else .ok [115, 101, 99]
  Getenv := fun name =>
    if name = "SESSION_KEY" then "c2Vj"
    else if name = "DB_CONNSTRING" then "user=testuser dbname=testdb"
    else ""

/-- A datastore in the way of `MockDataStore` with `On("getUser").Return(u, nil)`: every
`getUser` returns `u`; no credential is stored and the writes succeed. -/
def mockDataStore (u : user) : dataStore Unit where
  getUser := fun _ _ => .ok u
  getCredential := fun _ _ _ => .error .errNoRecords
  getCredentialTimestamp := fun _ _ _ => .error .errNoRecords
  addUserCredential := fun _ _ _ => (none, ())
  updateCredential := fun _ _ => (none, ())

def mockServer (u : user) : server Unit :=
  { webAuthnConfig := demoConfig, rpOrigin := "http://localhost:3000",
    dataStore := mockDataStore u, ext := demoExternal }

/-- The user `mockNewUser` of the handler tests: a `UserID` and no credential ID. -/
def mockNewUser : user :=
  { UserID := some [1, 2, 3], UserName := "johndoe@example.com", DisplayName := "John Doe",
    CredentialIDs := [] }

/-- A world of the mock server in which the middleware has put `session` into the
request context. -/
def mockWorld (session : Session) : World Unit :=
  { ctx := [(contextKeyLoginSession, session)], resp := NewRecorder, status := 0,
    sessionStore :=
      { records := [(sessionNameLoginSession, session)], getErr := [], saveErr := [],
        saveCalls := [] },
    db := (), dbCalls := [], panicked := none }

/-- Tables in which carol has a user row and no credential row. -/
def carolTables : Tables :=
  { users := [{ id := [8], username := "carol", display_name := "Carol" }],
    credentials := [] }

/-! # Lemmas -/

section Maps

variable {β : Type}

theorem mapGet_mapDelete_self (m : List (String × β)) (k : String) :
    mapGet (mapDelete m k) k = none := by
  induction m with
  | nil => rfl
  | cons p t ih =>
    obtain ⟨k', v⟩ := p
    by_cases h : k' = k
    · simp [mapDelete, h, ih]
    · simp [mapDelete, mapGet, h, ih]

theorem mapGet_mapDelete_ne (m : List (String × β)) {k k' : String} (hne : k ≠ k') :
    mapGet (mapDelete m k) k' = mapGet m k' := by
  induction m with
  | nil => rfl
  | cons p t ih =>
    obtain ⟨k0, v⟩ := p
    by_cases h : k0 = k
    · subst h
      simp [mapDelete, mapGet, hne, ih]
    · by_cases h2 : k0 = k'
      · subst h2
        simp [mapDelete, mapGet, h]
      · simp [mapDelete, mapGet, h, h2, ih]

theorem mapGet_mapSet_self (m : List (String × β)) (k : String) (v : β) :
    mapGet (mapSet m k v) k = some v := by
  simp [mapSet, mapGet]

theorem mapGet_mapSet_ne (m : List (String × β)) {k k' : String} (v : β) (hne : k ≠ k') :
    mapGet (mapSet m k v) k' = mapGet m k' := by
  simp [mapSet, mapGet, hne, mapGet_mapDelete_ne m hne]

theorem mapGet_mapModify_self (m : List (String × β)) (k : String) (f : β → β) :
    mapGet (mapModify m k f) k = (mapGet m k).map f := by
  induction m with
  | nil => rfl
  | cons p t ih =>
    obtain ⟨k0, v⟩ := p
    by_cases h : k0 = k
    · simp [mapModify, mapGet, h]
    · simp [mapModify, mapGet, h, ih]

theorem mapGet_mapModify_ne (m : List (String × β)) {k k' : String} (f : β → β)
    (hne : k ≠ k') : mapGet (mapModify m k f) k' = mapGet m k' := by
  induction m with
  | nil => rfl
  | cons p t ih =>
    obtain ⟨k0, v⟩ := p
    by_cases h : k0 = k
    · subst h
      simp [mapModify, mapGet, hne, ih]
    · by_cases h2 : k0 = k'
      · subst h2
        simp [mapModify, mapGet, h]
      · simp [mapModify, mapGet, h, h2, ih]

end Maps

theorem key_user_ne_creation :
    sessionMapKeyUserSession ≠ sessionMapKeyWebAuthnCreationOptions := by decide

theorem key_user_ne_request :
    sessionMapKeyUserSession ≠ sessionMapKeyWebAuthnRequestOptions := by decide

theorem key_creation_ne_request :
    sessionMapKeyWebAuthnCreationOptions ≠ sessionMapKeyWebAuthnRequestOptions := by decide

/-! ## What the writers leave alone -/

section Writers

variable {σ : Type}

theorem saveSessions_frame (names : List String) (b : Payload) (st : World σ) :
    (saveSessions (serverWriter σ) names b st).ctx = st.ctx ∧
    (saveSessions (serverWriter σ) names b st).db = st.db ∧
    (saveSessions (serverWriter σ) names b st).dbCalls = st.dbCalls ∧
    (saveSessions (serverWriter σ) names b st).status = st.status := by
  induction names generalizing st with
  | nil => simp [saveSessions, serverWriter]
  | cons name rest ih =>
    simp only [saveSessions]
    split
    · simp
    · split
      · simp [writeFailedServerResponse, serverWriter]
      · rename_i store _
        have h := ih { st with sessionStore := store }
        simpa using h

@[simp] theorem write_ctx (k : WriterKind) (b : Payload) (st : World σ) :
    ((k.writer σ).Write b st).ctx = st.ctx := by
  cases k with
  | server => rfl
  | session rw =>
    simp only [WriterKind.writer, sessionWriter]
    split
    · rfl
    · exact (saveSessions_frame rw b st).1

@[simp] theorem write_db (k : WriterKind) (b : Payload) (st : World σ) :
    ((k.writer σ).Write b st).db = st.db := by
  cases k with
  | server => rfl
  | session rw =>
    simp only [WriterKind.writer, sessionWriter]
    split
    · rfl
    · exact (saveSessions_frame rw b st).2.1

@[simp] theorem write_dbCalls (k : WriterKind) (b : Payload) (st : World σ) :
    ((k.writer σ).Write b st).dbCalls = st.dbCalls := by
  cases k with
  | server => rfl
  | session rw =>
    simp only [WriterKind.writer, sessionWriter]
    split
    · rfl
    · exact (saveSessions_frame rw b st).2.2.1

@[simp] theorem writeHeader_ctx (k : WriterKind) (code : Nat) (st : World σ) :
    ((k.writer σ).WriteHeader code st).ctx = st.ctx := by
  cases k <;> rfl

@[simp] theorem writeHeader_db (k : WriterKind) (code : Nat) (st : World σ) :
    ((k.writer σ).WriteHeader code st).db = st.db := by
  cases k <;> rfl

@[simp] theorem writeHeader_dbCalls (k : WriterKind) (code : Nat) (st : World σ) :
    ((k.writer σ).WriteHeader code st).dbCalls = st.dbCalls := by
  cases k <;> rfl

@[simp] theorem headerSet_ctx (k : WriterKind) (a b : String) (st : World σ) :
    ((k.writer σ).HeaderSet a b st).ctx = st.ctx := by
  cases k <;> rfl

@[simp] theorem headerSet_db (k : WriterKind) (a b : String) (st : World σ) :
    ((k.writer σ).HeaderSet a b st).db = st.db := by
  cases k <;> rfl

@[simp] theorem headerSet_dbCalls (k : WriterKind) (a b : String) (st : World σ) :
    ((k.writer σ).HeaderSet a b st).dbCalls = st.dbCalls := by
  cases k <;> rfl

@[simp] theorem writeFailed_ctx (k : WriterKind) (code : Nat) (msg : String) (st : World σ) :
    (writeFailedServerResponse (k.writer σ) code msg st).ctx = st.ctx := by
  simp [writeFailedServerResponse]

@[simp] theorem writeFailed_db (k : WriterKind) (code : Nat) (msg : String) (st : World σ) :
    (writeFailedServerResponse (k.writer σ) code msg st).db = st.db := by
  simp [writeFailedServerResponse]

@[simp] theorem writeFailed_dbCalls (k : WriterKind) (code : Nat) (msg : String)
    (st : World σ) :
    (writeFailedServerResponse (k.writer σ) code msg st).dbCalls = st.dbCalls := by
  simp [writeFailedServerResponse]

@[simp] theorem writeOK_ctx (k : WriterKind) (st : World σ) :
    (writeOKServerResponse (k.writer σ) st).ctx = st.ctx := by
  simp [writeOKServerResponse]

@[simp] theorem writeOK_db (k : WriterKind) (st : World σ) :
    (writeOKServerResponse (k.writer σ) st).db = st.db := by
  simp [writeOKServerResponse]

@[simp] theorem writeOK_dbCalls (k : WriterKind) (st : World σ) :
    (writeOKServerResponse (k.writer σ) st).dbCalls = st.dbCalls := by
  simp [writeOKServerResponse]

@[simp] theorem loginValue_delete_self (st : World σ) (key : String) :
    loginValue (deleteSessionValue st key).ctx key = none := by
  unfold loginValue deleteSessionValue
  simp only [mapGet_mapModify_self]
  cases mapGet st.ctx contextKeyLoginSession with
  | none => rfl
  | some session => simp [mapGet_mapDelete_self]

theorem loginValue_delete_ne (st : World σ) {key key' : String} (hne : key ≠ key') :
    loginValue (deleteSessionValue st key).ctx key' = loginValue st.ctx key' := by
  unfold loginValue deleteSessionValue
  simp only [mapGet_mapModify_self]
  cases mapGet st.ctx contextKeyLoginSession with
  | none => rfl
  | some session => simp [mapGet_mapDelete_ne _ hne]

@[simp] theorem loginValue_set_self (st : World σ) (key : String) (v : SessionValue) :
    loginValue (setSessionValue st key v).ctx key =
      (mapGet st.ctx contextKeyLoginSession).map (fun _ => v) := by
  unfold loginValue setSessionValue
  simp only [mapGet_mapModify_self]
  cases mapGet st.ctx contextKeyLoginSession with
  | none => rfl
  | some session => simp [mapGet_mapSet_self]

theorem loginValue_set_ne (st : World σ) {key key' : String} (v : SessionValue)
    (hne : key ≠ key') :
    loginValue (setSessionValue st key v).ctx key' = loginValue st.ctx key' := by
  unfold loginValue setSessionValue
  simp only [mapGet_mapModify_self]
  cases mapGet st.ctx contextKeyLoginSession with
  | none => rfl
  | some session => simp [mapGet_mapSet_ne _ _ hne]

theorem loginValue_updateUser_ne (st : World σ) (u : userSession) {key : String}
    (hne : sessionMapKeyUserSession ≠ key) :
    loginValue (updateUserSession st u).ctx key = loginValue st.ctx key := by
  unfold loginValue updateUserSession
  simp only [mapGet_mapModify_self]
  cases mapGet st.ctx contextKeyLoginSession with
  | none => rfl
  | some session => simp [mapGet_mapModify_ne _ _ hne]

theorem loginValue_updateUser_self (st : World σ) (u : userSession) :
    loginValue (updateUserSession st u).ctx sessionMapKeyUserSession =
      (loginValue st.ctx sessionMapKeyUserSession).map (fun _ => SessionValue.userSession u) := by
  unfold loginValue updateUserSession
  simp only [mapGet_mapModify_self]
  cases mapGet st.ctx contextKeyLoginSession with
  | none => rfl
  | some session => simp [mapGet_mapModify_self]

end Writers

/-! ## Status and session store after a response -/

section Responses

variable {σ : Type}

@[simp] theorem deleteSessionValue_resp (st : World σ) (key : String) :
    (deleteSessionValue st key).resp = st.resp := rfl

@[simp] theorem deleteSessionValue_status (st : World σ) (key : String) :
    (deleteSessionValue st key).status = st.status := rfl

@[simp] theorem deleteSessionValue_store (st : World σ) (key : String) :
    (deleteSessionValue st key).sessionStore = st.sessionStore := rfl

@[simp] theorem deleteSessionValue_db (st : World σ) (key : String) :
    (deleteSessionValue st key).db = st.db := rfl

@[simp] theorem deleteSessionValue_dbCalls (st : World σ) (key : String) :
    (deleteSessionValue st key).dbCalls = st.dbCalls := rfl

@[simp] theorem updateUserSession_resp (st : World σ) (u : userSession) :
    (updateUserSession st u).resp = st.resp := rfl

@[simp] theorem updateUserSession_status (st : World σ) (u : userSession) :
    (updateUserSession st u).status = st.status := rfl

@[simp] theorem updateUserSession_store (st : World σ) (u : userSession) :
    (updateUserSession st u).sessionStore = st.sessionStore := rfl

@[simp] theorem updateUserSession_db (st : World σ) (u : userSession) :
    (updateUserSession st u).db = st.db := rfl

@[simp] theorem updateUserSession_dbCalls (st : World σ) (u : userSession) :
    (updateUserSession st u).dbCalls = st.dbCalls := rfl

@[simp] theorem setSessionValue_resp (st : World σ) (key : String) (v : SessionValue) :
    (setSessionValue st key v).resp = st.resp := rfl

@[simp] theorem setSessionValue_status (st : World σ) (key : String) (v : SessionValue) :
    (setSessionValue st key v).status = st.status := rfl

@[simp] theorem setSessionValue_store (st : World σ) (key : String) (v : SessionValue) :
    (setSessionValue st key v).sessionStore = st.sessionStore := rfl

@[simp] theorem setSessionValue_db (st : World σ) (key : String) (v : SessionValue) :
    (setSessionValue st key v).db = st.db := rfl

@[simp] theorem setSessionValue_dbCalls (st : World σ) (key : String) (v : SessionValue) :
    (setSessionValue st key v).dbCalls = st.dbCalls := rfl

/-- A failed response with a status other than 0 does not reach the session store. -/
theorem writeFailed_store (k : WriterKind) (code : Nat) (msg : String) (st : World σ)
    (hcode : code ≠ 0) :
    (writeFailedServerResponse (k.writer σ) code msg st).sessionStore = st.sessionStore := by
  cases k with
  | server => rfl
  | session rw =>
    simp [writeFailedServerResponse, WriterKind.writer, sessionWriter, serverWriter, hcode]

/-- A failed response on a response not yet started carries the status handed over. -/
theorem writeFailed_code (k : WriterKind) (code : Nat) (msg : String) (st : World σ)
    (hcode : code ≠ 0) (hfresh : st.resp.wroteHeader = false) :
    (writeFailedServerResponse (k.writer σ) code msg st).resp.Code = code := by
  cases k with
  | server =>
    simp [writeFailedServerResponse, serverWriter, WriterKind.writer,
      ResponseRecorder.WriteHeader, ResponseRecorder.Write, hfresh]
  | session rw =>
    simp [writeFailedServerResponse, WriterKind.writer, sessionWriter, serverWriter, hcode,
      ResponseRecorder.WriteHeader, ResponseRecorder.Write, hfresh]

/-- The OK response through the server's own writer, on a response not yet started,
has status 200. -/
theorem writeOK_code_server (st : World σ) (hfresh : st.resp.wroteHeader = false) :
    (writeOKServerResponse (serverWriter σ) st).resp.Code = 200 := by
  simp [writeOKServerResponse, serverWriter, ResponseRecorder.WriteHeader,
    ResponseRecorder.Write, hfresh]

/-- The OK response through the writer of `handleAuthnSession`: either the status is
200, or the records of the session store are the ones before. -/
theorem writeOK_authn (st : World σ) (hfresh : st.resp.wroteHeader = false) :
    (writeOKServerResponse ((WriterKind.session [sessionNameLoginSession]).writer σ) st).resp.Code
        = 200 ∨
    (writeOKServerResponse ((WriterKind.session [sessionNameLoginSession]).writer σ)
        st).sessionStore.records = st.sessionStore.records := by
  simp only [writeOKServerResponse, WriterKind.writer, sessionWriter]
  split
  · left
    simp [serverWriter, ResponseRecorder.WriteHeader, ResponseRecorder.Write, hfresh]
  · simp only [saveSessions]
    split
    · right
      rfl
    · split
      · rename_i err store hsave
        right
        have hrec : store.records = st.sessionStore.records := by
          simp only [serverWriter, SessionStore.Save] at hsave
          split at hsave
          · simp only [Prod.mk.injEq] at hsave
            rw [← hsave.2]
          · simp at hsave
        simp [writeFailedServerResponse, serverWriter, hrec]
      · left
        simp [serverWriter, ResponseRecorder.WriteHeader, ResponseRecorder.Write, hfresh]

end Responses

/-! ## The result handlers and the session -/

section ResultHandlers

variable {σ : Type}

theorem handleAuthnSession_eq (next : HandlerFunc σ) (w : ResponseWriter σ) (r : Request)
    (st : World σ) :
    handleAuthnSession next w r st =
      match st.sessionStore.Get sessionNameLoginSession with
      | .error e =>
        writeFailedServerResponse w StatusInternalServerError
          ("failed to retrieve session \"" ++ sessionNameLoginSession ++ "\": " ++ e) st
      | .ok session =>
        next (sessionWriter w [sessionNameLoginSession]) r
          { st with ctx := mapSet (mapSet st.ctx sessionNameLoginSession session)
                             sessionNameLoginSession session,
                    status := 0 } := by
  simp only [handleAuthnSession, handleSession, sessionHandler.ServeHTTP, storeSessionInContext]
  cases st.sessionStore.Get sessionNameLoginSession with
  | error e => rfl
  | ok session => simp

theorem handleAttestationResult_removes (s : server σ) (k : WriterKind) (r : Request)
    (st : World σ) :
    loginValue (handleAttestationResult s (k.writer σ) r st).ctx
      sessionMapKeyWebAuthnCreationOptions = none := by
  simp only [handleAttestationResult]
  repeat' split
  all_goals
    first
    | simp [loginValue_updateUser_ne _ _ key_user_ne_creation]; done
    | (rename_i h; simp [loginValue, h])

theorem handleAssertionResult_removes (s : server σ) (k : WriterKind) (r : Request)
    (st : World σ) :
    loginValue (handleAssertionResult s (k.writer σ) r st).ctx
      sessionMapKeyWebAuthnRequestOptions = none := by
  simp only [handleAssertionResult]
  repeat' split
  all_goals
    first
    | simp [loginValue_updateUser_ne _ _ key_user_ne_request]; done
    | (rename_i h; simp [loginValue, h])

theorem handleAttestationResult_keeps_session (s : server σ) (k : WriterKind) (r : Request)
    (st : World σ) :
    (mapGet (handleAttestationResult s (k.writer σ) r st).ctx contextKeyLoginSession).isSome
      = (mapGet st.ctx contextKeyLoginSession).isSome := by
  simp only [handleAttestationResult]
  repeat' split
  all_goals
    simp [deleteSessionValue, updateUserSession, mapGet_mapModify_self]

theorem handleAssertionResult_keeps_session (s : server σ) (k : WriterKind) (r : Request)
    (st : World σ) :
    (mapGet (handleAssertionResult s (k.writer σ) r st).ctx contextKeyLoginSession).isSome
      = (mapGet st.ctx contextKeyLoginSession).isSome := by
  simp only [handleAssertionResult]
  repeat' split
  all_goals
    simp [deleteSessionValue, updateUserSession, mapGet_mapModify_self]

theorem handleAttestationResult_authn_store (s : server σ) (r : Request) (st : World σ)
    (hfresh : st.resp.wroteHeader = false) :
    (handleAttestationResult s ((WriterKind.session [sessionNameLoginSession]).writer σ)
        r st).resp.Code = 200 ∨
    (handleAttestationResult s ((WriterKind.session [sessionNameLoginSession]).writer σ)
        r st).sessionStore.records = st.sessionStore.records := by
  simp only [handleAttestationResult]
  repeat' split
  all_goals
    first
    | (right; rfl)
    | exact Or.imp id (fun h => h.trans rfl) (writeOK_authn _ hfresh)

theorem handleAssertionResult_authn_store (s : server σ) (r : Request) (st : World σ)
    (hfresh : st.resp.wroteHeader = false) :
    (handleAssertionResult s ((WriterKind.session [sessionNameLoginSession]).writer σ)
        r st).resp.Code = 200 ∨
    (handleAssertionResult s ((WriterKind.session [sessionNameLoginSession]).writer σ)
        r st).sessionStore.records = st.sessionStore.records := by
  simp only [handleAssertionResult]
  repeat' split
  all_goals
    first
    | (right; rfl)
    | exact Or.imp id (fun h => h.trans rfl) (writeOK_authn _ hfresh)

/-- A result request routed through `handleAuthnSession`, on a response not yet
started: either the status is 200 or the records of the session store are untouched. -/
theorem authn_result_store (next : HandlerFunc σ) (r : Request) (st : World σ)
    (hnext : ∀ st1 : World σ, st1.resp.wroteHeader = false →
      (next ((WriterKind.session [sessionNameLoginSession]).writer σ) r st1).resp.Code = 200 ∨
      (next ((WriterKind.session [sessionNameLoginSession]).writer σ) r st1).sessionStore.records
        = st1.sessionStore.records)
    (hfresh : st.resp.wroteHeader = false) :
    (handleAuthnSession next (serverWriter σ) r st).resp.Code = 200 ∨
    (handleAuthnSession next (serverWriter σ) r st).sessionStore.records
      = st.sessionStore.records := by
  rw [handleAuthnSession_eq]
  split
  · right
    rfl
  · rename_i session _
    exact hnext _ hfresh

end ResultHandlers

/-! ## Arbitrary handlers under the middleware -/

section Middleware

variable {σ : Type}

theorem run_server_store (op : HandlerOp) (st : World σ) :
    (op.run (serverWriter σ) st).sessionStore = st.sessionStore := by
  cases op <;> simp only [HandlerOp.run, serverWriter] <;> try rfl
  all_goals (split <;> rfl)

theorem runOps_server_store (ops : List HandlerOp) (r : Request) (st : World σ) :
    (runOps ops (serverWriter σ) r st).sessionStore = st.sessionStore := by
  induction ops generalizing st with
  | nil => rfl
  | cons op rest ih =>
    simp only [runOps]
    split
    · rfl
    · rw [ih, run_server_store]

/-- Once the status of the `sessionWriter` is set, a handler that passes only status
codes to `WriteHeader` never reaches the session store. -/
theorem runOps_session_store_of_status (rw : List String) (ops : List HandlerOp)
    (r : Request) (st : World σ) (hstatus : st.status ≠ 0) (hvalid : validCodes ops = true) :
    (runOps ops (sessionWriter (serverWriter σ) rw) r st).sessionStore = st.sessionStore := by
  induction ops generalizing st with
  | nil => rfl
  | cons op rest ih =>
    simp only [runOps]
    split
    · rfl
    · cases op with
      | HeaderSet a b =>
        simp only [validCodes] at hvalid
        rw [ih _ (by simpa [HandlerOp.run, sessionWriter, serverWriter] using hstatus) hvalid]
        rfl
      | WriteHeader code =>
        simp only [validCodes, Bool.and_eq_true, decide_eq_true_eq] at hvalid
        rw [ih _ (by simp [HandlerOp.run, sessionWriter, serverWriter]; omega) hvalid.2]
        rfl
      | Write b =>
        simp only [validCodes] at hvalid
        have hrun : HandlerOp.run (sessionWriter (serverWriter σ) rw) (HandlerOp.Write b) st
            = (serverWriter σ).Write b st := by
          simp [HandlerOp.run, sessionWriter, hstatus]
        rw [hrun, ih _ (by simpa [serverWriter] using hstatus) hvalid]
        rfl
      | setValue name key v =>
        simp only [validCodes] at hvalid
        simp only [HandlerOp.run]
        split
        · rw [ih _ (by simpa using hstatus) hvalid]
        · rw [ih _ (by simpa using hstatus) hvalid]
      | deleteValue name key =>
        simp only [validCodes] at hvalid
        simp only [HandlerOp.run]
        split
        · rw [ih _ (by simpa using hstatus) hvalid]
        · rw [ih _ (by simpa using hstatus) hvalid]

/-- A handler whose first call on the response is `WriteHeader` never reaches the
session store. -/
theorem runOps_session_store_of_headerFirst (rw : List String) (ops : List HandlerOp)
    (r : Request) (st : World σ) (hfirst : headerFirst ops = true)
    (hvalid : validCodes ops = true) :
    (runOps ops (sessionWriter (serverWriter σ) rw) r st).sessionStore = st.sessionStore := by
  induction ops generalizing st with
  | nil => rfl
  | cons op rest ih =>
    simp only [runOps]
    split
    · rfl
    · cases op with
      | HeaderSet a b =>
        simp only [validCodes, headerFirst] at hvalid hfirst
        rw [ih _ hfirst hvalid]
        rfl
      | WriteHeader code =>
        simp only [validCodes, Bool.and_eq_true, decide_eq_true_eq] at hvalid
        rw [runOps_session_store_of_status rw rest r _
          (by simp [HandlerOp.run, sessionWriter, serverWriter]; omega) hvalid.2]
        rfl
      | Write b => simp [headerFirst] at hfirst
      | setValue name key v =>
        simp only [validCodes, headerFirst] at hvalid hfirst
        simp only [HandlerOp.run]
        split
        · rw [ih _ hfirst hvalid]
        · rw [ih _ hfirst hvalid]
      | deleteValue name key =>
        simp only [validCodes, headerFirst] at hvalid hfirst
        simp only [HandlerOp.run]
        split
        · rw [ih _ hfirst hvalid]
        · rw [ih _ hfirst hvalid]

end Middleware

/-! ## Each handler and the Challenge Record of the other direction -/

section OtherDirection

variable {σ : Type}

theorem key_request_ne_creation :
    sessionMapKeyWebAuthnRequestOptions ≠ sessionMapKeyWebAuthnCreationOptions := by decide

theorem handleAttestationOptions_request (s : server σ) (k : WriterKind) (r : Request)
    (st : World σ) :
    loginValue (handleAttestationOptions s (k.writer σ) r st).ctx
        sessionMapKeyWebAuthnRequestOptions
      = loginValue st.ctx sessionMapKeyWebAuthnRequestOptions := by
  simp only [handleAttestationOptions]
  repeat' split
  all_goals
    simp [loginValue_set_ne _ _ key_user_ne_request,
      loginValue_set_ne _ _ key_creation_ne_request]

theorem handleAttestationResult_request (s : server σ) (k : WriterKind) (r : Request)
    (st : World σ) :
    loginValue (handleAttestationResult s (k.writer σ) r st).ctx
        sessionMapKeyWebAuthnRequestOptions
      = loginValue st.ctx sessionMapKeyWebAuthnRequestOptions := by
  simp only [handleAttestationResult]
  repeat' split
  all_goals
    simp [loginValue_updateUser_ne _ _ key_user_ne_request,
      loginValue_delete_ne _ key_creation_ne_request]

theorem handleAssertionOptions_creation (s : server σ) (k : WriterKind) (r : Request)
    (st : World σ) :
    loginValue (handleAssertionOptions s (k.writer σ) r st).ctx
        sessionMapKeyWebAuthnCreationOptions
      = loginValue st.ctx sessionMapKeyWebAuthnCreationOptions := by
  simp only [handleAssertionOptions]
  repeat' split
  all_goals
    simp [loginValue_set_ne _ _ key_user_ne_creation,
      loginValue_set_ne _ _ key_request_ne_creation]

theorem handleAssertionResult_creation (s : server σ) (k : WriterKind) (r : Request)
    (st : World σ) :
    loginValue (handleAssertionResult s (k.writer σ) r st).ctx
        sessionMapKeyWebAuthnCreationOptions
      = loginValue st.ctx sessionMapKeyWebAuthnCreationOptions := by
  simp only [handleAssertionResult]
  repeat' split
  all_goals
    simp [loginValue_updateUser_ne _ _ key_user_ne_creation,
      loginValue_delete_ne _ key_request_ne_creation]

theorem handleLogout_challenges (s : server σ) (k : WriterKind) (r : Request)
    (st : World σ) :
    loginValue (handleLogout s (k.writer σ) r st).ctx sessionMapKeyWebAuthnCreationOptions
      = loginValue st.ctx sessionMapKeyWebAuthnCreationOptions ∧
    loginValue (handleLogout s (k.writer σ) r st).ctx sessionMapKeyWebAuthnRequestOptions
      = loginValue st.ctx sessionMapKeyWebAuthnRequestOptions := by
  simp only [handleLogout]
  split
  · exact ⟨rfl, rfl⟩
  · simp [loginValue_delete_ne _ key_user_ne_creation,
      loginValue_delete_ne _ key_user_ne_request]

end OtherDirection

/-! ## The login result handler and the datastore -/

section AssertionResult

variable {σ : Type}

/-- When a check fails, `handleAssertionResult` leaves the datastore as it is and calls
at most `getCredential`. -/
theorem handleAssertionResult_rejected (s : server σ) (k : WriterKind) (r : Request)
    (st : World σ) (hnot : ¬ ∃ a c, assertionAccepted s r st a c) :
    (handleAssertionResult s (k.writer σ) r st).db = st.db ∧
    ((handleAssertionResult s (k.writer σ) r st).dbCalls = st.dbCalls ∨
     ∃ userID credentialID, (handleAssertionResult s (k.writer σ) r st).dbCalls
        = st.dbCalls ++ [dataStoreCall.getCredential userID credentialID]) := by
  cases h1 : mapGet st.ctx contextKeyLoginSession with
  | none => simp [handleAssertionResult, h1]
  | some session =>
  cases h2 : asRequestOptions (mapGet session.Values sessionMapKeyWebAuthnRequestOptions) with
  | none => simp [handleAssertionResult, h1, h2]
  | some opts =>
  cases h3 : asUserSession (mapGet session.Values sessionMapKeyUserSession) with
  | none => simp [handleAssertionResult, h1, h2, h3]
  | some uS =>
  cases h4 : s.ext.ParseAssertion r.Body with
  | error e => simp [handleAssertionResult, h1, h2, h3, h4]
  | ok a =>
  cases h5 : s.dataStore.getCredential st.db (uS.User.UserID.getD []) a.RawID with
  | error e => simp [handleAssertionResult, h1, h2, h3, h4, h5]
  | ok c =>
  cases h6 : s.ext.ParseCredential c.CoseKey with
  | error e => simp [handleAssertionResult, h1, h2, h3, h4, h5, h6]
  | ok credKey =>
  cases h7 : s.ext.VerifyAssertion a (assertionExpectedData s opts uS c credKey) with
  | some e => simp [handleAssertionResult, h1, h2, h3, h4, h5, h6, h7]
  | none => exact absurd ⟨a, c, session, opts, uS, credKey, h1, h2, h3, h4, h5, h6, h7⟩ hnot

/-- When every check passes, `handleAssertionResult` calls `getCredential` and then
`updateCredential` with the loaded credential carrying the asserted counter. -/
theorem handleAssertionResult_accepted (s : server σ) (k : WriterKind) (r : Request)
    (st : World σ) (a : PublicKeyCredentialAssertion) (c : credential)
    (hacc : assertionAccepted s r st a c) :
    (∃ userID, (handleAssertionResult s (k.writer σ) r st).dbCalls
        = st.dbCalls ++ [dataStoreCall.getCredential userID a.RawID,
            dataStoreCall.updateCredential { c with Counter := a.AuthnData.Counter }]) ∧
    (handleAssertionResult s (k.writer σ) r st).db
      = (s.dataStore.updateCredential st.db { c with Counter := a.AuthnData.Counter }).2 := by
  obtain ⟨session, opts, uS, credKey, h1, h2, h3, h4, h5, h6, h7⟩ := hacc
  simp only [handleAssertionResult, h1, h2, h3, h4, h5, h6, h7]
  split
  · exact ⟨⟨(uS.User.UserID.getD []), by simp⟩, by simp⟩
  · exact ⟨⟨(uS.User.UserID.getD []), by simp⟩, by simp⟩

end AssertionResult

/-! ## The login result handler and the user session -/

section AssertionUserSession

variable {σ : Type}

theorem asUserSession_eq_some {x : Option SessionValue} {u : userSession}
    (h : asUserSession x = some u) : x = some (SessionValue.userSession u) := by
  cases x with
  | none => simp [asUserSession] at h
  | some v =>
    cases v <;> simp [asUserSession] at h
    rw [h]

theorem writeOK_code (st : World σ) (hfresh : st.resp.wroteHeader = false) :
    (writeOKServerResponse ((WriterKind.server).writer σ) st).resp.Code = 200 :=
  writeOK_code_server st hfresh

theorem loginValue_of_session {ctx : List (String × Session)} {session : Session}
    (h : mapGet ctx contextKeyLoginSession = some session) (key : String) :
    loginValue ctx key = mapGet session.Values key := by
  simp [loginValue, h]

theorem key_request_ne_user :
    sessionMapKeyWebAuthnRequestOptions ≠ sessionMapKeyUserSession := by decide

/-- The outcome of `handleAssertionResult` on the server's own writer: status 200 with
the user session logged in under the asserted ID, or an error status with the user
session entry as it was. -/
theorem handleAssertionResult_userSession (s : server σ) (r : Request) (st : World σ)
    (session : Session) (hsession : mapGet st.ctx contextKeyLoginSession = some session)
    (hfresh : st.resp.wroteHeader = false) :
    ((handleAssertionResult s ((WriterKind.server).writer σ) r st).resp.Code = 200 ∧
      ∃ a uSession, s.ext.ParseAssertion r.Body = .ok a ∧
        mapGet session.Values sessionMapKeyUserSession
          = some (SessionValue.userSession uSession) ∧
        loginValue (handleAssertionResult s ((WriterKind.server).writer σ) r st).ctx
            sessionMapKeyUserSession
          = some (SessionValue.userSession
              { User := uSession.User, LoggedInCredentialID := a.RawID })) ∨
    (((handleAssertionResult s ((WriterKind.server).writer σ) r st).resp.Code = 400 ∨
      (handleAssertionResult s ((WriterKind.server).writer σ) r st).resp.Code = 401 ∨
      (handleAssertionResult s ((WriterKind.server).writer σ) r st).resp.Code = 500) ∧
      loginValue (handleAssertionResult s ((WriterKind.server).writer σ) r st).ctx
          sessionMapKeyUserSession
        = loginValue st.ctx sessionMapKeyUserSession) := by
  cases h2 : asRequestOptions (mapGet session.Values sessionMapKeyWebAuthnRequestOptions) with
  | none =>
    simp [handleAssertionResult, hsession, h2, writeFailed_code, hfresh,
      StatusUnauthorized, loginValue_delete_ne _ key_request_ne_user]
  | some opts =>
  cases h3 : asUserSession (mapGet session.Values sessionMapKeyUserSession) with
  | none =>
    simp [handleAssertionResult, hsession, h2, h3, writeFailed_code, hfresh,
      StatusUnauthorized, loginValue_delete_ne _ key_request_ne_user]
  | some uS =>
  cases h4 : s.ext.ParseAssertion r.Body with
  | error e =>
    simp [handleAssertionResult, hsession, h2, h3, h4, writeFailed_code, hfresh,
      StatusBadRequest, loginValue_delete_ne _ key_request_ne_user]
  | ok a =>
  cases h5 : s.dataStore.getCredential st.db (uS.User.UserID.getD []) a.RawID with
  | error e =>
    simp [handleAssertionResult, hsession, h2, h3, h4, h5, writeFailed_code, hfresh,
      StatusInternalServerError, loginValue_delete_ne _ key_request_ne_user]
  | ok c =>
  cases h6 : s.ext.ParseCredential c.CoseKey with
  | error e =>
    simp [handleAssertionResult, hsession, h2, h3, h4, h5, h6, writeFailed_code, hfresh,
      StatusInternalServerError, loginValue_delete_ne _ key_request_ne_user]
  | ok credKey =>
  cases h7 : s.ext.VerifyAssertion a (assertionExpectedData s opts uS c credKey) with
  | some e =>
    simp [handleAssertionResult, hsession, h2, h3, h4, h5, h6, h7, writeFailed_code, hfresh,
      StatusBadRequest, loginValue_delete_ne _ key_request_ne_user]
  | none =>
  cases h8 : (s.dataStore.updateCredential st.db
      { c with Counter := a.AuthnData.Counter }).1 with
  | some err =>
    simp [handleAssertionResult, hsession, h2, h3, h4, h5, h6, h7, h8, writeFailed_code,
      hfresh, StatusInternalServerError, loginValue_delete_ne _ key_request_ne_user]
  | none =>
    left
    have hu := asUserSession_eq_some h3
    refine ⟨?_, a, uS, rfl, hu, ?_⟩
    · simp [handleAssertionResult, hsession, h2, h3, h4, h5, h6, h7, h8, writeOK_code, hfresh]
    · simp [handleAssertionResult, hsession, h2, h3, h4, h5, h6, h7, h8,
        loginValue_updateUser_self, loginValue_delete_ne _ key_request_ne_user,
        loginValue_of_session hsession]
      simp [hu]

end AssertionUserSession

/-! ## The PostgreSQL store -/

section Store

theorem find_updated_rows (rows : List credentialRow) (counter now : Nat)
    (userID credentialID : Bytes) :
    (rows.map (fun row =>
        if row.user_id = userID ∧ row.id = credentialID then
          { row with counter := counter, loggedin_at := now }
        else row)).find? (fun row => row.user_id = userID ∧ row.id = credentialID)
      = (rows.find? (fun row => row.user_id = userID ∧ row.id = credentialID)).map
          (fun row => { row with counter := counter, loggedin_at := now }) := by
  induction rows with
  | nil => rfl
  | cons row rest ih =>
    by_cases h : row.user_id = userID ∧ row.id = credentialID
    · simp [List.find?, h]
    · simp only [List.map_cons, h, if_false, List.find?, decide_False]
      exact ih

theorem storedCounter_updateCredentialRows (t : Tables) (counter now : Nat)
    (userID credentialID : Bytes) :
    storedCounter (updateCredentialRows t counter now userID credentialID).1 userID credentialID
      = (storedCounter t userID credentialID).map (fun _ => counter) := by
  simp only [storedCounter, updateCredentialRows, find_updated_rows]
  cases t.credentials.find? (fun row => row.user_id = userID ∧ row.id = credentialID) <;> rfl

theorem any_false_of_forall {α : Type} (l : List α) (p : α → Bool)
    (h : ∀ x ∈ l, p x = false) : l.any p = false := by
  induction l with
  | nil => rfl
  | cons x rest ih =>
    simp only [List.any_cons, Bool.or_eq_false_iff]
    exact ⟨h x (List.mem_cons_self _ _), ih (fun y hy => h y (List.mem_cons_of_mem _ hy))⟩

theorem filter_nil_of_forall {α : Type} (l : List α) (p : α → Bool)
    (h : ∀ x ∈ l, p x = false) : l.filter p = [] := by
  induction l with
  | nil => rfl
  | cons x rest ih =>
    rw [List.filter_cons, h x (List.mem_cons_self _ _)]
    exact ih (fun y hy => h y (List.mem_cons_of_mem _ hy))

end Store

/-! ## The response on the server's own writer -/

section ServerResponse

variable {σ : Type}

theorem writeFailed_body (code : Nat) (msg : String) (st : World σ) :
    (writeFailedServerResponse ((WriterKind.server).writer σ) code msg st).resp.Body
      = st.resp.Body ++ [failedBody msg] := by
  cases h : st.resp.wroteHeader <;>
    simp [writeFailedServerResponse, WriterKind.writer, serverWriter,
      ResponseRecorder.WriteHeader, ResponseRecorder.Write, failedBody, h]

theorem writeOK_body (st : World σ) :
    (writeOKServerResponse ((WriterKind.server).writer σ) st).resp.Body
      = st.resp.Body ++ [Payload.raw serverResponseOKJSONString] := by
  cases h : st.resp.wroteHeader <;>
    simp [writeOKServerResponse, WriterKind.writer, serverWriter,
      ResponseRecorder.WriteHeader, ResponseRecorder.Write, h]

theorem write_body (b : Payload) (st : World σ) :
    (((WriterKind.server).writer σ).Write b st).resp.Body = st.resp.Body ++ [b] := by
  cases h : st.resp.wroteHeader <;>
    simp [WriterKind.writer, serverWriter, ResponseRecorder.WriteHeader,
      ResponseRecorder.Write, h]

theorem write_code (b : Payload) (st : World σ) (hfresh : st.resp.wroteHeader = false) :
    (((WriterKind.server).writer σ).Write b st).resp.Code = 200 := by
  simp [WriterKind.writer, serverWriter, ResponseRecorder.WriteHeader,
    ResponseRecorder.Write, hfresh]

@[simp] theorem headerSet_body (a b : String) (st : World σ) :
    (((WriterKind.server).writer σ).HeaderSet a b st).resp.Body = st.resp.Body := rfl

@[simp] theorem headerSet_wroteHeader (a b : String) (st : World σ) :
    (((WriterKind.server).writer σ).HeaderSet a b st).resp.wroteHeader
      = st.resp.wroteHeader := rfl

theorem key_creation_ne_user :
    sessionMapKeyWebAuthnCreationOptions ≠ sessionMapKeyUserSession := by decide

end ServerResponse

/-! ## The registration result handler -/

section AttestationResult

variable {σ : Type}

/-- Without the saved creation options the answer is 401 with the message of the first
check, and nothing else happens. -/
theorem handleAttestationResult_no_options (s : server σ) (r : Request) (st : World σ)
    (session : Session) (hsession : mapGet st.ctx contextKeyLoginSession = some session)
    (hfresh : st.resp.wroteHeader = false)
    (h2 : asCreationOptions (mapGet session.Values sessionMapKeyWebAuthnCreationOptions)
      = none) :
    (handleAttestationResult s ((WriterKind.server).writer σ) r st).resp.Code = 401 ∧
    (handleAttestationResult s ((WriterKind.server).writer σ) r st).resp.Body
      = st.resp.Body ++
          [failedBody "Session doesn't have PublicKeyCredentialCreationOptions data"] ∧
    (handleAttestationResult s ((WriterKind.server).writer σ) r st).dbCalls = st.dbCalls ∧
    (handleAttestationResult s ((WriterKind.server).writer σ) r st).db = st.db := by
  simp [handleAttestationResult, hsession, h2, writeFailed_code, writeFailed_body, hfresh,
    StatusUnauthorized]

/-- With the saved creation options but without the user session the answer is 401,
and nothing else happens. -/
theorem handleAttestationResult_no_user (s : server σ) (r : Request) (st : World σ)
    (session : Session) (hsession : mapGet st.ctx contextKeyLoginSession = some session)
    (hfresh : st.resp.wroteHeader = false)
    (opts : PublicKeyCredentialCreationOptions)
    (h2 : asCreationOptions (mapGet session.Values sessionMapKeyWebAuthnCreationOptions)
      = some opts)
    (h3 : asUserSession (mapGet session.Values sessionMapKeyUserSession) = none) :
    (handleAttestationResult s ((WriterKind.server).writer σ) r st).resp.Code = 401 ∧
    (handleAttestationResult s ((WriterKind.server).writer σ) r st).resp.Body
      = st.resp.Body ++ [failedBody "Session doesn't have user data"] ∧
    (handleAttestationResult s ((WriterKind.server).writer σ) r st).dbCalls = st.dbCalls ∧
    (handleAttestationResult s ((WriterKind.server).writer σ) r st).db = st.db := by
  simp [handleAttestationResult, hsession, h2, h3, writeFailed_code, writeFailed_body, hfresh,
    StatusUnauthorized]

/-- With the challenge and the user session in place, a body that does not parse is
answered 400 with the parser's reason, and nothing else happens. -/
theorem handleAttestationResult_parse_error (s : server σ) (r : Request) (st : World σ)
    (session : Session) (hsession : mapGet st.ctx contextKeyLoginSession = some session)
    (hfresh : st.resp.wroteHeader = false)
    (opts : PublicKeyCredentialCreationOptions) (uS : userSession) (e : String)
    (h2 : asCreationOptions (mapGet session.Values sessionMapKeyWebAuthnCreationOptions)
      = some opts)
    (h3 : asUserSession (mapGet session.Values sessionMapKeyUserSession) = some uS)
    (h4 : s.ext.ParseAttestation r.Body = .error e) :
    (handleAttestationResult s ((WriterKind.server).writer σ) r st).resp.Code = 400 ∧
    (handleAttestationResult s ((WriterKind.server).writer σ) r st).resp.Body
      = st.resp.Body ++ [failedBody ("Failed to parse attestation: " ++ e)] ∧
    (handleAttestationResult s ((WriterKind.server).writer σ) r st).dbCalls = st.dbCalls ∧
    (handleAttestationResult s ((WriterKind.server).writer σ) r st).db = st.db ∧
    loginValue (handleAttestationResult s ((WriterKind.server).writer σ) r st).ctx
        sessionMapKeyUserSession
      = loginValue st.ctx sessionMapKeyUserSession := by
  simp [handleAttestationResult, hsession, h2, h3, h4, writeFailed_code, writeFailed_body,
    hfresh, StatusBadRequest, loginValue_delete_ne _ key_creation_ne_user]

/-- With the challenge and the user session in place, a payload the verifier rejects is
answered 400 with the verifier's reason, and nothing else happens. -/
theorem handleAttestationResult_verify_error (s : server σ) (r : Request) (st : World σ)
    (session : Session) (hsession : mapGet st.ctx contextKeyLoginSession = some session)
    (hfresh : st.resp.wroteHeader = false)
    (opts : PublicKeyCredentialCreationOptions) (uS : userSession)
    (a : PublicKeyCredentialAttestation) (e : String)
    (h2 : asCreationOptions (mapGet session.Values sessionMapKeyWebAuthnCreationOptions)
      = some opts)
    (h3 : asUserSession (mapGet session.Values sessionMapKeyUserSession) = some uS)
    (h4 : s.ext.ParseAttestation r.Body = .ok a)
    (h5 : s.ext.VerifyAttestation a (attestationExpectedData s opts) = some e) :
    (handleAttestationResult s ((WriterKind.server).writer σ) r st).resp.Code = 400 ∧
    (handleAttestationResult s ((WriterKind.server).writer σ) r st).resp.Body
      = st.resp.Body ++ [failedBody ("Failed to verify attestation: " ++ e)] ∧
    (handleAttestationResult s ((WriterKind.server).writer σ) r st).dbCalls = st.dbCalls ∧
    (handleAttestationResult s ((WriterKind.server).writer σ) r st).db = st.db ∧
    loginValue (handleAttestationResult s ((WriterKind.server).writer σ) r st).ctx
        sessionMapKeyUserSession
      = loginValue st.ctx sessionMapKeyUserSession := by
  simp only [attestationExpectedData] at h5
  simp [handleAttestationResult, hsession, h2, h3, h4, h5, writeFailed_code,
    writeFailed_body, hfresh, StatusBadRequest, loginValue_delete_ne _ key_creation_ne_user]

/-- With the challenge and the user session in place, an accepted payload makes the
handler call `addUserCredential` once, with the session user and the credential of the
attestation. -/
theorem handleAttestationResult_accepted (s : server σ) (k : WriterKind) (r : Request)
    (st : World σ) (session : Session)
    (hsession : mapGet st.ctx contextKeyLoginSession = some session)
    (opts : PublicKeyCredentialCreationOptions) (uS : userSession)
    (a : PublicKeyCredentialAttestation)
    (h2 : asCreationOptions (mapGet session.Values sessionMapKeyWebAuthnCreationOptions)
      = some opts)
    (h3 : asUserSession (mapGet session.Values sessionMapKeyUserSession) = some uS)
    (h4 : s.ext.ParseAttestation r.Body = .ok a)
    (h5 : s.ext.VerifyAttestation a (attestationExpectedData s opts) = none) :
    (handleAttestationResult s (k.writer σ) r st).dbCalls
      = st.dbCalls ++ [dataStoreCall.addUserCredential uS.User
          { CredentialID := a.RawID, UserID := uS.User.UserID.getD [],
            Counter := a.AuthnData.Counter, CoseKey := a.AuthnData.CredentialRaw }] ∧
    (handleAttestationResult s (k.writer σ) r st).db
      = (s.dataStore.addUserCredential st.db uS.User
          { CredentialID := a.RawID, UserID := uS.User.UserID.getD [],
            Counter := a.AuthnData.Counter, CoseKey := a.AuthnData.CredentialRaw }).2 := by
  simp only [attestationExpectedData] at h5
  simp only [handleAttestationResult, hsession, h2, h3, h4, h5]
  split <;> simp

/-- The user session after an accepted payload that the datastore has stored. -/
theorem handleAttestationResult_stored (s : server σ) (r : Request) (st : World σ)
    (session : Session) (hsession : mapGet st.ctx contextKeyLoginSession = some session)
    (hfresh : st.resp.wroteHeader = false)
    (opts : PublicKeyCredentialCreationOptions) (uS : userSession)
    (a : PublicKeyCredentialAttestation)
    (h2 : asCreationOptions (mapGet session.Values sessionMapKeyWebAuthnCreationOptions)
      = some opts)
    (h3 : asUserSession (mapGet session.Values sessionMapKeyUserSession) = some uS)
    (h4 : s.ext.ParseAttestation r.Body = .ok a)
    (h5 : s.ext.VerifyAttestation a (attestationExpectedData s opts) = none)
    (h6 : (s.dataStore.addUserCredential st.db uS.User
          { CredentialID := a.RawID, UserID := uS.User.UserID.getD [],
            Counter := a.AuthnData.Counter, CoseKey := a.AuthnData.CredentialRaw }).1 = none) :
    (handleAttestationResult s ((WriterKind.server).writer σ) r st).resp.Code = 200 ∧
    (handleAttestationResult s ((WriterKind.server).writer σ) r st).resp.Body
      = st.resp.Body ++ [Payload.raw serverResponseOKJSONString] ∧
    loginValue (handleAttestationResult s ((WriterKind.server).writer σ) r st).ctx
        sessionMapKeyUserSession
      = some (SessionValue.userSession
          { User := { UserID := uS.User.UserID, UserName := uS.User.UserName,
                      DisplayName := uS.User.DisplayName,
                      CredentialIDs := uS.User.CredentialIDs ++ [a.RawID] },
            LoggedInCredentialID :=
              if uS.LoggedInCredentialID = [] then a.RawID
              else uS.LoggedInCredentialID }) := by
  have hu := asUserSession_eq_some h3
  simp only [attestationExpectedData] at h5
  refine ⟨?_, ?_, ?_⟩
  · simp [handleAttestationResult, hsession, h2, h3, h4, h5, h6, writeOK_code, hfresh]
  · simp [handleAttestationResult, hsession, h2, h3, h4, h5, h6, writeOK_body]
  · simp only [handleAttestationResult, hsession, h2, h3, h4, h5, h6]
    simp only [writeOK_ctx, loginValue_updateUser_self,
      loginValue_delete_ne _ key_creation_ne_user, loginValue_of_session hsession, hu,
      Option.map_some', List.length_eq_zero]
    by_cases hl : uS.LoggedInCredentialID = [] <;> simp [hl]

end AttestationResult

/-! ## The login gate and logout -/

section Gate

variable {σ : Type}

theorem loggedInUserOnly_pass (next : HandlerFunc σ) (w : ResponseWriter σ) (r : Request)
    (st : World σ) (session : Session)
    (hget : st.sessionStore.Get sessionNameLoginSession = .ok session)
    (hin : loggedIn session) :
    loggedInUserOnly next w r st = next w r st := by
  obtain ⟨u, hu, hne⟩ := hin
  have hlen : ¬ u.LoggedInCredentialID.length = 0 := by
    simpa [List.length_eq_zero] using hne
  simp [loggedInUserOnly, hget, hu, hlen]

theorem loggedInUserOnly_reject (next : HandlerFunc σ) (w : ResponseWriter σ) (r : Request)
    (st : World σ) (session : Session)
    (hget : st.sessionStore.Get sessionNameLoginSession = .ok session)
    (hout : ¬ loggedIn session) :
    loggedInUserOnly next w r st
      = writeFailedServerResponse w StatusUnauthorized "User is not logged in" st := by
  cases hu : asUserSession (mapGet session.Values sessionMapKeyUserSession) with
  | none => simp [loggedInUserOnly, hget, hu]
  | some u =>
    have hlen : u.LoggedInCredentialID.length = 0 := by
      by_contra hne
      exact hout ⟨u, hu, fun h => hne (by simp [h])⟩
    simp [loggedInUserOnly, hget, hu, hlen]

theorem handleLogout_removes (s : server σ) (k : WriterKind) (r : Request) (st : World σ) :
    loginValue (handleLogout s (k.writer σ) r st).ctx sessionMapKeyUserSession = none := by
  simp only [handleLogout]
  split
  · rename_i h
    simp [loginValue, h]
  · simp

/-- A logout routed through `handleAuthnSession`, when the session store works: the
world after the request. -/
theorem logout_authn (s : server σ) (r : Request) (st : World σ)
    (hfresh : st.resp.wroteHeader = false)
    (hget : mapGet st.sessionStore.getErr sessionNameLoginSession = none)
    (hsave : mapGet st.sessionStore.saveErr sessionNameLoginSession = none) :
    (handleAuthnSession (handleLogout s) (serverWriter σ) r st).resp.Code = 200 ∧
    (handleAuthnSession (handleLogout s) (serverWriter σ) r st).resp.Body
      = st.resp.Body ++ [Payload.raw serverResponseOKJSONString] ∧
    (handleAuthnSession (handleLogout s) (serverWriter σ) r st).sessionStore.getErr
      = st.sessionStore.getErr ∧
    ∃ saved, mapGet (handleAuthnSession (handleLogout s) (serverWriter σ) r
          st).sessionStore.records sessionNameLoginSession = some saved ∧
      mapGet saved.Values sessionMapKeyUserSession = none := by
  rw [handleAuthnSession_eq]
  have hok : ∃ session, st.sessionStore.Get sessionNameLoginSession = .ok session := by
    simp only [SessionStore.Get, hget]
    split <;> exact ⟨_, rfl⟩
  obtain ⟨session, hsession⟩ := hok
  simp only [hsession]
  simp [handleLogout, contextKeyLoginSession, mapGet_mapSet_self, writeOKServerResponse,
    sessionWriter, saveSessions, deleteSessionValue, mapGet_mapModify_self, SessionStore.Save,
    hsave, serverWriter, ResponseRecorder.Write, ResponseRecorder.WriteHeader, hfresh,
    mapGet_mapDelete_self]

end Gate

/-! ## The login options handler -/

section AssertionOptions

variable {σ : Type}

theorem handleAssertionOptions_missing_username (s : server σ) (r : Request) (st : World σ)
    (session : Session) (req : assertionOptionsRequest)
    (hsession : mapGet st.ctx contextKeyLoginSession = some session)
    (hfresh : st.resp.wroteHeader = false)
    (hdecode : s.ext.decodeAssertionOptionsRequest r.Body = .ok req)
    (hname : req.Username = "") :
    (handleAssertionOptions s ((WriterKind.server).writer σ) r st).resp.Code = 400 ∧
    (handleAssertionOptions s ((WriterKind.server).writer σ) r st).resp.Body
      = st.resp.Body ++ [failedBody "Missing username"] ∧
    (handleAssertionOptions s ((WriterKind.server).writer σ) r st).dbCalls = st.dbCalls ∧
    (handleAssertionOptions s ((WriterKind.server).writer σ) r st).db = st.db ∧
    (handleAssertionOptions s ((WriterKind.server).writer σ) r st).ctx = st.ctx := by
  simp [handleAssertionOptions, hsession, hdecode, hname, writeFailed_code, writeFailed_body,
    hfresh, StatusBadRequest]

/-- The answer of `handleAssertionOptions` when the datastore reports no records or
returns a user without a `UserID`. -/
theorem handleAssertionOptions_not_registered (s : server σ) (r : Request) (st : World σ)
    (session : Session) (req : assertionOptionsRequest)
    (hsession : mapGet st.ctx contextKeyLoginSession = some session)
    (hfresh : st.resp.wroteHeader = false)
    (hdecode : s.ext.decodeAssertionOptionsRequest r.Body = .ok req)
    (hname : req.Username ≠ "")
    (hnone : s.dataStore.getUser st.db req.Username = .error .errNoRecords ∨
      ∃ u, s.dataStore.getUser st.db req.Username = .ok u ∧ u.UserID = none) :
    (handleAssertionOptions s ((WriterKind.server).writer σ) r st).resp.Code = 400 ∧
    (handleAssertionOptions s ((WriterKind.server).writer σ) r st).resp.Body
      = st.resp.Body ++ [failedBody (req.Username ++ " is not registered")] ∧
    (handleAssertionOptions s ((WriterKind.server).writer σ) r st).dbCalls
      = st.dbCalls ++ [dataStoreCall.getUser req.Username] ∧
    (handleAssertionOptions s ((WriterKind.server).writer σ) r st).db = st.db ∧
    (handleAssertionOptions s ((WriterKind.server).writer σ) r st).ctx = st.ctx := by
  rcases hnone with h | ⟨u, h, hid⟩
  · simp [handleAssertionOptions, hsession, hdecode, hname, h, writeFailed_code,
      writeFailed_body, hfresh, StatusBadRequest]
  · simp [handleAssertionOptions, hsession, hdecode, hname, h, hid, writeFailed_code,
      writeFailed_body, hfresh, StatusBadRequest]

/-- A user returned with a `UserID` is passed on to the options builder: the answer is
200 or 500. -/
theorem handleAssertionOptions_with_user_id (s : server σ) (r : Request) (st : World σ)
    (session : Session) (req : assertionOptionsRequest) (u : user)
    (hsession : mapGet st.ctx contextKeyLoginSession = some session)
    (hfresh : st.resp.wroteHeader = false)
    (hdecode : s.ext.decodeAssertionOptionsRequest r.Body = .ok req)
    (hname : req.Username ≠ "")
    (hget : s.dataStore.getUser st.db req.Username = .ok u) (hid : u.UserID ≠ none) :
    (handleAssertionOptions s ((WriterKind.server).writer σ) r st).resp.Code = 200 ∨
    (handleAssertionOptions s ((WriterKind.server).writer σ) r st).resp.Code = 500 := by
  simp only [handleAssertionOptions, hsession, hdecode, hname, hget, hid, if_false]
  repeat' split
  all_goals
    simp [writeFailed_code, write_code, hfresh, StatusInternalServerError]

end AssertionOptions

/-! ## getUser on the PostgreSQL store -/

section GetUser

theorem flatMap_nil_of_forall {α β : Type} (l : List α) (f : α → List β)
    (h : ∀ x ∈ l, f x = []) : l.flatMap f = [] := by
  induction l with
  | nil => rfl
  | cons x rest ih =>
    rw [List.flatMap_cons, h x (List.mem_cons_self _ _),
      ih (fun y hy => h y (List.mem_cons_of_mem _ hy))]
    rfl

/-- A username none of whose user rows has a credential row is reported as
`errNoRecords`: the query of `getUser` joins the two tables. -/
theorem getUser_without_credentials (db : dbStore) (t : Tables) (username : String)
    (hquery : db.queryErr = none)
    (hnone : ∀ ur ∈ t.users, ur.username = username →
      ∀ cr ∈ t.credentials, cr.user_id ≠ ur.id) :
    db.getUser t username = .error .errNoRecords := by
  have hrows : t.users.flatMap (fun ur =>
      (t.credentials.filter (fun cr => ur.id = cr.user_id ∧ ur.username = username)).map
        (fun cr => (ur, cr))) = [] := by
    apply flatMap_nil_of_forall
    intro ur hur
    rw [filter_nil_of_forall]
    · rfl
    · intro cr hcr
      by_cases hname : ur.username = username
      · have hne := hnone ur hur hname cr hcr
        have hne2 : ¬ ur.id = cr.user_id := fun h => hne h.symm
        simp [hname, hne2]
      · simp [hname]
  simp only [dbStore.getUser, hquery, hrows]
  rfl

end GetUser

/-- The registration options handler: requests without a username or display name. -/
theorem handleAttestationOptions_missing_field {σ : Type} (s : server σ) (r : Request)
    (st : World σ) (session : Session) (req : attestationOptionsRequest)
    (hsession : mapGet st.ctx contextKeyLoginSession = some session)
    (hfresh : st.resp.wroteHeader = false)
    (hdecode : s.ext.decodeAttestationOptionsRequest r.Body = .ok req) :
    (req.Username = "" →
      (handleAttestationOptions s ((WriterKind.server).writer σ) r st).resp.Code = 400 ∧
      (handleAttestationOptions s ((WriterKind.server).writer σ) r st).resp.Body
        = st.resp.Body ++ [failedBody "Missing username"] ∧
      (handleAttestationOptions s ((WriterKind.server).writer σ) r st).dbCalls = st.dbCalls ∧
      (handleAttestationOptions s ((WriterKind.server).writer σ) r st).db = st.db ∧
      (handleAttestationOptions s ((WriterKind.server).writer σ) r st).ctx = st.ctx) ∧
    (req.Username ≠ "" → req.DisplayName = "" →
      (handleAttestationOptions s ((WriterKind.server).writer σ) r st).resp.Code = 400 ∧
      (handleAttestationOptions s ((WriterKind.server).writer σ) r st).resp.Body
        = st.resp.Body ++ [failedBody "Missing displayName"] ∧
      (handleAttestationOptions s ((WriterKind.server).writer σ) r st).dbCalls = st.dbCalls ∧
      (handleAttestationOptions s ((WriterKind.server).writer σ) r st).db = st.db ∧
      (handleAttestationOptions s ((WriterKind.server).writer σ) r st).ctx = st.ctx) := by
  constructor
  · intro hname
    simp [handleAttestationOptions, hsession, hdecode, hname, writeFailed_code,
      writeFailed_body, hfresh, StatusBadRequest]
  · intro hname hdisplay
    simp [handleAttestationOptions, hsession, hdecode, hname, hdisplay, writeFailed_code,
      writeFailed_body, hfresh, StatusBadRequest]

/-! ## The registration options handler -/

section AttestationOptions

variable {σ : Type}

theorem length_fillBuffer (n : Nat) (src : Bytes) : (fillBuffer n src).length = n := by
  induction n generalizing src with
  | zero => rfl
  | succ n ih =>
    cases src with
    | nil => simp [fillBuffer, ih]
    | cons b bs => simp [fillBuffer, ih]

/-- How the user of the options request is found. -/
theorem attestationFoundUser_ok {s : server σ} {db : σ} {req : attestationOptionsRequest}
    {u : user} (h : attestationFoundUser s db req = .ok u) :
    s.dataStore.getUser db req.Username = .ok u ∨
    (s.dataStore.getUser db req.Username = .error .errNoRecords ∧
      u = { UserID := none, UserName := req.Username, DisplayName := req.DisplayName,
            CredentialIDs := [] }) := by
  simp only [attestationFoundUser] at h
  split at h
  · rename_i hg
    right
    refine ⟨hg, ?_⟩
    cases h
    rfl
  · cases h
  · rename_i u0 hg
    left
    cases h
    exact hg

/-- The buffer `make([]byte, n)` after a read that delivered `src`: the bytes of `src`
at its start, zero bytes after them. -/
theorem fillBuffer_eq (n m : Nat) (src : Bytes) (hm : n ≤ m) :
    fillBuffer n src = (src ++ List.replicate m 0).take n := by
  induction n generalizing src m with
  | zero => simp [fillBuffer]
  | succ n ih =>
    obtain ⟨m1, rfl⟩ : ∃ m1, m = m1 + 1 := ⟨m - 1, by omega⟩
    cases src with
    | nil =>
      have h := ih m1 [] (by omega)
      simp only [List.nil_append] at h
      simp [fillBuffer, List.replicate_succ, h]
    | cons b bs =>
      have h := ih (m1 + 1) bs (by omega)
      simp [fillBuffer, h]

/-- How the user of the options request gets its ID. -/
theorem attestationGeneratedUser_ok {s : server σ} {r : Request} {u0 u : user}
    (h : attestationGeneratedUser s r u0 = .ok u) :
    (u0.UserID ≠ none ∧ u = u0) ∨
    (u0.UserID = none ∧ ∃ src, s.ext.randRead r.rand = (src, 64, none) ∧
      u = { u0 with UserID := some (fillBuffer 64 src) }) := by
  simp only [attestationGeneratedUser] at h
  split at h
  · rename_i hid
    right
    refine ⟨hid, ?_⟩
    split at h
    · cases h
    · split at h
      · cases h
      · rename_i src n hread hn
        cases h
        have hn64 : n = 64 := by
          by_contra hne
          exact hn hne
        subst hn64
        exact ⟨src, hread, rfl⟩
  · rename_i hid
    left
    cases h
    exact ⟨hid, rfl⟩

/-- The handler `handleAttestationOptions` on a decoded request with a username and a
display name, written with the named blocks. -/
theorem handleAttestationOptions_eq (s : server σ) (w : ResponseWriter σ) (r : Request)
    (st : World σ) (session : Session) (req : attestationOptionsRequest)
    (hsession : mapGet st.ctx contextKeyLoginSession = some session)
    (hdecode : s.ext.decodeAttestationOptionsRequest r.Body = .ok req)
    (hu : req.Username ≠ "") (hd : req.DisplayName ≠ "") :
    handleAttestationOptions s w r st =
      match attestationFoundUser s st.db req with
      | .error e =>
        writeFailedServerResponse w StatusInternalServerError
          ("Failed to query user in database: " ++ e)
          { st with dbCalls := st.dbCalls ++ [dataStoreCall.getUser req.Username] }
      | .ok u0 =>
        match attestationGeneratedUser s r u0 with
        | .error e =>
          writeFailedServerResponse w StatusInternalServerError e
            { st with dbCalls := st.dbCalls ++ [dataStoreCall.getUser req.Username] }
        | .ok u =>
          match s.ext.NewAttestationOptions s.webAuthnConfig (webAuthnUserOf u) r.rand with
          | .error e =>
            writeFailedServerResponse w StatusInternalServerError
              ("Failed to generate PublicKeyCredentialCreationOptions: " ++ e)
              { st with dbCalls := st.dbCalls ++ [dataStoreCall.getUser req.Username] }
          | .ok o0 =>
            match s.ext.marshalErr
                (Payload.creationOptions { Status := statusOK, ErrorMessage := "" }
                  (issuedCreationOptions req o0)) with
            | some e =>
              writeFailedServerResponse w StatusInternalServerError
                ("Failed to json encode response body: " ++ e)
                (setSessionValue
                  (setSessionValue
                    { st with dbCalls := st.dbCalls ++ [dataStoreCall.getUser req.Username] }
                    sessionMapKeyWebAuthnCreationOptions
                    (SessionValue.creationOptions (issuedCreationOptions req o0)))
                  sessionMapKeyUserSession
                  (SessionValue.userSession { User := u, LoggedInCredentialID := [] }))
            | none =>
              w.Write
                (Payload.creationOptions { Status := statusOK, ErrorMessage := "" }
                  (issuedCreationOptions req o0))
                (w.HeaderSet "Content-Type" "application/json"
                  (setSessionValue
                    (setSessionValue
                      { st with dbCalls := st.dbCalls ++ [dataStoreCall.getUser req.Username] }
                      sessionMapKeyWebAuthnCreationOptions
                      (SessionValue.creationOptions (issuedCreationOptions req o0)))
                    sessionMapKeyUserSession
                    (SessionValue.userSession { User := u, LoggedInCredentialID := [] }))) := by
  simp only [handleAttestationOptions, hsession, hdecode, hu, hd, if_false]
  rfl

/-- The successful run of `handleAttestationOptions` on the server's own writer: what
status 200 implies. -/
theorem handleAttestationOptions_ok (s : server σ) (r : Request) (st : World σ)
    (session : Session) (req : attestationOptionsRequest)
    (hsession : mapGet st.ctx contextKeyLoginSession = some session)
    (hfresh : st.resp.wroteHeader = false)
    (hdecode : s.ext.decodeAttestationOptionsRequest r.Body = .ok req)
    (hcode : (handleAttestationOptions s ((WriterKind.server).writer σ) r st).resp.Code = 200) :
    req.Username ≠ "" ∧ req.DisplayName ≠ "" ∧
    ∃ u0 u o0,
      attestationFoundUser s st.db req = .ok u0 ∧
      attestationGeneratedUser s r u0 = .ok u ∧
      s.ext.NewAttestationOptions s.webAuthnConfig (webAuthnUserOf u) r.rand = .ok o0 ∧
      loginValue (handleAttestationOptions s ((WriterKind.server).writer σ) r st).ctx
          sessionMapKeyWebAuthnCreationOptions
        = some (SessionValue.creationOptions (issuedCreationOptions req o0)) ∧
      loginValue (handleAttestationOptions s ((WriterKind.server).writer σ) r st).ctx
          sessionMapKeyUserSession
        = some (SessionValue.userSession { User := u, LoggedInCredentialID := [] }) ∧
      (handleAttestationOptions s ((WriterKind.server).writer σ) r st).resp.Body
        = st.resp.Body ++
            [Payload.creationOptions { Status := statusOK, ErrorMessage := "" }
              (issuedCreationOptions req o0)] := by
  by_cases hu : req.Username = ""
  · simp [handleAttestationOptions, hsession, hdecode, hu, writeFailed_code, hfresh,
      StatusBadRequest] at hcode
  by_cases hd : req.DisplayName = ""
  · simp [handleAttestationOptions, hsession, hdecode, hu, hd, writeFailed_code, hfresh,
      StatusBadRequest] at hcode
  refine ⟨hu, hd, ?_⟩
  rw [handleAttestationOptions_eq s _ r st session req hsession hdecode hu hd] at hcode ⊢
  cases hfound : attestationFoundUser s st.db req with
  | error e =>
    simp [hfound, writeFailed_code, hfresh, StatusInternalServerError] at hcode
  | ok u0 =>
  cases hgen : attestationGeneratedUser s r u0 with
  | error e =>
    simp [hfound, hgen, writeFailed_code, hfresh, StatusInternalServerError] at hcode
  | ok u =>
  cases hnew : s.ext.NewAttestationOptions s.webAuthnConfig (webAuthnUserOf u) r.rand with
  | error e =>
    simp [hfound, hgen, hnew, writeFailed_code, hfresh, StatusInternalServerError] at hcode
  | ok o0 =>
  cases hm : s.ext.marshalErr
      (Payload.creationOptions { Status := statusOK, ErrorMessage := "" }
        (issuedCreationOptions req o0)) with
  | some e =>
    simp [hfound, hgen, hnew, hm, writeFailed_code, hfresh, StatusInternalServerError] at hcode
  | none =>
    refine ⟨u0, u, o0, rfl, hgen, hnew, ?_, ?_, ?_⟩
    · simp [hgen, hnew, hm, loginValue_set_ne _ _ key_user_ne_creation, hsession]
    · simp only [hgen, hnew, hm, write_ctx, headerSet_ctx, loginValue_set_self]
      simp [setSessionValue, mapGet_mapModify_self, hsession]
    · simp [hgen, hnew, hm, write_body]

end AttestationOptions

/-! ## updateCredential and addUserCredential on the PostgreSQL store -/

section StoreWrites

theorem map_eq_self_of_forall {α : Type} (l : List α) (f : α → α)
    (h : ∀ x ∈ l, f x = x) : l.map f = l := by
  induction l with
  | nil => rfl
  | cons x rest ih =>
    rw [List.map_cons, h x (List.mem_cons_self _ _),
      ih (fun y hy => h y (List.mem_cons_of_mem _ hy))]

theorem any_true_of_mem {α : Type} (l : List α) (p : α → Bool) (x : α) (hx : x ∈ l)
    (hp : p x = true) : l.any p = true := by
  rw [List.any_eq_true]
  exact ⟨x, hx, hp⟩

theorem updateCredentialRows_none (t : Tables) (counter now : Nat)
    (userID credentialID : Bytes)
    (hnone : ∀ row ∈ t.credentials, ¬ (row.user_id = userID ∧ row.id = credentialID)) :
    updateCredentialRows t counter now userID credentialID = (t, 0) := by
  have hmap : t.credentials.map (fun row =>
      if row.user_id = userID ∧ row.id = credentialID then
        { row with counter := counter, loggedin_at := now }
      else row) = t.credentials :=
    map_eq_self_of_forall _ _ (fun row hrow => by simp [hnone row hrow])
  have hfilter : t.credentials.filter
      (fun row => decide (row.user_id = userID ∧ row.id = credentialID)) = [] :=
    filter_nil_of_forall _ _ (fun row hrow => by simpa using hnone row hrow)
  simp only [updateCredentialRows, hmap, hfilter]
  rfl

theorem updateCredentialRows_some (t : Tables) (counter now : Nat)
    (userID credentialID : Bytes)
    (hsome : ∃ row ∈ t.credentials, row.user_id = userID ∧ row.id = credentialID) :
    (updateCredentialRows t counter now userID credentialID).2 ≠ 0 := by
  obtain ⟨row, hrow, hmatch⟩ := hsome
  simp only [updateCredentialRows]
  intro hzero
  have hmem : row ∈ t.credentials.filter
      (fun row => decide (row.user_id = userID ∧ row.id = credentialID)) := by
    rw [List.mem_filter]
    exact ⟨hrow, by simpa using hmatch⟩
  rw [List.length_eq_zero] at hzero
  rw [hzero] at hmem
  cases hmem

end StoreWrites

/-! ## The round trip through the PostgreSQL store -/

section RoundTrip

/-- The loop of `getUser` over the rows of its query. -/
theorem getUser_fold (rows : List (userRow × credentialRow)) (init : user) :
    (rows.foldl
      (fun (u : user) (row : userRow × credentialRow) =>
        { u with UserID := some row.1.id, DisplayName := row.1.display_name,
                 CredentialIDs := u.CredentialIDs ++ [row.2.id] }) init).UserName
      = init.UserName ∧
    (rows.foldl
      (fun (u : user) (row : userRow × credentialRow) =>
        { u with UserID := some row.1.id, DisplayName := row.1.display_name,
                 CredentialIDs := u.CredentialIDs ++ [row.2.id] }) init).CredentialIDs
      = init.CredentialIDs ++ rows.map (fun row => row.2.id) ∧
    (rows ≠ [] → ∃ row ∈ rows,
      (rows.foldl
        (fun (u : user) (row : userRow × credentialRow) =>
          { u with UserID := some row.1.id, DisplayName := row.1.display_name,
                   CredentialIDs := u.CredentialIDs ++ [row.2.id] }) init).UserID
        = row.1.id ∧
      (rows.foldl
        (fun (u : user) (row : userRow × credentialRow) =>
          { u with UserID := some row.1.id, DisplayName := row.1.display_name,
                   CredentialIDs := u.CredentialIDs ++ [row.2.id] }) init).DisplayName
        = row.1.display_name) := by
  induction rows generalizing init with
  | nil => simp
  | cons r rest ih =>
    simp only [List.foldl_cons]
    obtain ⟨h1, h2, h3⟩ := ih
      { init with UserID := some r.1.id, DisplayName := r.1.display_name,
                  CredentialIDs := init.CredentialIDs ++ [r.2.id] }
    refine ⟨h1, ?_, ?_⟩
    · rw [h2]
      simp
    · intro _
      by_cases hrest : rest = []
      · subst hrest
        exact ⟨r, List.mem_cons_self _ _, rfl, rfl⟩
      · obtain ⟨row, hrow, hid, hdisplay⟩ := h3 hrest
        exact ⟨row, List.mem_cons_of_mem _ hrow, hid, hdisplay⟩

/-- A username with a joined row whose user rows all have the ID `uid`, empty or not:
`getUser` returns that ID, the display name of one of the rows and the credential IDs
of all of them. -/
theorem getUser_found (db : dbStore) (t : Tables) (username : String) (uid : Bytes)
    (hquery : db.queryErr = none)
    (hids : ∀ ur ∈ t.users, ur.username = username → ur.id = uid)
    (ur0 : userRow) (cr0 : credentialRow) (hur0 : ur0 ∈ t.users)
    (hcr0 : cr0 ∈ t.credentials) (hjoin : ur0.id = cr0.user_id)
    (hname0 : ur0.username = username) :
    ∃ usr, db.getUser t username = .ok usr ∧ usr.UserID = some uid ∧
      usr.UserName = username ∧ cr0.id ∈ usr.CredentialIDs ∧
      ∃ row ∈ t.users, row.id = uid ∧ usr.DisplayName = row.display_name := by
  have hmem : ∀ row, row ∈ t.users.flatMap (fun ur =>
      (t.credentials.filter (fun cr => ur.id = cr.user_id ∧ ur.username = username)).map
        (fun cr => (ur, cr))) ↔
      (row.1 ∈ t.users ∧ row.2 ∈ t.credentials ∧ row.1.id = row.2.user_id ∧
        row.1.username = username) := by
    intro row
    obtain ⟨ur, cr⟩ := row
    simp only [List.mem_flatMap, List.mem_map, List.mem_filter, decide_eq_true_eq,
      Prod.mk.injEq]
    constructor
    · rintro ⟨a, ha, b, ⟨hb, hab, hn⟩, rfl, rfl⟩
      exact ⟨ha, hb, hab, hn⟩
    · rintro ⟨ha, hb, hab, hn⟩
      exact ⟨ur, ha, cr, ⟨hb, hab, hn⟩, rfl, rfl⟩
  have hin := (hmem (ur0, cr0)).2 ⟨hur0, hcr0, hjoin, hname0⟩
  have hne : t.users.flatMap (fun ur =>
      (t.credentials.filter (fun cr => ur.id = cr.user_id ∧ ur.username = username)).map
        (fun cr => (ur, cr))) ≠ [] := List.ne_nil_of_mem hin
  obtain ⟨hname, hcreds, hlast⟩ := getUser_fold
    (t.users.flatMap (fun ur =>
      (t.credentials.filter (fun cr => ur.id = cr.user_id ∧ ur.username = username)).map
        (fun cr => (ur, cr))))
    { UserID := none, UserName := username, DisplayName := "", CredentialIDs := [] }
  obtain ⟨row, hrow, hid, hdisplay⟩ := hlast hne
  have hrow2 := (hmem row).1 hrow
  have hrowid : row.1.id = uid := hids row.1 hrow2.1 hrow2.2.2.2
  refine ⟨_, ?_, by rw [hid, hrowid], hname, ?_, row.1, hrow2.1, hrowid, hdisplay⟩
  · simp only [dbStore.getUser, hquery]
    rw [if_neg]
    rw [hid]
    exact Option.some_ne_none _
  · rw [hcreds]
    simp only [List.nil_append, List.mem_map]
    exact ⟨(ur0, cr0), hin, rfl⟩

/-- What `addUserCredential` has done when it returns nil on a connection on which
every call goes through: the credential row is new and has been appended, and the user
row was either there already or has been appended. -/
theorem addUserCredential_nil (now : Nat) (t : Tables) (u : user) (c : credential)
    (hret : ((reliable now).addUserCredential t u c).1 = none) :
    ((reliable now).addUserCredential t u c).2.credentials
      = t.credentials ++
          [{ id := c.CredentialID, user_id := c.UserID, counter := c.Counter,
             cose_key := c.CoseKey, registered_at := now, loggedin_at := now }] ∧
    (∀ row ∈ t.credentials, row.id ≠ c.CredentialID) ∧
    ((((reliable now).addUserCredential t u c).2.users = t.users ∧
        ∃ ur ∈ t.users, ur.id = (u.UserID.getD [])) ∨
     (((reliable now).addUserCredential t u c).2.users = t.users ++
          [{ id := u.UserID.getD [], username := u.UserName, display_name := u.DisplayName }] ∧
        ∀ ur ∈ t.users, ur.username ≠ u.UserName)) := by
  by_cases h3 : t.credentials.any (fun row => decide (row.id = c.CredentialID)) = true
  · exfalso
    by_cases h1 : t.users.any (fun row => decide (row.id = (u.UserID.getD []))) = true
    · simp [dbStore.addUserCredential, reliable, insertUser, insertCredential, h1, h3] at hret
    · by_cases h2 : t.users.any (fun row => decide (row.username = u.UserName)) = true
      · simp [dbStore.addUserCredential, reliable, insertUser, h1, h2] at hret
      · simp [dbStore.addUserCredential, reliable, insertUser, insertCredential, h1, h2,
          h3] at hret
  · have hnew : ∀ row ∈ t.credentials, row.id ≠ c.CredentialID := by
      intro row hrow hid
      exact h3 (any_true_of_mem _ _ row hrow (by simpa using hid))
    by_cases h1 : t.users.any (fun row => decide (row.id = (u.UserID.getD []))) = true
    · have hex : ∃ ur ∈ t.users, ur.id = (u.UserID.getD []) := by
        rw [List.any_eq_true] at h1
        obtain ⟨ur, hur, hid⟩ := h1
        exact ⟨ur, hur, by simpa using hid⟩
      by_cases h4 : t.users.any (fun row => decide (row.id = c.UserID)) = true
      · refine ⟨?_, hnew, Or.inl ⟨?_, hex⟩⟩
        · simp [dbStore.addUserCredential, reliable, insertUser, insertCredential, h1, h3,
            h4]
        · simp [dbStore.addUserCredential, reliable, insertUser, insertCredential, h1, h3,
            h4]
      · exfalso
        simp [dbStore.addUserCredential, reliable, insertUser, insertCredential, h1, h3,
          h4] at hret
    · by_cases h2 : t.users.any (fun row => decide (row.username = u.UserName)) = true
      · exfalso
        simp [dbStore.addUserCredential, reliable, insertUser, h1, h2] at hret
      · have hfresh : ∀ ur ∈ t.users, ur.username ≠ u.UserName := by
          intro ur hur hname
          exact h2 (any_true_of_mem _ _ ur hur (by simpa using hname))
        by_cases h4 : (∀ x ∈ t.users, ¬ x.id = c.UserID) ∧ ¬ (u.UserID.getD []) = c.UserID
        · exfalso
          simp [dbStore.addUserCredential, reliable, insertUser, insertCredential, h1, h2,
            h3, h4.2] at hret
          rw [if_pos h4.1] at hret
          simp at hret
        · refine ⟨?_, hnew, Or.inr ⟨?_, hfresh⟩⟩
          · simp [dbStore.addUserCredential, reliable, insertUser, insertCredential, h1,
              h2, h3, h4]
          · simp [dbStore.addUserCredential, reliable, insertUser, insertCredential, h1,
              h2, h3, h4]

theorem getCredential_none (db : dbStore) (t : Tables) (userID credentialID : Bytes)
    (hquery : db.queryErr = none)
    (hnone : ∀ row ∈ t.credentials, ¬ (row.user_id = userID ∧ row.id = credentialID)) :
    db.getCredential t userID credentialID = .error .errNoRecords := by
  have hfind : t.credentials.find?
      (fun row => decide (row.user_id = userID ∧ row.id = credentialID)) = none := by
    rw [List.find?_eq_none]
    intro row hrow
    simpa using hnone row hrow
  simp only [dbStore.getCredential, hquery, hfind]

theorem getCredential_found (db : dbStore) (t : Tables) (userID credentialID : Bytes)
    (row : credentialRow) (hquery : db.queryErr = none)
    (hfind : t.credentials.find?
      (fun row => decide (row.user_id = userID ∧ row.id = credentialID)) = some row) :
    db.getCredential t userID credentialID
      = .ok { CredentialID := credentialID, UserID := userID, Counter := row.counter,
              CoseKey := row.cose_key } := by
  simp only [dbStore.getCredential, hquery, hfind]

end RoundTrip

/-! ## The middleware: loading and saving sessions -/

section SessionMiddleware

variable {σ : Type}

theorem okBody_members :
    jsonMembers (Payload.raw serverResponseOKJSONString) = [("status", "ok")] := by
  decide

theorem savesOnly_refl (names : List String) (s0 : SessionStore) : savesOnly names s0 s0 :=
  ⟨[], by simp, by simp⟩

theorem savesOnly_of_eq (names : List String) {s0 s1 : SessionStore} (h : s1 = s0) :
    savesOnly names s0 s1 := by
  rw [h]
  exact savesOnly_refl names s0

theorem savesOnly_trans (names : List String) {s0 s1 s2 : SessionStore}
    (h1 : savesOnly names s0 s1) (h2 : savesOnly names s1 s2) : savesOnly names s0 s2 := by
  obtain ⟨a1, e1, m1⟩ := h1
  obtain ⟨a2, e2, m2⟩ := h2
  refine ⟨a1 ++ a2, ?_, ?_⟩
  · rw [e2, e1, List.append_assoc]
  · intro e he
    rw [List.mem_append] at he
    rcases he with he | he
    · exact m1 e he
    · exact m2 e he

theorem save_savesOnly (names : List String) (s0 : SessionStore) (name : String)
    (session : Session) (hname : name ∈ names) :
    savesOnly names s0 (s0.Save name session).2 := by
  refine ⟨[(name, session)], ?_, ?_⟩
  · simp only [SessionStore.Save]
    split <;> rfl
  · intro e he
    rw [List.mem_singleton] at he
    rw [he]
    exact hname

theorem save_saveErr (s0 : SessionStore) (name : String) (session : Session) :
    (s0.Save name session).2.saveErr = s0.saveErr := by
  simp only [SessionStore.Save]
  split <;> rfl

theorem saveSessions_savesOnly (names sub : List String) (b : Payload) (st : World σ)
    (hsub : ∀ name ∈ sub, name ∈ names) :
    savesOnly names st.sessionStore
      (saveSessions (serverWriter σ) sub b st).sessionStore := by
  induction sub generalizing st with
  | nil => exact savesOnly_refl _ _
  | cons name rest ih =>
    simp only [saveSessions]
    split
    · exact savesOnly_refl _ _
    · rename_i session _
      have hsave := save_savesOnly names st.sessionStore name session
        (hsub name (List.mem_cons_self _ _))
      split
      · rename_i err store heq
        have hstore : store = (st.sessionStore.Save name session).2 := by rw [heq]
        rw [hstore]
        exact hsave
      · rename_i store heq
        have hstore : store = (st.sessionStore.Save name session).2 := by rw [heq]
        rw [hstore]
        exact savesOnly_trans names hsave
          (ih _ (fun n hn => hsub n (List.mem_cons_of_mem _ hn)))

theorem run_session_savesOnly (rw : List String) (op : HandlerOp) (st : World σ) :
    savesOnly rw st.sessionStore
      (op.run (sessionWriter (serverWriter σ) rw) st).sessionStore := by
  cases op with
  | HeaderSet k v => exact savesOnly_refl _ _
  | WriteHeader code => exact savesOnly_refl _ _
  | Write b =>
    simp only [HandlerOp.run, sessionWriter]
    split
    · exact savesOnly_refl _ _
    · exact saveSessions_savesOnly rw rw b st (fun _ h => h)
  | setValue name key v =>
    simp only [HandlerOp.run]
    split <;> exact savesOnly_refl _ _
  | deleteValue name key =>
    simp only [HandlerOp.run]
    split <;> exact savesOnly_refl _ _

theorem runOps_session_savesOnly (rw : List String) (ops : List HandlerOp) (r : Request)
    (st : World σ) :
    savesOnly rw st.sessionStore
      (runOps ops (sessionWriter (serverWriter σ) rw) r st).sessionStore := by
  induction ops generalizing st with
  | nil => exact savesOnly_refl _ _
  | cons op rest ih =>
    simp only [runOps]
    split
    · exact savesOnly_refl _ _
    · exact savesOnly_trans rw (run_session_savesOnly rw op st) (ih _)

/-- Loading the sessions `names` when `Get` succeeds for each of them. -/
theorem storeSessionInContext_ok (store : SessionStore) (ctx : List (String × Session))
    (names : List String)
    (hget : ∀ name ∈ names, ∃ session, store.Get name = .ok session) :
    ∃ ctx1, storeSessionInContext store ctx names = .ok ctx1 ∧
      (∀ name ∈ names, ∃ session, store.Get name = .ok session ∧
        mapGet ctx1 name = some session) ∧
      (∀ name, name ∉ names → mapGet ctx1 name = mapGet ctx name) := by
  induction names generalizing ctx with
  | nil => exact ⟨ctx, rfl, by simp, fun _ _ => rfl⟩
  | cons n rest ih =>
    obtain ⟨session, hsession⟩ := hget n (List.mem_cons_self _ _)
    obtain ⟨ctx1, hctx1, hin, hout⟩ := ih (mapSet ctx n session)
      (fun name hname => hget name (List.mem_cons_of_mem _ hname))
    refine ⟨ctx1, ?_, ?_, ?_⟩
    · simp only [storeSessionInContext, hsession]
      exact hctx1
    · intro name hname
      by_cases hrest : name ∈ rest
      · exact hin name hrest
      · have hn : name = n := by
          rcases List.mem_cons.1 hname with h | h
          · exact h
          · exact absurd h hrest
        subst hn
        refine ⟨session, hsession, ?_⟩
        rw [hout name hrest, mapGet_mapSet_self]
    · intro name hname
      have h1 : name ∉ rest := fun h => hname (List.mem_cons_of_mem _ h)
      have h2 : name ≠ n := fun h => hname (by rw [h]; exact List.mem_cons_self _ _)
      rw [hout name h1]
      exact mapGet_mapSet_ne _ _ (Ne.symm h2)

/-- Loading the sessions `names` when `Get` fails for one of them. -/
theorem storeSessionInContext_error (store : SessionStore) (ctx : List (String × Session))
    (names : List String)
    (hget : ∃ name ∈ names, ∃ e, store.Get name = .error e) :
    ∃ name e, name ∈ names ∧ store.Get name = .error e ∧
      storeSessionInContext store ctx names
        = .error ("failed to retrieve session \"" ++ name ++ "\": " ++ e) := by
  induction names generalizing ctx with
  | nil =>
    obtain ⟨name, hname, _⟩ := hget
    cases hname
  | cons n rest ih =>
    cases hn : store.Get n with
    | error e =>
      exact ⟨n, e, List.mem_cons_self _ _, hn, by simp only [storeSessionInContext, hn]⟩
    | ok session =>
      have hrest : ∃ name ∈ rest, ∃ e, store.Get name = .error e := by
        obtain ⟨name, hname, e, he⟩ := hget
        rcases List.mem_cons.1 hname with h | h
        · rw [h, hn] at he
          cases he
        · exact ⟨name, h, e, he⟩
      obtain ⟨name, e, hname, he, hres⟩ := ih (mapSet ctx n session) hrest
      exact ⟨name, e, List.mem_cons_of_mem _ hname, he,
        by simp only [storeSessionInContext, hn]; exact hres⟩

/-- The middleware when every named session loads. -/
theorem handleSession_loaded (rw rn : List String) (next : HandlerFunc σ)
    (w : ResponseWriter σ) (r : Request) (st : World σ)
    (hget : ∀ name ∈ rw ++ rn, ∃ session, st.sessionStore.Get name = .ok session) :
    ∃ ctx, (∀ name ∈ rw ++ rn, ∃ session, st.sessionStore.Get name = .ok session ∧
        mapGet ctx name = some session) ∧
      handleSession rw rn next w r st
        = if rw.length > 0 then
            next (sessionWriter w rw) r { st with ctx := ctx, status := 0 }
          else next w r { st with ctx := ctx } := by
  obtain ⟨ctx1, hctx1, hin1, _⟩ := storeSessionInContext_ok st.sessionStore st.ctx rw
    (fun name hname => hget name (List.mem_append_left _ hname))
  obtain ⟨ctx2, hctx2, hin2, hout2⟩ := storeSessionInContext_ok st.sessionStore ctx1 rn
    (fun name hname => hget name (List.mem_append_right _ hname))
  refine ⟨ctx2, ?_, ?_⟩
  · intro name hname
    by_cases hrn : name ∈ rn
    · exact hin2 name hrn
    · have hrw : name ∈ rw := by
        rcases List.mem_append.1 hname with h | h
        · exact h
        · exact absurd h hrn
      obtain ⟨session, hsession, hmap⟩ := hin1 name hrw
      exact ⟨session, hsession, by rw [hout2 name hrn, hmap]⟩
  · simp only [handleSession, sessionHandler.ServeHTTP, hctx1, hctx2]

/-- The middleware when a named session fails to load. -/
theorem handleSession_get_error (rw rn : List String) (next : HandlerFunc σ)
    (w : ResponseWriter σ) (r : Request) (st : World σ)
    (hget : ∃ name ∈ rw ++ rn, ∃ e, st.sessionStore.Get name = .error e) :
    ∃ name e, name ∈ rw ++ rn ∧ st.sessionStore.Get name = .error e ∧
      handleSession rw rn next w r st
        = writeFailedServerResponse w StatusInternalServerError
            ("failed to retrieve session \"" ++ name ++ "\": " ++ e) st := by
  by_cases hrw : ∃ name ∈ rw, ∃ e, st.sessionStore.Get name = .error e
  · obtain ⟨name, e, hname, he, hres⟩ :=
      storeSessionInContext_error st.sessionStore st.ctx rw hrw
    exact ⟨name, e, List.mem_append_left _ hname, he,
      by simp only [handleSession, sessionHandler.ServeHTTP, hres]⟩
  · have hok : ∀ name ∈ rw, ∃ session, st.sessionStore.Get name = .ok session := by
      intro name hname
      cases hn : st.sessionStore.Get name with
      | error e => exact absurd ⟨name, hname, e, hn⟩ hrw
      | ok session => exact ⟨session, rfl⟩
    obtain ⟨ctx1, hctx1, _, _⟩ := storeSessionInContext_ok st.sessionStore st.ctx rw hok
    have hrn : ∃ name ∈ rn, ∃ e, st.sessionStore.Get name = .error e := by
      obtain ⟨name, hname, e, he⟩ := hget
      rcases List.mem_append.1 hname with h | h
      · exact absurd ⟨name, h, e, he⟩ hrw
      · exact ⟨name, h, e, he⟩
    obtain ⟨name, e, hname, he, hres⟩ :=
      storeSessionInContext_error st.sessionStore ctx1 rn hrn
    exact ⟨name, e, List.mem_append_right _ hname, he,
      by simp only [handleSession, sessionHandler.ServeHTTP, hctx1, hres]⟩

theorem handleSession_savesOnly (rw rn : List String) (ops : List HandlerOp) (r : Request)
    (st : World σ) :
    savesOnly rw st.sessionStore
      (handleSession rw rn (runOps ops) (serverWriter σ) r st).sessionStore := by
  simp only [handleSession, sessionHandler.ServeHTTP]
  split
  · exact savesOnly_refl _ _
  · split
    · exact savesOnly_refl _ _
    · split
      · exact runOps_session_savesOnly rw ops r _
      · exact savesOnly_of_eq rw (runOps_server_store ops r _)

theorem handleSession_read_only_store (rn : List String) (ops : List HandlerOp)
    (r : Request) (st : World σ) :
    (handleSession [] rn (runOps ops) (serverWriter σ) r st).sessionStore
      = st.sessionStore := by
  simp only [handleSession, sessionHandler.ServeHTTP, storeSessionInContext]
  split
  · rfl
  · simp only [List.length_nil, gt_iff_lt, lt_self_iff_false, if_false]
    exact runOps_server_store ops r _

/-- A failing `Save` inside `sessionWriter.Write`: the response is the failed response
of the first session that cannot be saved, and the body handed over is not written. -/
theorem saveSessions_save_error (names : List String) (b : Payload) (st : World σ)
    (hfresh : st.resp.wroteHeader = false)
    (hctx : ∀ name ∈ names, (mapGet st.ctx name).isSome = true)
    (herr : ∃ name ∈ names, (mapGet st.sessionStore.saveErr name).isSome = true) :
    ∃ name e, name ∈ names ∧ mapGet st.sessionStore.saveErr name = some e ∧
      (saveSessions (serverWriter σ) names b st).resp.Code = 500 ∧
      (saveSessions (serverWriter σ) names b st).resp.Body
        = st.resp.Body ++ [failedBody ("Failed to save session " ++ name ++ ": " ++ e)] := by
  induction names generalizing st with
  | nil =>
    obtain ⟨name, hname, _⟩ := herr
    cases hname
  | cons n rest ih =>
    have hn := hctx n (List.mem_cons_self _ _)
    cases hsession : mapGet st.ctx n with
    | none => simp [hsession] at hn
    | some session =>
    cases he : mapGet st.sessionStore.saveErr n with
    | some e =>
      refine ⟨n, e, List.mem_cons_self _ _, he, ?_, ?_⟩
      · simp [saveSessions, hsession, SessionStore.Save, he, writeFailedServerResponse,
          serverWriter, ResponseRecorder.WriteHeader, ResponseRecorder.Write, hfresh,
          StatusInternalServerError]
      · simp [saveSessions, hsession, SessionStore.Save, he, writeFailedServerResponse,
          serverWriter, ResponseRecorder.WriteHeader, ResponseRecorder.Write, hfresh,
          failedBody]
    | none =>
      have hrest : ∃ name ∈ rest, (mapGet st.sessionStore.saveErr name).isSome = true := by
        obtain ⟨name, hname, hsome⟩ := herr
        rcases List.mem_cons.1 hname with h | h
        · rw [h, he] at hsome
          cases hsome
        · exact ⟨name, h, hsome⟩
      have hstep : saveSessions (serverWriter σ) (n :: rest) b st
          = saveSessions (serverWriter σ) rest b
              { st with sessionStore :=
                  { st.sessionStore with
                    records := mapSet st.sessionStore.records n session,
                    saveCalls := st.sessionStore.saveCalls ++ [(n, session)] } } := by
        simp [saveSessions, hsession, SessionStore.Save, he]
      obtain ⟨name, e, hname, hsome, hcode, hbody⟩ := ih
        { st with sessionStore :=
            { st.sessionStore with
              records := mapSet st.sessionStore.records n session,
              saveCalls := st.sessionStore.saveCalls ++ [(n, session)] } }
        hfresh (fun name hname => hctx name (List.mem_cons_of_mem _ hname)) hrest
      exact ⟨name, e, List.mem_cons_of_mem _ hname, hsome, by rw [hstep]; exact hcode,
        by rw [hstep]; exact hbody⟩

end SessionMiddleware

/-! ## The panics of the handlers and of the session writer -/

section Panics

variable {σ : Type}

theorem saveSessions_panicked (names : List String) (b : Payload) (st : World σ)
    (hctx : ∀ name ∈ names, (mapGet st.ctx name).isSome = true) :
    (saveSessions (serverWriter σ) names b st).panicked = st.panicked := by
  induction names generalizing st with
  | nil => rfl
  | cons n rest ih =>
    have hn := hctx n (List.mem_cons_self _ _)
    cases hsession : mapGet st.ctx n with
    | none => simp [hsession] at hn
    | some session =>
      simp only [saveSessions, hsession]
      split
      · rfl
      · exact ih _ (fun name hname => hctx name (List.mem_cons_of_mem _ hname))

theorem write_panicked (k : WriterKind) (b : Payload) (st : World σ) (hk : routeWriter k)
    (hctx : (mapGet st.ctx contextKeyLoginSession).isSome = true) :
    ((k.writer σ).Write b st).panicked = st.panicked := by
  rcases hk with hk | hk
  · subst hk
    rfl
  · subst hk
    simp only [WriterKind.writer, sessionWriter]
    split
    · rfl
    · apply saveSessions_panicked
      intro name hname
      rw [List.mem_singleton] at hname
      rw [hname]
      exact hctx

@[simp] theorem headerSet_panicked (k : WriterKind) (a b : String) (st : World σ) :
    ((k.writer σ).HeaderSet a b st).panicked = st.panicked := by
  cases k <;> rfl

@[simp] theorem writeHeader_panicked (k : WriterKind) (code : Nat) (st : World σ) :
    ((k.writer σ).WriteHeader code st).panicked = st.panicked := by
  cases k <;> rfl

theorem write_headerSet_panicked (k : WriterKind) (b : Payload) (a c : String)
    (st : World σ) (hk : routeWriter k)
    (hctx : (mapGet st.ctx contextKeyLoginSession).isSome = true) :
    ((k.writer σ).Write b ((k.writer σ).HeaderSet a c st)).panicked = st.panicked := by
  rw [write_panicked k _ _ hk (by simpa using hctx)]
  simp

theorem writeFailed_panicked (k : WriterKind) (code : Nat) (msg : String) (st : World σ)
    (hk : routeWriter k) (hctx : (mapGet st.ctx contextKeyLoginSession).isSome = true) :
    (writeFailedServerResponse (k.writer σ) code msg st).panicked = st.panicked := by
  simp only [writeFailedServerResponse]
  rw [write_panicked k _ _ hk (by simpa using hctx)]
  simp

theorem writeOK_panicked (k : WriterKind) (st : World σ)
    (hk : routeWriter k) (hctx : (mapGet st.ctx contextKeyLoginSession).isSome = true) :
    (writeOKServerResponse (k.writer σ) st).panicked = st.panicked := by
  simp only [writeOKServerResponse]
  rw [write_panicked k _ _ hk (by simpa using hctx)]
  simp

theorem deleteSessionValue_session (st : World σ) (key : String)
    (hctx : (mapGet st.ctx contextKeyLoginSession).isSome = true) :
    (mapGet (deleteSessionValue st key).ctx contextKeyLoginSession).isSome = true := by
  simpa [deleteSessionValue, mapGet_mapModify_self] using hctx

theorem setSessionValue_session (st : World σ) (key : String) (v : SessionValue)
    (hctx : (mapGet st.ctx contextKeyLoginSession).isSome = true) :
    (mapGet (setSessionValue st key v).ctx contextKeyLoginSession).isSome = true := by
  simpa [setSessionValue, mapGet_mapModify_self] using hctx

theorem updateUserSession_session (st : World σ) (u : userSession)
    (hctx : (mapGet st.ctx contextKeyLoginSession).isSome = true) :
    (mapGet (updateUserSession st u).ctx contextKeyLoginSession).isSome = true := by
  simpa [updateUserSession, mapGet_mapModify_self] using hctx

@[simp] theorem deleteSessionValue_panicked (st : World σ) (key : String) :
    (deleteSessionValue st key).panicked = st.panicked := rfl

@[simp] theorem setSessionValue_panicked (st : World σ) (key : String) (v : SessionValue) :
    (setSessionValue st key v).panicked = st.panicked := rfl

@[simp] theorem updateUserSession_panicked (st : World σ) (u : userSession) :
    (updateUserSession st u).panicked = st.panicked := rfl

theorem handleLogout_panicked (s : server σ) (k : WriterKind) (r : Request) (st : World σ)
    (hk : routeWriter k) (hctx : (mapGet st.ctx contextKeyLoginSession).isSome = true) :
    (handleLogout s (k.writer σ) r st).panicked = st.panicked := by
  simp only [handleLogout]
  split
  · rename_i h
    simp [h] at hctx
  · rw [writeOK_panicked k _ hk (deleteSessionValue_session st _ hctx)]
    rfl

theorem handleUser_panicked (s : server σ) (k : WriterKind) (r : Request) (st : World σ)
    (hk : routeWriter k) (hctx : (mapGet st.ctx contextKeyLoginSession).isSome = true) :
    (handleUser s (k.writer σ) r st).panicked = st.panicked := by
  simp only [handleUser]
  repeat' split
  all_goals
    first
    | (rename_i h; simp [h] at hctx)
    | (rw [writeFailed_panicked k _ _ _ hk (by simpa using hctx)])
    | (rw [write_headerSet_panicked k _ _ _ _ hk (by simpa using hctx)])

theorem handleAttestationResult_panicked (s : server σ) (k : WriterKind) (r : Request)
    (st : World σ) (hk : routeWriter k)
    (hctx : (mapGet st.ctx contextKeyLoginSession).isSome = true) :
    (handleAttestationResult s (k.writer σ) r st).panicked = st.panicked := by
  simp only [handleAttestationResult]
  repeat' split
  all_goals
    first
    | (rename_i h; simp [h] at hctx)
    | (rw [writeFailed_panicked k _ _ _ hk
        (deleteSessionValue_session _ _ (by simpa using hctx))]; rfl)
    | (rw [writeOK_panicked k _ hk
        (updateUserSession_session _ _
          (deleteSessionValue_session _ _ (by simpa using hctx)))]; rfl)

theorem handleAssertionResult_panicked (s : server σ) (k : WriterKind) (r : Request)
    (st : World σ) (hk : routeWriter k)
    (hctx : (mapGet st.ctx contextKeyLoginSession).isSome = true) :
    (handleAssertionResult s (k.writer σ) r st).panicked = st.panicked := by
  simp only [handleAssertionResult]
  repeat' split
  all_goals
    first
    | (rename_i h; simp [h] at hctx)
    | (rw [writeFailed_panicked k _ _ _ hk
        (deleteSessionValue_session _ _ (by simpa using hctx))]; rfl)
    | (rw [writeOK_panicked k _ hk
        (updateUserSession_session _ _
          (deleteSessionValue_session _ _ (by simpa using hctx)))]; rfl)

theorem handleAssertionOptions_panicked (s : server σ) (k : WriterKind) (r : Request)
    (st : World σ) (hk : routeWriter k)
    (hctx : (mapGet st.ctx contextKeyLoginSession).isSome = true) :
    (handleAssertionOptions s (k.writer σ) r st).panicked = st.panicked := by
  simp only [handleAssertionOptions]
  repeat' split
  all_goals
    first
    | (rename_i h; simp [h] at hctx)
    | (rw [writeFailed_panicked k _ _ _ hk (by simpa using hctx)])
    | (rw [writeFailed_panicked k _ _ _ hk
        (setSessionValue_session _ _ _
          (setSessionValue_session _ _ _ (by simpa using hctx)))]; rfl)
    | (rw [write_headerSet_panicked k _ _ _ _ hk
        (setSessionValue_session _ _ _
          (setSessionValue_session _ _ _ (by simpa using hctx)))]; rfl)

theorem handleAttestationOptions_panicked (s : server σ) (k : WriterKind) (r : Request)
    (st : World σ) (hk : routeWriter k)
    (hctx : (mapGet st.ctx contextKeyLoginSession).isSome = true) :
    (handleAttestationOptions s (k.writer σ) r st).panicked = st.panicked := by
  simp only [handleAttestationOptions]
  repeat' split
  all_goals
    first
    | (rename_i h; simp [h] at hctx)
    | (rw [writeFailed_panicked k _ _ _ hk (by simpa using hctx)])
    | (rw [writeFailed_panicked k _ _ _ hk
        (setSessionValue_session _ _ _
          (setSessionValue_session _ _ _ (by simpa using hctx)))]; rfl)
    | (rw [write_headerSet_panicked k _ _ _ _ hk
        (setSessionValue_session _ _ _
          (setSessionValue_session _ _ _ (by simpa using hctx)))]; rfl)

theorem handler_panicked (s : server σ) (route : Route) (k : WriterKind) (r : Request)
    (st : World σ) (hk : routeWriter k)
    (hctx : (mapGet st.ctx contextKeyLoginSession).isSome = true) :
    (route.handler s (k.writer σ) r st).panicked = st.panicked := by
  cases route with
  | attestationOptions => exact handleAttestationOptions_panicked s k r st hk hctx
  | assertionOptions => exact handleAssertionOptions_panicked s k r st hk hctx
  | attestationResult => exact handleAttestationResult_panicked s k r st hk hctx
  | assertionResult => exact handleAssertionResult_panicked s k r st hk hctx
  | logout => exact handleLogout_panicked s k r st hk hctx
  | user => exact handleUser_panicked s k r st hk hctx

end Panics

/-! ## The options handlers and the login state -/

section OptionsLoginState

variable {σ : Type}

theorem handleAssertionOptions_cases (s : server σ) (k : WriterKind) (r : Request)
    (st : World σ) (session : Session)
    (hsession : mapGet st.ctx contextKeyLoginSession = some session)
    (hfresh : st.resp.wroteHeader = false) :
    (handleAssertionOptions s (k.writer σ) r st).resp.Code ≠ 200 ∨
    ∃ u b, optionsWritten k st (handleAssertionOptions s (k.writer σ) r st) u b := by
  simp only [handleAssertionOptions, hsession]
  repeat' split
  all_goals
    first
    | (left; simp [writeFailed_code, hfresh, StatusBadRequest, StatusInternalServerError]; done)
    | (right; refine ⟨_, _, _, _, _, ?_, ?_, ?_, ?_, rfl⟩ <;> rfl)

theorem handleAttestationOptions_cases (s : server σ) (k : WriterKind) (r : Request)
    (st : World σ) (session : Session)
    (hsession : mapGet st.ctx contextKeyLoginSession = some session)
    (hfresh : st.resp.wroteHeader = false) :
    (handleAttestationOptions s (k.writer σ) r st).resp.Code ≠ 200 ∨
    ∃ u b, optionsWritten k st (handleAttestationOptions s (k.writer σ) r st) u b := by
  simp only [handleAttestationOptions, hsession]
  repeat' split
  all_goals
    first
    | (left; simp [writeFailed_code, hfresh, StatusBadRequest, StatusInternalServerError]; done)
    | (right; refine ⟨_, _, _, _, _, ?_, ?_, ?_, ?_, rfl⟩ <;> rfl)

/-- What `optionsWritten` leaves in the context. -/
theorem optionsWritten_ctx (k : WriterKind) (st out : World σ) (u : user) (b : Payload)
    (session : Session) (hsession : mapGet st.ctx contextKeyLoginSession = some session)
    (h : optionsWritten k st out u b) :
    loginValue out.ctx sessionMapKeyUserSession
      = some (SessionValue.userSession { User := u, LoggedInCredentialID := [] }) := by
  obtain ⟨key, v, st0, hctx, _, _, _, hout⟩ := h
  rw [hout]
  simp only [write_ctx, headerSet_ctx, loginValue_set_self]
  simp [setSessionValue, mapGet_mapModify_self, hctx, hsession]

/-- What `optionsWritten` through the writer of `handleAuthnSession` leaves in the
session store, when the status is 200. -/
theorem optionsWritten_store (st out : World σ) (u : user) (b : Payload)
    (session : Session) (hsession : mapGet st.ctx contextKeyLoginSession = some session)
    (hstatus : st.status = 0) (hfresh : st.resp.wroteHeader = false)
    (h : optionsWritten (WriterKind.session [sessionNameLoginSession]) st out u b)
    (hcode : out.resp.Code = 200) :
    storedLoginValue out.sessionStore sessionMapKeyUserSession
      = some (SessionValue.userSession { User := u, LoggedInCredentialID := [] }) ∧
    out.sessionStore.getErr = st.sessionStore.getErr := by
  obtain ⟨key, v, st0, hctx, hresp, hst, hstore, hout⟩ := h
  rw [hout] at hcode ⊢
  have hsession1 : mapGet st.ctx sessionNameLoginSession = some session := hsession
  cases he : mapGet st.sessionStore.saveErr sessionNameLoginSession with
  | some e =>
    simp [WriterKind.writer, sessionWriter, saveSessions, setSessionValue,
      contextKeyLoginSession, mapGet_mapModify_self, hctx, hresp, hst, hstore, hsession1,
      hstatus, SessionStore.Save, he, serverWriter, ResponseRecorder.Write,
      ResponseRecorder.WriteHeader, hfresh, writeFailedServerResponse,
      StatusInternalServerError] at hcode
  | none =>
    simp [storedLoginValue, WriterKind.writer, sessionWriter, saveSessions, setSessionValue,
      contextKeyLoginSession, mapGet_mapModify_self, hctx, hst, hstore, hsession1,
      hstatus, SessionStore.Save, he, serverWriter, mapGet_mapSet_self]

theorem get_ok_getErr (store : SessionStore) (name : String) (session : Session)
    (h : store.Get name = .ok session) : mapGet store.getErr name = none := by
  simp only [SessionStore.Get] at h
  split at h
  · cases h
  · rename_i hnone
    exact hnone

/-- The login gate on a stored session whose User Session has no logged-in
credential. -/
theorem loggedInUserOnly_after_options (next : HandlerFunc σ) (r : Request) (st : World σ)
    (u : user)
    (hgetErr : mapGet st.sessionStore.getErr sessionNameLoginSession = none)
    (hstored : storedLoginValue st.sessionStore sessionMapKeyUserSession
      = some (SessionValue.userSession { User := u, LoggedInCredentialID := [] })) :
    loggedInUserOnly next (serverWriter σ) r st
      = writeFailedServerResponse (serverWriter σ) StatusUnauthorized
          "User is not logged in" st := by
  simp only [storedLoginValue] at hstored
  cases hrec : mapGet st.sessionStore.records sessionNameLoginSession with
  | none => simp [hrec] at hstored
  | some saved =>
    have hvalue : mapGet saved.Values sessionMapKeyUserSession
        = some (SessionValue.userSession { User := u, LoggedInCredentialID := [] }) := by
      simpa [hrec] using hstored
    apply loggedInUserOnly_reject next (serverWriter σ) r st saved
    · simp [SessionStore.Get, hgetErr, hrec]
    · rintro ⟨u1, hu1, hne⟩
      rw [hvalue] at hu1
      simp only [asUserSession, Option.some.injEq] at hu1
      rw [← hu1] at hne
      exact hne rfl

/-- An options request routed through `handleAuthnSession` that ends with status 200
leaves a stored session the login gate rejects. -/
theorem authn_options_reset (next : HandlerFunc σ) (r : Request) (st : World σ)
    (session : Session)
    (hcases : ∀ (st1 : World σ) (session1 : Session),
      mapGet st1.ctx contextKeyLoginSession = some session1 →
      st1.resp.wroteHeader = false →
      (next ((WriterKind.session [sessionNameLoginSession]).writer σ) r st1).resp.Code ≠ 200 ∨
      ∃ u b, optionsWritten (WriterKind.session [sessionNameLoginSession]) st1
        (next ((WriterKind.session [sessionNameLoginSession]).writer σ) r st1) u b)
    (hfresh : st.resp.wroteHeader = false)
    (hget : st.sessionStore.Get sessionNameLoginSession = .ok session)
    (hcode : (handleAuthnSession next (serverWriter σ) r st).resp.Code = 200) :
    ∃ u, storedLoginValue (handleAuthnSession next (serverWriter σ) r st).sessionStore
        sessionMapKeyUserSession
        = some (SessionValue.userSession { User := u, LoggedInCredentialID := [] }) ∧
      ∀ (gated : HandlerFunc σ) (r2 : Request),
        loggedInUserOnly gated (serverWriter σ) r2
            (nextRequest (handleAuthnSession next (serverWriter σ) r st))
          = writeFailedServerResponse (serverWriter σ) StatusUnauthorized
              "User is not logged in"
              (nextRequest (handleAuthnSession next (serverWriter σ) r st)) := by
  have heq : handleAuthnSession next (serverWriter σ) r st
      = next ((WriterKind.session [sessionNameLoginSession]).writer σ) r
          { st with ctx := mapSet (mapSet st.ctx sessionNameLoginSession session)
                             sessionNameLoginSession session,
                    status := 0 } := by
    rw [handleAuthnSession_eq]
    simp only [hget]
    rfl
  have hctx : mapGet (mapSet (mapSet st.ctx sessionNameLoginSession session)
      sessionNameLoginSession session) contextKeyLoginSession = some session := by
    simp [contextKeyLoginSession, mapGet_mapSet_self]
  rw [heq] at hcode ⊢
  rcases hcases
      { st with ctx := mapSet (mapSet st.ctx sessionNameLoginSession session)
                         sessionNameLoginSession session,
                status := 0 } session hctx hfresh with hne | ⟨u, b, hw⟩
  · exact absurd hcode hne
  · obtain ⟨hstored, hgetErr⟩ := optionsWritten_store
      { st with ctx := mapSet (mapSet st.ctx sessionNameLoginSession session)
                         sessionNameLoginSession session,
                status := 0 } _ u b session hctx rfl hfresh hw hcode
    refine ⟨u, hstored, ?_⟩
    intro gated r2
    apply loggedInUserOnly_after_options gated r2 _ u
    · simp only [nextRequest]
      rw [hgetErr]
      exact get_ok_getErr _ _ _ hget
    · simp only [nextRequest]
      exact hstored

end OptionsLoginState

/-! ## Registration options for a stored user -/

section StoredUserOptions

variable {σ : Type}

/-- The run of `handleAttestationOptions` for a username the datastore knows, when the
options builder and the encoder succeed. -/
theorem handleAttestationOptions_stored_user (s : server σ) (w : ResponseWriter σ)
    (r : Request) (st : World σ) (session : Session) (req : attestationOptionsRequest)
    (u0 : user) (o0 : PublicKeyCredentialCreationOptions)
    (hsession : mapGet st.ctx contextKeyLoginSession = some session)
    (hdecode : s.ext.decodeAttestationOptionsRequest r.Body = .ok req)
    (hu : req.Username ≠ "") (hd : req.DisplayName ≠ "")
    (hget : s.dataStore.getUser st.db req.Username = .ok u0) (hid : u0.UserID ≠ none)
    (hnew : s.ext.NewAttestationOptions s.webAuthnConfig (webAuthnUserOf u0) r.rand = .ok o0)
    (hm : s.ext.marshalErr
      (Payload.creationOptions { Status := statusOK, ErrorMessage := "" }
        (issuedCreationOptions req o0)) = none) :
    handleAttestationOptions s w r st =
      w.Write
        (Payload.creationOptions { Status := statusOK, ErrorMessage := "" }
          (issuedCreationOptions req o0))
        (w.HeaderSet "Content-Type" "application/json"
          (setSessionValue
            (setSessionValue
              { st with dbCalls := st.dbCalls ++ [dataStoreCall.getUser req.Username] }
              sessionMapKeyWebAuthnCreationOptions
              (SessionValue.creationOptions (issuedCreationOptions req o0)))
            sessionMapKeyUserSession
            (SessionValue.userSession { User := u0, LoggedInCredentialID := [] }))) := by
  have hfound : attestationFoundUser s st.db req = .ok u0 := by
    simp [attestationFoundUser, hget]
  have hgen : attestationGeneratedUser s r u0 = .ok u0 := by
    simp [attestationGeneratedUser, hid]
  rw [handleAttestationOptions_eq s w r st session req hsession hdecode hu hd]
  simp only [hfound, hgen, hnew, hm]

end StoredUserOptions

/-! ## The success bodies -/

section SuccessBodies

variable {σ : Type}

theorem successBody_ok : successBody (Payload.raw serverResponseOKJSONString) := by
  refine ⟨by rw [okBody_members]; rfl, Or.inr ?_⟩
  rw [okBody_members]
  decide

theorem successBody_creation (o : PublicKeyCredentialCreationOptions) :
    successBody (Payload.creationOptions { Status := statusOK, ErrorMessage := "" } o) :=
  ⟨rfl, Or.inl rfl⟩

theorem successBody_request (o : PublicKeyCredentialRequestOptions) :
    successBody (Payload.requestOptions { Status := statusOK, ErrorMessage := "" } o) :=
  ⟨rfl, Or.inl rfl⟩

theorem successBody_user (name displayName credentialID registeredAt loggedInAt : String) :
    successBody (Payload.user
      { Status := statusOK, Name := name, DisplayName := displayName,
        CredentialID := credentialID, RegisteredAt := registeredAt,
        LoggedInAt := loggedInAt }) := by
  refine ⟨rfl, Or.inr ?_⟩
  intro m hm
  simp only [jsonMembers, List.mem_cons, List.mem_singleton, List.not_mem_nil, or_false] at hm
  rcases hm with h | h | h | h | h | h
  · rw [h]
    exact (by decide : "status" ≠ "errorMessage")
  · rw [h]
    exact (by decide : "name" ≠ "errorMessage")
  · rw [h]
    exact (by decide : "displayName" ≠ "errorMessage")
  · rw [h]
    exact (by decide : "credentialID" ≠ "errorMessage")
  · rw [h]
    exact (by decide : "registeredAt" ≠ "errorMessage")
  · rw [h]
    exact (by decide : "loggedInAt" ≠ "errorMessage")

theorem handleLogout_success_body (s : server σ) (r : Request) (st : World σ) :
    (handleLogout s ((WriterKind.server).writer σ) r st).resp.Code = 200 →
    (mapGet st.ctx contextKeyLoginSession).isSome = true →
    (handleLogout s ((WriterKind.server).writer σ) r st).resp.Body
      = st.resp.Body ++ [Payload.raw serverResponseOKJSONString] := by
  simp only [handleLogout]
  split
  · rename_i h
    intro _ hctx
    simp [h] at hctx
  · intro _ _
    exact writeOK_body _

theorem handleAttestationResult_success_body (s : server σ) (r : Request) (st : World σ)
    (hfresh : st.resp.wroteHeader = false) :
    (handleAttestationResult s ((WriterKind.server).writer σ) r st).resp.Code = 200 →
    (mapGet st.ctx contextKeyLoginSession).isSome = true →
    (handleAttestationResult s ((WriterKind.server).writer σ) r st).resp.Body
      = st.resp.Body ++ [Payload.raw serverResponseOKJSONString] := by
  simp only [handleAttestationResult]
  repeat' split
  all_goals
    first
    | (intro _ _; exact writeOK_body _)
    | (rename_i h; intro _ hctx; simp [h] at hctx)
    | (intro hcode; exfalso
       simp [writeFailed_code, hfresh, StatusBadRequest, StatusInternalServerError,
         StatusUnauthorized] at hcode)

theorem handleAssertionResult_success_body (s : server σ) (r : Request) (st : World σ)
    (hfresh : st.resp.wroteHeader = false) :
    (handleAssertionResult s ((WriterKind.server).writer σ) r st).resp.Code = 200 →
    (mapGet st.ctx contextKeyLoginSession).isSome = true →
    (handleAssertionResult s ((WriterKind.server).writer σ) r st).resp.Body
      = st.resp.Body ++ [Payload.raw serverResponseOKJSONString] := by
  simp only [handleAssertionResult]
  repeat' split
  all_goals
    first
    | (intro _ _; exact writeOK_body _)
    | (rename_i h; intro _ hctx; simp [h] at hctx)
    | (intro hcode; exfalso
       simp [writeFailed_code, hfresh, StatusBadRequest, StatusInternalServerError,
         StatusUnauthorized] at hcode)

theorem handleAttestationOptions_success_body (s : server σ) (r : Request) (st : World σ)
    (hfresh : st.resp.wroteHeader = false) :
    (handleAttestationOptions s ((WriterKind.server).writer σ) r st).resp.Code = 200 →
    (mapGet st.ctx contextKeyLoginSession).isSome = true →
    ∃ o, (handleAttestationOptions s ((WriterKind.server).writer σ) r st).resp.Body
      = st.resp.Body ++
          [Payload.creationOptions { Status := statusOK, ErrorMessage := "" } o] := by
  simp only [handleAttestationOptions]
  repeat' split
  all_goals
    first
    | (intro _ _; exact ⟨_, write_body _ _⟩)
    | (rename_i h; intro _ hctx; simp [h] at hctx)
    | (intro hcode; exfalso
       simp [writeFailed_code, hfresh, StatusBadRequest, StatusInternalServerError,
         StatusUnauthorized] at hcode)

theorem handleAssertionOptions_success_body (s : server σ) (r : Request) (st : World σ)
    (hfresh : st.resp.wroteHeader = false) :
    (handleAssertionOptions s ((WriterKind.server).writer σ) r st).resp.Code = 200 →
    (mapGet st.ctx contextKeyLoginSession).isSome = true →
    ∃ o, (handleAssertionOptions s ((WriterKind.server).writer σ) r st).resp.Body
      = st.resp.Body ++
          [Payload.requestOptions { Status := statusOK, ErrorMessage := "" } o] := by
  simp only [handleAssertionOptions]
  repeat' split
  all_goals
    first
    | (intro _ _; exact ⟨_, write_body _ _⟩)
    | (rename_i h; intro _ hctx; simp [h] at hctx)
    | (intro hcode; exfalso
       simp [writeFailed_code, hfresh, StatusBadRequest, StatusInternalServerError,
         StatusUnauthorized] at hcode)

theorem handleUser_success_body (s : server σ) (r : Request) (st : World σ)
    (hfresh : st.resp.wroteHeader = false) :
    (handleUser s ((WriterKind.server).writer σ) r st).resp.Code = 200 →
    (mapGet st.ctx contextKeyLoginSession).isSome = true →
    ∃ name displayName credentialID registeredAt loggedInAt,
      (handleUser s ((WriterKind.server).writer σ) r st).resp.Body
        = st.resp.Body ++ [Payload.user
            { Status := statusOK, Name := name, DisplayName := displayName,
              CredentialID := credentialID, RegisteredAt := registeredAt,
              LoggedInAt := loggedInAt }] := by
  simp only [handleUser]
  repeat' split
  all_goals
    first
    | (intro _ _; exact ⟨_, _, _, _, _, write_body _ _⟩)
    | (rename_i h; intro _ hctx; simp [h] at hctx)
    | (intro hcode; exfalso
       simp [writeFailed_code, hfresh, StatusBadRequest, StatusInternalServerError,
         StatusUnauthorized] at hcode)

end SuccessBodies

/-! ## newConfig -/

section NewConfig

/-- The checks of `newConfig`, in their order: a file without a WebAuthn section ends
in a panic; with one, the first check that fails gives the error returned. -/
theorem newConfig_checks (env : Environment) (configFile : String) :
    (∀ e, env.Decode configFile = .error e →
      newConfig env configFile
        = .returns (.error ("failed to decode config file: " ++ e))) ∧
    (∀ c, env.Decode configFile = .ok c →
      (c.WebAuthn = none →
        newConfig env configFile
          = .panics "runtime error: invalid memory address or nil pointer dereference") ∧
      (∀ w, c.WebAuthn = some w →
        (∀ e, env.Valid w = some e → newConfig env configFile = .returns (.error e)) ∧
        (env.Valid w = none →
          (c.Origin = "" → newConfig env configFile = .returns (.error "origin is empty")) ∧
          (c.Origin ≠ "" →
            (∀ e, env.DecodeString (env.Getenv "SESSION_KEY") = .error e →
              newConfig env configFile
                = .returns (.error ("failed to base64 decode session key: " ++ e))) ∧
            (∀ key, env.DecodeString (env.Getenv "SESSION_KEY") = .ok key →
              (key = [] →
                newConfig env configFile = .returns (.error "SESSION_KEY is empty")) ∧
              (key ≠ [] →
                (env.Getenv "DB_CONNSTRING" = "" →
                  newConfig env configFile = .returns (.error "DB_CONNSTRING is empty")) ∧
                (env.Getenv "DB_CONNSTRING" ≠ "" →
                  newConfig env configFile = .returns (.ok
                    { WebAuthn := c.WebAuthn,
                      Origin := c.Origin,
                      SessionKey := key,
                      DBConnString := env.Getenv "DB_CONNSTRING",
                      RedisNetwork :=
                        if env.Getenv "REDIS_NETWORK" = "" then "tcp"
                        else env.Getenv "REDIS_NETWORK",
                      RedisAddr :=
                        if env.Getenv "REDIS_ADDR" = "" then "localhost:6379"
                        else env.Getenv "REDIS_ADDR",
                      RedisPwd := env.Getenv "REDIS_PWD" })))))))) := by
  refine ⟨?_, ?_⟩
  · intro e hdecode
    simp only [newConfig, hdecode]
  · intro c hdecode
    refine ⟨?_, ?_⟩
    · intro hnil
      simp only [newConfig, hdecode, hnil]
    · intro w hw
      refine ⟨?_, ?_⟩
      · intro e hvalid
        simp only [newConfig, hdecode, hw, hvalid]
      · intro hvalid
        refine ⟨?_, ?_⟩
        · intro horigin
          simp only [newConfig, hdecode, hw, hvalid, horigin, if_true]
        · intro horigin
          refine ⟨?_, ?_⟩
          · intro e hkey
            simp only [newConfig, hdecode, hw, hvalid, horigin, hkey, if_false]
          · intro key hkey
            refine ⟨?_, ?_⟩
            · intro hempty
              simp [newConfig, hdecode, hw, hvalid, horigin, hkey, hempty]
            · intro hempty
              have hlen : ¬ key.length = 0 := by
                simpa [List.length_eq_zero] using hempty
              refine ⟨?_, ?_⟩
              · intro hdb
                simp only [newConfig, hdecode, hw, hvalid, horigin, hkey, hlen, hdb,
                  if_false, if_true]
              · intro hdb
                by_cases hnet : env.Getenv "REDIS_NETWORK" = "" <;>
                  by_cases haddr : env.Getenv "REDIS_ADDR" = "" <;>
                    simp only [newConfig, hdecode, hw, hvalid, horigin, hkey, hlen, hdb,
                      hnet, haddr, if_false, if_true]

end NewConfig

/-! # The claims -/

section Claims

variable {σ : Type}

/-- C1 (the code at the failing input): a registration result request whose body does
not parse is answered 400; the handler has deleted the Challenge Record from the session
of the request, yet the session record held by the store still contains it, and a second
result request in the same session is verified against that old challenge and answered
200, not 401. -/
theorem C1_stale_challenge_survives_failure :
    (handleAuthnSession (handleAttestationResult demoServer) (serverWriter Tables)
        { Body := "bad", rand := 0 }
        (demoWorld (some registrationPending) demoTables)).resp.Code = 400 ∧
    loginValue
        (handleAuthnSession (handleAttestationResult demoServer) (serverWriter Tables)
          { Body := "bad", rand := 0 }
          (demoWorld (some registrationPending) demoTables)).ctx
        sessionMapKeyWebAuthnCreationOptions
      = none ∧
    storedLoginValue
        (handleAuthnSession (handleAttestationResult demoServer) (serverWriter Tables)
          { Body := "bad", rand := 0 }
          (demoWorld (some registrationPending) demoTables)).sessionStore
        sessionMapKeyWebAuthnCreationOptions
      = some (.creationOptions demoCreationOptions) ∧
    (handleAuthnSession (handleAttestationResult demoServer) (serverWriter Tables)
        { Body := "good", rand := 0 }
        (nextRequest
          (handleAuthnSession (handleAttestationResult demoServer) (serverWriter Tables)
            { Body := "bad", rand := 0 }
            (demoWorld (some registrationPending) demoTables)))).resp.Code = 200 := by
  decide

/-- C2: whatever the session holds and whatever the request body is, when
`handleAttestationResult` is done the in-request login session has no
`WebAuthnCreationOptions` entry, and when `handleAssertionResult` is done it has no
`WebAuthnRequestOptions` entry, on every path and for every writer of the server; the
session itself stays in the request context. -/
theorem C2_result_removes_challenge (s : server σ) (k : WriterKind) (r : Request)
    (st : World σ) :
    loginValue (handleAttestationResult s (k.writer σ) r st).ctx
        sessionMapKeyWebAuthnCreationOptions = none ∧
    loginValue (handleAssertionResult s (k.writer σ) r st).ctx
        sessionMapKeyWebAuthnRequestOptions = none ∧
    (mapGet (handleAttestationResult s (k.writer σ) r st).ctx contextKeyLoginSession).isSome
      = (mapGet st.ctx contextKeyLoginSession).isSome ∧
    (mapGet (handleAssertionResult s (k.writer σ) r st).ctx contextKeyLoginSession).isSome
      = (mapGet st.ctx contextKeyLoginSession).isSome :=
  ⟨handleAttestationResult_removes s k r st, handleAssertionResult_removes s k r st,
    handleAttestationResult_keeps_session s k r st,
    handleAssertionResult_keeps_session s k r st⟩

/-- C3: for every handler wrapped by `handleSession` (whatever the read-write and
read-only lists): if the first call the handler makes on the response is `WriteHeader`,
as `writeFailedServerResponse` does with its error status, and the handler hands only
HTTP status codes to `WriteHeader`, then the session store is left exactly as it was:
`Save` is never called and no session mutation of the handler is committed. -/
theorem C3_error_status_never_saves (rwSessionNames rSessionNames : List String)
    (ops : List HandlerOp) (r : Request) (st : World σ)
    (hfirst : headerFirst ops = true) (hvalid : validCodes ops = true) :
    (handleSession rwSessionNames rSessionNames (runOps ops) (serverWriter σ) r
        st).sessionStore = st.sessionStore := by
  simp only [handleSession, sessionHandler.ServeHTTP]
  split
  · rfl
  · split
    · rfl
    · split
      · rw [runOps_session_store_of_headerFirst _ _ _ _ hfirst hvalid]
      · rw [runOps_server_store]

/-- Witness of C3: a handler that changes the login session and then answers 401 in the
way of `writeFailedServerResponse`, under `handleSession` with the login session
read-write. -/
theorem C3_error_status_never_saves_witness :
    (handleSession [sessionNameLoginSession] [] (runOps
        [HandlerOp.deleteValue sessionNameLoginSession sessionMapKeyWebAuthnCreationOptions,
         HandlerOp.HeaderSet "Content-Type" "application/json",
         HandlerOp.WriteHeader 401,
         HandlerOp.Write (Payload.failed { Status := statusFailed, ErrorMessage := "no" })])
        (serverWriter Tables) { Body := "", rand := 0 }
        (demoWorld (some registrationPending) demoTables)).sessionStore
      = (demoWorld (some registrationPending) demoTables).sessionStore :=
  C3_error_status_never_saves [sessionNameLoginSession] [] _ { Body := "", rand := 0 }
    (demoWorld (some registrationPending) demoTables) (by decide) (by decide)

/-- C4 (the code at the failing inputs): under `handleSession` with the login session
read-write, a handler that changes the session, calls `WriteHeader(200)` and writes a
body ends with status 200 and no call of `Save`; so does a handler that changes the
session and returns without writing a body. Only when the status is fixed by the first
body write is the changed session passed to `Save`. -/
theorem C4_explicit_200_is_not_saved :
    ((handleSession [sessionNameLoginSession] [] (runOps
        [HandlerOp.setValue sessionNameLoginSession "k" (SessionValue.other "v"),
         HandlerOp.WriteHeader 200,
         HandlerOp.Write (Payload.raw serverResponseOKJSONString)])
        (serverWriter Tables) { Body := "", rand := 0 } (demoWorld none demoTables)).resp.Code
        = 200 ∧
     (handleSession [sessionNameLoginSession] [] (runOps
        [HandlerOp.setValue sessionNameLoginSession "k" (SessionValue.other "v"),
         HandlerOp.WriteHeader 200,
         HandlerOp.Write (Payload.raw serverResponseOKJSONString)])
        (serverWriter Tables) { Body := "", rand := 0 }
        (demoWorld none demoTables)).sessionStore.saveCalls = []) ∧
    ((handleSession [sessionNameLoginSession] [] (runOps
        [HandlerOp.setValue sessionNameLoginSession "k" (SessionValue.other "v")])
        (serverWriter Tables) { Body := "", rand := 0 } (demoWorld none demoTables)).resp.Code
        = 200 ∧
     (handleSession [sessionNameLoginSession] [] (runOps
        [HandlerOp.setValue sessionNameLoginSession "k" (SessionValue.other "v")])
        (serverWriter Tables) { Body := "", rand := 0 }
        (demoWorld none demoTables)).sessionStore.saveCalls = []) ∧
    (handleSession [sessionNameLoginSession] [] (runOps
        [HandlerOp.setValue sessionNameLoginSession "k" (SessionValue.other "v"),
         HandlerOp.Write (Payload.raw serverResponseOKJSONString)])
        (serverWriter Tables) { Body := "", rand := 0 }
        (demoWorld none demoTables)).sessionStore.saveCalls
      = [(sessionNameLoginSession, { Values := [("k", SessionValue.other "v")] })] := by
  decide

/-- C5 (as stated, refuted): starting from an empty session, a registration options
request followed by a login options request for the registered user alice leaves a
session, in the request and in the store, that holds both a `WebAuthnCreationOptions`
and a `WebAuthnRequestOptions` entry. -/
theorem C5_both_challenges_present :
    (handleAuthnSession (handleAttestationOptions demoServer) (serverWriter Tables)
        { Body := "alice", rand := 3 } (demoWorld none demoTables)).resp.Code = 200 ∧
    (handleAuthnSession (handleAssertionOptions demoServer) (serverWriter Tables)
        { Body := "alice", rand := 4 }
        (nextRequest
          (handleAuthnSession (handleAttestationOptions demoServer) (serverWriter Tables)
            { Body := "alice", rand := 3 } (demoWorld none demoTables)))).resp.Code = 200 ∧
    (storedLoginValue
        (handleAuthnSession (handleAssertionOptions demoServer) (serverWriter Tables)
          { Body := "alice", rand := 4 }
          (nextRequest
            (handleAuthnSession (handleAttestationOptions demoServer) (serverWriter Tables)
              { Body := "alice", rand := 3 } (demoWorld none demoTables)))).sessionStore
        sessionMapKeyWebAuthnCreationOptions).isSome = true ∧
    (storedLoginValue
        (handleAuthnSession (handleAssertionOptions demoServer) (serverWriter Tables)
          { Body := "alice", rand := 4 }
          (nextRequest
            (handleAuthnSession (handleAttestationOptions demoServer) (serverWriter Tables)
              { Body := "alice", rand := 3 } (demoWorld none demoTables)))).sessionStore
        sessionMapKeyWebAuthnRequestOptions).isSome = true := by
  decide

/-- C5 (amended): the Challenge Records of the two directions are independent. The
registration handlers never change the `WebAuthnRequestOptions` entry of the session,
the login handlers never change its `WebAuthnCreationOptions` entry, and
`handleLogout` changes neither; so a session holds at most one record per direction,
and may hold one of each. -/
theorem C5_handlers_keep_other_direction (s : server σ) (k : WriterKind) (r : Request)
    (st : World σ) :
    loginValue (handleAttestationOptions s (k.writer σ) r st).ctx
        sessionMapKeyWebAuthnRequestOptions
      = loginValue st.ctx sessionMapKeyWebAuthnRequestOptions ∧
    loginValue (handleAttestationResult s (k.writer σ) r st).ctx
        sessionMapKeyWebAuthnRequestOptions
      = loginValue st.ctx sessionMapKeyWebAuthnRequestOptions ∧
    loginValue (handleAssertionOptions s (k.writer σ) r st).ctx
        sessionMapKeyWebAuthnCreationOptions
      = loginValue st.ctx sessionMapKeyWebAuthnCreationOptions ∧
    loginValue (handleAssertionResult s (k.writer σ) r st).ctx
        sessionMapKeyWebAuthnCreationOptions
      = loginValue st.ctx sessionMapKeyWebAuthnCreationOptions ∧
    loginValue (handleLogout s (k.writer σ) r st).ctx sessionMapKeyWebAuthnCreationOptions
      = loginValue st.ctx sessionMapKeyWebAuthnCreationOptions ∧
    loginValue (handleLogout s (k.writer σ) r st).ctx sessionMapKeyWebAuthnRequestOptions
      = loginValue st.ctx sessionMapKeyWebAuthnRequestOptions :=
  ⟨handleAttestationOptions_request s k r st, handleAttestationResult_request s k r st,
    handleAssertionOptions_creation s k r st, handleAssertionResult_creation s k r st,
    handleLogout_challenges s k r st⟩

/-- C6: `handleAssertionResult` calls `dataStore.updateCredential` exactly when every
check up to and including `VerifyAssertion` has passed. When the Challenge Record or
the User Session is missing, the payload does not parse, the credential lookup or the
key parsing fails, or the verifier rejects, no `updateCredential` call is made and the
datastore is left as it was. -/
theorem C6_update_only_if_accepted (s : server σ) (k : WriterKind) (r : Request)
    (st : World σ) :
    ∃ calls, (handleAssertionResult s (k.writer σ) r st).dbCalls = st.dbCalls ++ calls ∧
      ((∃ c1, dataStoreCall.updateCredential c1 ∈ calls) ↔
        ∃ a c, assertionAccepted s r st a c) ∧
      ((∃ a c, assertionAccepted s r st a c) ∨
        (handleAssertionResult s (k.writer σ) r st).db = st.db) := by
  by_cases hacc : ∃ a c, assertionAccepted s r st a c
  · obtain ⟨a, c, h⟩ := hacc
    obtain ⟨⟨userID, hcalls⟩, _⟩ := handleAssertionResult_accepted s k r st a c h
    exact ⟨_, hcalls, ⟨fun _ => ⟨a, c, h⟩,
      fun _ => ⟨{ c with Counter := a.AuthnData.Counter }, by simp⟩⟩, Or.inl ⟨a, c, h⟩⟩
  · obtain ⟨hdb, hcalls⟩ := handleAssertionResult_rejected s k r st hacc
    rcases hcalls with hcalls | ⟨userID, credentialID, hcalls⟩
    · exact ⟨[], by simpa using hcalls, ⟨fun h => by simp at h, fun h => absurd h hacc⟩,
        Or.inr hdb⟩
    · exact ⟨_, hcalls, ⟨fun h => by simp at h, fun h => absurd h hacc⟩, Or.inr hdb⟩

/-- C8: when the verifier reports no counter below the previous counter it was given
(its contract), an accepted assertion makes `handleAssertionResult` call
`updateCredential` with the credential loaded from the store, its `Counter` replaced by
the counter of the assertion and its `CredentialID`, `UserID` and `CoseKey` as loaded;
that counter is not lower than the one loaded. -/
theorem C8_update_carries_asserted_counter (s : server σ) (k : WriterKind) (r : Request)
    (st : World σ) (a : PublicKeyCredentialAssertion) (c : credential)
    (hverifier : ∀ a1 e, s.ext.VerifyAssertion a1 e = none → e.PrevCounter ≤ a1.AuthnData.Counter)
    (hacc : assertionAccepted s r st a c) :
    (∃ userID, (handleAssertionResult s (k.writer σ) r st).dbCalls
        = st.dbCalls ++ [dataStoreCall.getCredential userID a.RawID,
            dataStoreCall.updateCredential
              { CredentialID := c.CredentialID, UserID := c.UserID,
                Counter := a.AuthnData.Counter, CoseKey := c.CoseKey }]) ∧
    (handleAssertionResult s (k.writer σ) r st).db
      = (s.dataStore.updateCredential st.db
          { CredentialID := c.CredentialID, UserID := c.UserID,
            Counter := a.AuthnData.Counter, CoseKey := c.CoseKey }).2 ∧
    c.Counter ≤ a.AuthnData.Counter := by
  refine ⟨(handleAssertionResult_accepted s k r st a c hacc).1,
    (handleAssertionResult_accepted s k r st a c hacc).2, ?_⟩
  obtain ⟨session, opts, uS, credKey, _, _, _, _, _, _, h7⟩ := hacc
  exact hverifier a _ h7

/-- Witness of C8: the accepted login of alice in the example, whose stored counter 2
is replaced by the asserted counter 3. -/
theorem C8_update_carries_asserted_counter_witness :
    (∃ userID, (handleAssertionResult demoServer ((WriterKind.server).writer Tables)
          { Body := "good", rand := 0 } (demoHandlerWorld loginPending demoTables)).dbCalls
        = (demoHandlerWorld loginPending demoTables).dbCalls ++
            [dataStoreCall.getCredential userID demoAssertion.RawID,
             dataStoreCall.updateCredential
              { CredentialID := demoCredential.CredentialID, UserID := demoCredential.UserID,
                Counter := demoAssertion.AuthnData.Counter,
                CoseKey := demoCredential.CoseKey }]) ∧
    (handleAssertionResult demoServer ((WriterKind.server).writer Tables)
        { Body := "good", rand := 0 } (demoHandlerWorld loginPending demoTables)).db
      = (demoServer.dataStore.updateCredential (demoHandlerWorld loginPending demoTables).db
          { CredentialID := demoCredential.CredentialID, UserID := demoCredential.UserID,
            Counter := demoAssertion.AuthnData.Counter, CoseKey := demoCredential.CoseKey }).2 ∧
    demoCredential.Counter ≤ demoAssertion.AuthnData.Counter :=
  C8_update_carries_asserted_counter demoServer WriterKind.server
    { Body := "good", rand := 0 } (demoHandlerWorld loginPending demoTables)
    demoAssertion demoCredential
    (by
      intro a1 e h
      by_contra hlt
      simp only [demoServer, demoExternal, hlt, if_false] at h
      split at h <;> simp at h)
    ⟨loginPending, demoRequestOptions, { User := demoUser, LoggedInCredentialID := [] }, [7],
      by decide, by decide, by decide, rfl, rfl, rfl, by decide⟩

/-- C9: on the server's own writer, with the login session in the request context and
a fresh response, `handleAssertionResult` answers 200 only after it has set the user
session's `LoggedInCredentialID` to the raw ID of the parsed assertion, the `User`
staying the same; every other answer is 400, 401 or 500 and leaves the user session
entry as it was. An unknown credential and a failed `updateCredential` are answered
500. -/
theorem C9_login_state_set_exactly_on_ok (s : server σ) (r : Request) (st : World σ)
    (session : Session) (hsession : mapGet st.ctx contextKeyLoginSession = some session)
    (hfresh : st.resp.wroteHeader = false) :
    ((handleAssertionResult s (serverWriter σ) r st).resp.Code = 200 →
      ∃ a uSession, s.ext.ParseAssertion r.Body = .ok a ∧
        mapGet session.Values sessionMapKeyUserSession
          = some (SessionValue.userSession uSession) ∧
        loginValue (handleAssertionResult s (serverWriter σ) r st).ctx sessionMapKeyUserSession
          = some (SessionValue.userSession
              { User := uSession.User, LoggedInCredentialID := a.RawID })) ∧
    ((handleAssertionResult s (serverWriter σ) r st).resp.Code ≠ 200 →
      ((handleAssertionResult s (serverWriter σ) r st).resp.Code = 400 ∨
       (handleAssertionResult s (serverWriter σ) r st).resp.Code = 401 ∨
       (handleAssertionResult s (serverWriter σ) r st).resp.Code = 500) ∧
      loginValue (handleAssertionResult s (serverWriter σ) r st).ctx sessionMapKeyUserSession
        = loginValue st.ctx sessionMapKeyUserSession) ∧
    (∀ opts uSession a err,
      asRequestOptions (mapGet session.Values sessionMapKeyWebAuthnRequestOptions)
        = some opts →
      asUserSession (mapGet session.Values sessionMapKeyUserSession) = some uSession →
      s.ext.ParseAssertion r.Body = .ok a →
      s.dataStore.getCredential st.db (uSession.User.UserID.getD []) a.RawID = .error err →
      (handleAssertionResult s (serverWriter σ) r st).resp.Code = 500) ∧
    (∀ a c err, assertionAccepted s r st a c →
      (s.dataStore.updateCredential st.db { c with Counter := a.AuthnData.Counter }).1
        = some err →
      (handleAssertionResult s (serverWriter σ) r st).resp.Code = 500) := by
  have hmain := handleAssertionResult_userSession s r st session hsession hfresh
  refine ⟨?_, ?_, ?_, ?_⟩
  · intro hcode
    rcases hmain with ⟨_, h⟩ | ⟨hfail, _⟩
    · exact h
    · exfalso
      have hcode' : (handleAssertionResult s ((WriterKind.server).writer σ) r st).resp.Code
          = 200 := hcode
      omega
  · intro hcode
    rcases hmain with ⟨h200, _⟩ | h
    · exact absurd h200 hcode
    · exact h
  · intro opts uSession a err h2 h3 h4 h5
    show (handleAssertionResult s ((WriterKind.server).writer σ) r st).resp.Code = 500
    simp [handleAssertionResult, hsession, h2, h3, h4, h5, writeFailed_code, hfresh,
      StatusInternalServerError]
  · rintro a c err ⟨session1, opts, uS, credKey, h1, h2, h3, h4, h5, h6, h7⟩ h8
    rw [hsession] at h1
    cases h1
    show (handleAssertionResult s ((WriterKind.server).writer σ) r st).resp.Code = 500
    simp [handleAssertionResult, hsession, h2, h3, h4, h5, h6, h7, h8, writeFailed_code,
      hfresh, StatusInternalServerError]

/-- Witness of C9: the accepted login of alice in the example is answered 200 and logs
the session in under the asserted credential ID. -/
theorem C9_login_state_set_exactly_on_ok_witness :
    ∃ a uSession, demoServer.ext.ParseAssertion "good" = .ok a ∧
      mapGet loginPending.Values sessionMapKeyUserSession
        = some (SessionValue.userSession uSession) ∧
      loginValue (handleAssertionResult demoServer (serverWriter Tables)
          { Body := "good", rand := 0 } (demoHandlerWorld loginPending demoTables)).ctx
          sessionMapKeyUserSession
        = some (SessionValue.userSession
            { User := uSession.User, LoggedInCredentialID := a.RawID }) :=
  (C9_login_state_set_exactly_on_ok demoServer { Body := "good", rand := 0 }
    (demoHandlerWorld loginPending demoTables) loginPending (by decide) (by decide)).1
    (by decide)

/-- C7 (as stated, refuted): on tables that hold counter 2 for alice's credential,
`updateCredential` with a credential carrying counter 1 returns nil and leaves counter 1
in the store. -/
theorem C7_update_can_lower_counter :
    storedCounter demoTables [5] [1] = some 2 ∧
    ((reliable 9).updateCredential demoTables
        { CredentialID := [1], UserID := [5], Counter := 1, CoseKey := [7] }).1 = none ∧
    storedCounter
        ((reliable 9).updateCredential demoTables
          { CredentialID := [1], UserID := [5], Counter := 1, CoseKey := [7] }).2 [5] [1]
      = some 1 := by
  decide

/-- C7 (amended): after `dbStore.updateCredential(c)` has returned nil on a store that
holds a counter for `(c.UserID, c.CredentialID)`, the counter stored for that pair is
`c.Counter`, whatever it was before. -/
theorem C7_update_stores_given_counter (db : dbStore) (t : Tables) (c : credential)
    (old : Nat) (hret : (db.updateCredential t c).1 = none)
    (hold : storedCounter t c.UserID c.CredentialID = some old) :
    storedCounter (db.updateCredential t c).2 c.UserID c.CredentialID = some c.Counter := by
  simp only [dbStore.updateCredential] at hret ⊢
  split at hret
  · simp at hret
  · split
    · simp [storedCounter_updateCredentialRows, hold]
    · simp [storedCounter_updateCredentialRows, hold]

/-- Witness of C7 (amended): the update of the example, from counter 2 to counter 1. -/
theorem C7_update_stores_given_counter_witness :
    storedCounter
        ((reliable 9).updateCredential demoTables
          { CredentialID := [1], UserID := [5], Counter := 1, CoseKey := [7] }).2 [5] [1]
      = some 1 :=
  C7_update_stores_given_counter (reliable 9) demoTables
    { CredentialID := [1], UserID := [5], Counter := 1, CoseKey := [7] } 2
    (by decide) (by decide)

/-- C10: let the store hold no user row with the ID or the username of `u` and no
credential row with the ID of `c`, let `c.UserID` be the bytes of `u.UserID`, and let
every call on the connection go through. The first `addUserCredential(u, c)` returns nil and adds
exactly one user row for `u` and one credential row for `c`. A repeated
`addUserCredential(u, c)` returns `errRecordExists` and leaves both tables as they
are. Adding a different credential `c2` of the same user returns nil, appends the row
of `c2` and leaves the table of users as it is. -/
theorem C10_add_user_credential (now : Nat) (t : Tables) (u : user) (c : credential)
    (huser : c.UserID = (u.UserID.getD []))
    (hid : ∀ row ∈ t.users, row.id ≠ (u.UserID.getD []))
    (hname : ∀ row ∈ t.users, row.username ≠ u.UserName)
    (hcred : ∀ row ∈ t.credentials, row.id ≠ c.CredentialID) :
    ((reliable now).addUserCredential t u c).1 = none ∧
    ((reliable now).addUserCredential t u c).2.users
      = t.users ++
          [{ id := u.UserID.getD [], username := u.UserName,
             display_name := u.DisplayName }] ∧
    ((reliable now).addUserCredential t u c).2.credentials
      = t.credentials ++
          [{ id := c.CredentialID, user_id := c.UserID, counter := c.Counter,
             cose_key := c.CoseKey, registered_at := now, loggedin_at := now }] ∧
    (((reliable now).addUserCredential t u c).2.users.filter
        (fun row => row.id = (u.UserID.getD []))).length = 1 ∧
    (((reliable now).addUserCredential t u c).2.credentials.filter
        (fun row => row.id = c.CredentialID)).length = 1 ∧
    (∀ now2, (reliable now2).addUserCredential ((reliable now).addUserCredential t u c).2 u c
        = (some error.errRecordExists, ((reliable now).addUserCredential t u c).2)) ∧
    (∀ now3 c2, c2.UserID = (u.UserID.getD []) → c2.CredentialID ≠ c.CredentialID →
      (∀ row ∈ t.credentials, row.id ≠ c2.CredentialID) →
      ((reliable now3).addUserCredential ((reliable now).addUserCredential t u c).2 u c2).1
        = none ∧
      ((reliable now3).addUserCredential ((reliable now).addUserCredential t u c).2 u c2).2.users
        = ((reliable now).addUserCredential t u c).2.users ∧
      ((reliable now3).addUserCredential
          ((reliable now).addUserCredential t u c).2 u c2).2.credentials
        = ((reliable now).addUserCredential t u c).2.credentials ++
            [{ id := c2.CredentialID, user_id := c2.UserID, counter := c2.Counter,
               cose_key := c2.CoseKey, registered_at := now3, loggedin_at := now3 }]) := by
  have h1 : t.users.any (fun row => decide (row.id = (u.UserID.getD []))) = false :=
    any_false_of_forall _ _ (fun row hrow => by simpa using hid row hrow)
  have h2 : t.users.any (fun row => decide (row.username = u.UserName)) = false :=
    any_false_of_forall _ _ (fun row hrow => by simpa using hname row hrow)
  have h3 : t.credentials.any (fun row => decide (row.id = c.CredentialID)) = false :=
    any_false_of_forall _ _ (fun row hrow => by simpa using hcred row hrow)
  have hfirst : (reliable now).addUserCredential t u c
      = (none,
         { users := t.users ++
             [{ id := u.UserID.getD [], username := u.UserName, display_name := u.DisplayName }],
           credentials := t.credentials ++
             [{ id := c.CredentialID, user_id := c.UserID, counter := c.Counter,
                cose_key := c.CoseKey, registered_at := now, loggedin_at := now }] }) := by
    simp [dbStore.addUserCredential, reliable, insertUser, insertCredential, h1, h2, h3, huser]
  rw [hfirst]
  refine ⟨rfl, rfl, rfl, ?_, ?_, ?_, ?_⟩
  · have hf : t.users.filter (fun row => decide (row.id = (u.UserID.getD []))) = [] :=
      filter_nil_of_forall _ _ (fun row hrow => by simpa using hid row hrow)
    simp [List.filter_append, hf]
  · have hf : t.credentials.filter (fun row => decide (row.id = c.CredentialID)) = [] :=
      filter_nil_of_forall _ _ (fun row hrow => by simpa using hcred row hrow)
    simp [List.filter_append, hf]
  · intro now2
    simp [dbStore.addUserCredential, reliable, insertUser, insertCredential]
  · intro now3 c2 huser2 hne hcred2
    have h4 : t.credentials.any (fun row => decide (row.id = c2.CredentialID)) = false :=
      any_false_of_forall _ _ (fun row hrow => by simpa using hcred2 row hrow)
    have hne2 : ¬ c.CredentialID = c2.CredentialID := fun h => hne h.symm
    simp [dbStore.addUserCredential, reliable, insertUser, insertCredential, h4, huser2, hne2]

/-- Witness of C10: bob and his first credential on the tables of the example. -/
theorem C10_add_user_credential_witness :
    ((reliable 1).addUserCredential demoTables
        { UserID := some [6], UserName := "bob", DisplayName := "Bob", CredentialIDs := [] }
        { CredentialID := [2], UserID := [6], Counter := 0, CoseKey := [7] }).1 = none :=
  (C10_add_user_credential 1 demoTables
    { UserID := some [6], UserName := "bob", DisplayName := "Bob", CredentialIDs := [] }
    { CredentialID := [2], UserID := [6], Counter := 0, CoseKey := [7] }
    rfl (by decide) (by decide) (by decide)).1

/-- C11: with the login session in the request context and a fresh response, if the
session has no `*PublicKeyCredentialCreationOptions` under `WebAuthnCreationOptions` or
no `*userSession` under `UserSession`, `handleAttestationResult` answers 401, makes no
datastore call (so no `addUserCredential`), leaves the datastore as it is and leaves no
`WebAuthnCreationOptions` entry in the session, whatever the body is. When the creation
options are absent, the user session absent or not, the message is "Session doesn't
have PublicKeyCredentialCreationOptions data". -/
theorem C11_result_without_challenge_is_unauthorized (s : server σ) (r : Request)
    (st : World σ) (session : Session)
    (hsession : mapGet st.ctx contextKeyLoginSession = some session)
    (hfresh : st.resp.wroteHeader = false)
    (hlack :
      asCreationOptions (mapGet session.Values sessionMapKeyWebAuthnCreationOptions) = none ∨
      asUserSession (mapGet session.Values sessionMapKeyUserSession) = none) :
    (handleAttestationResult s (serverWriter σ) r st).resp.Code = 401 ∧
    (handleAttestationResult s (serverWriter σ) r st).dbCalls = st.dbCalls ∧
    (handleAttestationResult s (serverWriter σ) r st).db = st.db ∧
    loginValue (handleAttestationResult s (serverWriter σ) r st).ctx
      sessionMapKeyWebAuthnCreationOptions = none ∧
    (asCreationOptions (mapGet session.Values sessionMapKeyWebAuthnCreationOptions) = none →
      (handleAttestationResult s (serverWriter σ) r st).resp.Body
        = st.resp.Body ++
            [failedBody "Session doesn't have PublicKeyCredentialCreationOptions data"]) := by
  have hremoved := handleAttestationResult_removes s WriterKind.server r st
  cases h2 : asCreationOptions (mapGet session.Values sessionMapKeyWebAuthnCreationOptions) with
  | none =>
    obtain ⟨hcode, hbody, hcalls, hdb⟩ :=
      handleAttestationResult_no_options s r st session hsession hfresh h2
    exact ⟨hcode, hcalls, hdb, hremoved, fun _ => hbody⟩
  | some opts =>
    have h3 : asUserSession (mapGet session.Values sessionMapKeyUserSession) = none := by
      rcases hlack with h | h
      · rw [h2] at h
        cases h
      · exact h
    obtain ⟨hcode, _, hcalls, hdb⟩ :=
      handleAttestationResult_no_user s r st session hsession hfresh opts h2 h3
    exact ⟨hcode, hcalls, hdb, hremoved, fun h => by cases h⟩

/-- Witness of C11: a result request on an empty session. -/
theorem C11_result_without_challenge_is_unauthorized_witness :
    (handleAttestationResult demoServer (serverWriter Tables) { Body := "good", rand := 0 }
        (demoHandlerWorld { Values := [] } demoTables)).resp.Code = 401 :=
  (C11_result_without_challenge_is_unauthorized demoServer { Body := "good", rand := 0 }
    (demoHandlerWorld { Values := [] } demoTables) { Values := [] } (by decide) (by decide)
    (Or.inl (by decide))).1

/-- C12: with the creation options and the user session in the session (and a fresh
response), `handleAttestationResult` calls `addUserCredential` only if the body parsed
and `VerifyAttestation` accepted. A parse failure is answered 400 with "Failed to parse
attestation: " and the parser's reason, a verifier rejection is answered 400 with
"Failed to verify attestation: " and the verifier's reason; in both cases no datastore
call is made, the datastore is as before and the user session entry is as before. -/
theorem C12_rejected_attestation_writes_nothing (s : server σ) (r : Request)
    (st : World σ) (session : Session) (opts : PublicKeyCredentialCreationOptions)
    (uS : userSession)
    (hsession : mapGet st.ctx contextKeyLoginSession = some session)
    (hfresh : st.resp.wroteHeader = false)
    (h2 : asCreationOptions (mapGet session.Values sessionMapKeyWebAuthnCreationOptions)
      = some opts)
    (h3 : asUserSession (mapGet session.Values sessionMapKeyUserSession) = some uS) :
    (∀ e, s.ext.ParseAttestation r.Body = .error e →
      (handleAttestationResult s (serverWriter σ) r st).resp.Code = 400 ∧
      (handleAttestationResult s (serverWriter σ) r st).resp.Body
        = st.resp.Body ++ [failedBody ("Failed to parse attestation: " ++ e)] ∧
      (handleAttestationResult s (serverWriter σ) r st).dbCalls = st.dbCalls ∧
      (handleAttestationResult s (serverWriter σ) r st).db = st.db ∧
      loginValue (handleAttestationResult s (serverWriter σ) r st).ctx sessionMapKeyUserSession
        = loginValue st.ctx sessionMapKeyUserSession) ∧
    (∀ a e, s.ext.ParseAttestation r.Body = .ok a →
      s.ext.VerifyAttestation a (attestationExpectedData s opts) = some e →
      (handleAttestationResult s (serverWriter σ) r st).resp.Code = 400 ∧
      (handleAttestationResult s (serverWriter σ) r st).resp.Body
        = st.resp.Body ++ [failedBody ("Failed to verify attestation: " ++ e)] ∧
      (handleAttestationResult s (serverWriter σ) r st).dbCalls = st.dbCalls ∧
      (handleAttestationResult s (serverWriter σ) r st).db = st.db ∧
      loginValue (handleAttestationResult s (serverWriter σ) r st).ctx sessionMapKeyUserSession
        = loginValue st.ctx sessionMapKeyUserSession) ∧
    (∀ u c, dataStoreCall.addUserCredential u c
        ∈ (handleAttestationResult s (serverWriter σ) r st).dbCalls →
      dataStoreCall.addUserCredential u c ∈ st.dbCalls ∨
      ∃ a, s.ext.ParseAttestation r.Body = .ok a ∧
        s.ext.VerifyAttestation a (attestationExpectedData s opts) = none) := by
  refine ⟨?_, ?_, ?_⟩
  · intro e h4
    exact handleAttestationResult_parse_error s r st session hsession hfresh opts uS e h2 h3 h4
  · intro a e h4 h5
    exact handleAttestationResult_verify_error s r st session hsession hfresh opts uS a e
      h2 h3 h4 h5
  · intro u c hmem
    cases h4 : s.ext.ParseAttestation r.Body with
    | error e =>
      left
      have h := (handleAttestationResult_parse_error s r st session hsession hfresh opts uS e
        h2 h3 h4).2.2.1
      exact h ▸ hmem
    | ok a =>
      cases h5 : s.ext.VerifyAttestation a (attestationExpectedData s opts) with
      | some e =>
        left
        have h := (handleAttestationResult_verify_error s r st session hsession hfresh opts uS
          a e h2 h3 h4 h5).2.2.1
        exact h ▸ hmem
      | none => exact Or.inr ⟨a, rfl, h5⟩

/-- Witness of C12: the pending registration of the example with a body that does not
parse. -/
theorem C12_rejected_attestation_writes_nothing_witness :
    (handleAttestationResult demoServer (serverWriter Tables) { Body := "bad", rand := 0 }
        (demoHandlerWorld registrationPending demoTables)).resp.Code = 400 ∧
    (handleAttestationResult demoServer (serverWriter Tables) { Body := "bad", rand := 0 }
        (demoHandlerWorld registrationPending demoTables)).resp.Body
      = (demoHandlerWorld registrationPending demoTables).resp.Body ++
          [failedBody ("Failed to parse attestation: " ++ "unexpected end of JSON input")] ∧
    (handleAttestationResult demoServer (serverWriter Tables) { Body := "bad", rand := 0 }
        (demoHandlerWorld registrationPending demoTables)).dbCalls
      = (demoHandlerWorld registrationPending demoTables).dbCalls ∧
    (handleAttestationResult demoServer (serverWriter Tables) { Body := "bad", rand := 0 }
        (demoHandlerWorld registrationPending demoTables)).db
      = (demoHandlerWorld registrationPending demoTables).db ∧
    loginValue (handleAttestationResult demoServer (serverWriter Tables)
        { Body := "bad", rand := 0 } (demoHandlerWorld registrationPending demoTables)).ctx
        sessionMapKeyUserSession
      = loginValue (demoHandlerWorld registrationPending demoTables).ctx
          sessionMapKeyUserSession :=
  (C12_rejected_attestation_writes_nothing demoServer { Body := "bad", rand := 0 }
    (demoHandlerWorld registrationPending demoTables) registrationPending demoCreationOptions
    { User := { UserID := some [6], UserName := "bob", DisplayName := "Bob", CredentialIDs := [] },
      LoggedInCredentialID := [] }
    (by decide) (by decide) (by decide) (by decide)).1 "unexpected end of JSON input" rfl

/-- C13: when the creation options and the user session are in the session, the body
parses, `VerifyAttestation` accepts and `addUserCredential` returns nil, then
`handleAttestationResult` answers 200; the credential handed to the store has the raw ID
of the attestation, the `UserID` of the session user and the counter and public key of
the attestation; the raw ID is appended to the `CredentialIDs` of the session user; and
`LoggedInCredentialID` becomes the raw ID if it was empty and stays as it was
otherwise. -/
theorem C13_successful_registration (s : server σ) (r : Request) (st : World σ)
    (session : Session) (opts : PublicKeyCredentialCreationOptions) (uS : userSession)
    (a : PublicKeyCredentialAttestation)
    (hsession : mapGet st.ctx contextKeyLoginSession = some session)
    (hfresh : st.resp.wroteHeader = false)
    (h2 : asCreationOptions (mapGet session.Values sessionMapKeyWebAuthnCreationOptions)
      = some opts)
    (h3 : asUserSession (mapGet session.Values sessionMapKeyUserSession) = some uS)
    (h4 : s.ext.ParseAttestation r.Body = .ok a)
    (h5 : s.ext.VerifyAttestation a (attestationExpectedData s opts) = none)
    (h6 : (s.dataStore.addUserCredential st.db uS.User
          { CredentialID := a.RawID, UserID := uS.User.UserID.getD [],
            Counter := a.AuthnData.Counter, CoseKey := a.AuthnData.CredentialRaw }).1 = none) :
    (handleAttestationResult s (serverWriter σ) r st).resp.Code = 200 ∧
    (handleAttestationResult s (serverWriter σ) r st).dbCalls
      = st.dbCalls ++ [dataStoreCall.addUserCredential uS.User
          { CredentialID := a.RawID, UserID := uS.User.UserID.getD [],
            Counter := a.AuthnData.Counter, CoseKey := a.AuthnData.CredentialRaw }] ∧
    (uS.LoggedInCredentialID = [] →
      loginValue (handleAttestationResult s (serverWriter σ) r st).ctx sessionMapKeyUserSession
        = some (SessionValue.userSession
            { User := { UserID := uS.User.UserID, UserName := uS.User.UserName,
                        DisplayName := uS.User.DisplayName,
                        CredentialIDs := uS.User.CredentialIDs ++ [a.RawID] },
              LoggedInCredentialID := a.RawID })) ∧
    (uS.LoggedInCredentialID ≠ [] →
      loginValue (handleAttestationResult s (serverWriter σ) r st).ctx sessionMapKeyUserSession
        = some (SessionValue.userSession
            { User := { UserID := uS.User.UserID, UserName := uS.User.UserName,
                        DisplayName := uS.User.DisplayName,
                        CredentialIDs := uS.User.CredentialIDs ++ [a.RawID] },
              LoggedInCredentialID := uS.LoggedInCredentialID })) := by
  obtain ⟨hcode, _, hvalue⟩ :=
    handleAttestationResult_stored s r st session hsession hfresh opts uS a h2 h3 h4 h5 h6
  refine ⟨hcode,
    (handleAttestationResult_accepted s WriterKind.server r st session hsession opts uS a
      h2 h3 h4 h5).1, ?_, ?_⟩
  · intro hl
    have h := hvalue
    rw [if_pos hl] at h
    exact h
  · intro hl
    have h := hvalue
    rw [if_neg hl] at h
    exact h

/-- Witness of C13: the pending registration of bob in the example, accepted and
stored. -/
theorem C13_successful_registration_witness :
    (handleAttestationResult demoServer (serverWriter Tables) { Body := "good", rand := 0 }
        (demoHandlerWorld registrationPending demoTables)).resp.Code = 200 :=
  (C13_successful_registration demoServer { Body := "good", rand := 0 }
    (demoHandlerWorld registrationPending demoTables) registrationPending demoCreationOptions
    { User := { UserID := some [6], UserName := "bob", DisplayName := "Bob", CredentialIDs := [] },
      LoggedInCredentialID := [] }
    { RawID := [2], AuthnData := { Counter := 0, CredentialRaw := [7] },
      ClientChallenge := "9" }
    (by decide) (by decide) (by decide) (by decide) rfl (by decide) (by decide)).1

/-- C14: when the session store loads the login session, `loggedInUserOnly` runs the
wrapped handler if the session's `UserSession` entry is a `*userSession` with a
non-empty `LoggedInCredentialID`, and only then: otherwise its result is the failed
response 401 "User is not logged in", whatever the wrapped handler is. -/
theorem C14_login_gate (next : HandlerFunc σ) (w : ResponseWriter σ) (r : Request)
    (st : World σ) (session : Session)
    (hget : st.sessionStore.Get sessionNameLoginSession = .ok session) :
    (loggedIn session → loggedInUserOnly next w r st = next w r st) ∧
    (¬ loggedIn session →
      loggedInUserOnly next w r st
        = writeFailedServerResponse w StatusUnauthorized "User is not logged in" st) ∧
    (¬ loggedIn session → st.resp.wroteHeader = false →
      (loggedInUserOnly next (serverWriter σ) r st).resp.Code = 401 ∧
      (loggedInUserOnly next (serverWriter σ) r st).resp.Body
        = st.resp.Body ++ [failedBody "User is not logged in"]) := by
  refine ⟨loggedInUserOnly_pass next w r st session hget,
    loggedInUserOnly_reject next w r st session hget, ?_⟩
  intro hout hfresh
  rw [loggedInUserOnly_reject next (serverWriter σ) r st session hget hout]
  exact ⟨writeFailed_code WriterKind.server _ _ st (by decide) hfresh,
    writeFailed_body _ _ st⟩

/-- Witness of C14: the gate lets the logged-in session of the example through. -/
theorem C14_login_gate_witness :
    loggedInUserOnly (handleLogout demoServer) (serverWriter Tables) { Body := "", rand := 0 }
        (demoWorld (some loggedInSession) demoTables)
      = handleLogout demoServer (serverWriter Tables) { Body := "", rand := 0 }
          (demoWorld (some loggedInSession) demoTables) :=
  (C14_login_gate (handleLogout demoServer) (serverWriter Tables) { Body := "", rand := 0 }
    (demoWorld (some loggedInSession) demoTables) loggedInSession rfl).1
    ⟨{ User := demoUser, LoggedInCredentialID := [1] }, by decide, by decide⟩

/-- C15: whatever the session holds, `handleLogout` leaves the in-request session
without a `UserSession` entry. Routed through `handleAuthnSession` on a fresh response
and a session store that works, it answers 200 with the OK response, the saved session
has no `UserSession` entry, and on the next request `loggedInUserOnly` answers with the
failed response 401 "User is not logged in" whatever handler it protects. -/
theorem C15_logout_clears_login (s : server σ) (r : Request) (st : World σ)
    (hfresh : st.resp.wroteHeader = false)
    (hget : mapGet st.sessionStore.getErr sessionNameLoginSession = none)
    (hsave : mapGet st.sessionStore.saveErr sessionNameLoginSession = none) :
    (∀ (k : WriterKind) (st0 : World σ),
      loginValue (handleLogout s (k.writer σ) r st0).ctx sessionMapKeyUserSession = none) ∧
    (handleAuthnSession (handleLogout s) (serverWriter σ) r st).resp.Code = 200 ∧
    (handleAuthnSession (handleLogout s) (serverWriter σ) r st).resp.Body
      = st.resp.Body ++ [Payload.raw serverResponseOKJSONString] ∧
    storedLoginValue (handleAuthnSession (handleLogout s) (serverWriter σ) r st).sessionStore
      sessionMapKeyUserSession = none ∧
    (∀ (next : HandlerFunc σ) (r2 : Request),
      loggedInUserOnly next (serverWriter σ) r2
          (nextRequest (handleAuthnSession (handleLogout s) (serverWriter σ) r st))
        = writeFailedServerResponse (serverWriter σ) StatusUnauthorized "User is not logged in"
            (nextRequest (handleAuthnSession (handleLogout s) (serverWriter σ) r st))) := by
  obtain ⟨hcode, hbody, hgetErr, saved, hsaved, hnone⟩ := logout_authn s r st hfresh hget hsave
  refine ⟨fun k st0 => handleLogout_removes s k r st0, hcode, hbody, ?_, ?_⟩
  · simp [storedLoginValue, hsaved, hnone]
  · intro next r2
    apply loggedInUserOnly_reject next (serverWriter σ) r2 _ saved
    · simp [nextRequest, SessionStore.Get, hgetErr, hget, hsaved]
    · rintro ⟨u, hu, _⟩
      simp [hnone, asUserSession] at hu

/-- Witness of C15: logout in the logged-in session of the example. -/
theorem C15_logout_clears_login_witness :
    storedLoginValue
        (handleAuthnSession (handleLogout demoServer) (serverWriter Tables)
          { Body := "", rand := 0 } (demoWorld (some loggedInSession) demoTables)).sessionStore
        sessionMapKeyUserSession = none :=
  (C15_logout_clears_login demoServer { Body := "", rand := 0 }
    (demoWorld (some loggedInSession) demoTables) rfl rfl rfl).2.2.2.1

/-- C16: with the login session in the request context, a fresh response and a body
that decodes to a request: for a non-empty username for which `getUser` reports
`errNoRecords`, `handleAssertionOptions` answers 400 with the message made of the
username followed by " is not registered", and leaves the session as it was, so neither
a login Challenge Record nor a User Session is stored; for an empty username it answers
400 "Missing username" and makes no datastore call. -/
theorem C16_unregistered_user_is_bad_request (s : server σ) (r : Request) (st : World σ)
    (session : Session) (req : assertionOptionsRequest)
    (hsession : mapGet st.ctx contextKeyLoginSession = some session)
    (hfresh : st.resp.wroteHeader = false)
    (hdecode : s.ext.decodeAssertionOptionsRequest r.Body = .ok req) :
    (req.Username ≠ "" →
      s.dataStore.getUser st.db req.Username = .error .errNoRecords →
      (handleAssertionOptions s (serverWriter σ) r st).resp.Code = 400 ∧
      (handleAssertionOptions s (serverWriter σ) r st).resp.Body
        = st.resp.Body ++ [failedBody (req.Username ++ " is not registered")] ∧
      (handleAssertionOptions s (serverWriter σ) r st).ctx = st.ctx ∧
      (handleAssertionOptions s (serverWriter σ) r st).db = st.db) ∧
    (req.Username = "" →
      (handleAssertionOptions s (serverWriter σ) r st).resp.Code = 400 ∧
      (handleAssertionOptions s (serverWriter σ) r st).resp.Body
        = st.resp.Body ++ [failedBody "Missing username"] ∧
      (handleAssertionOptions s (serverWriter σ) r st).dbCalls = st.dbCalls ∧
      (handleAssertionOptions s (serverWriter σ) r st).ctx = st.ctx) := by
  constructor
  · intro hname hget
    obtain ⟨hcode, hbody, _, hdb, hctx⟩ :=
      handleAssertionOptions_not_registered s r st session req hsession hfresh hdecode hname
        (Or.inl hget)
    exact ⟨hcode, hbody, hctx, hdb⟩
  · intro hname
    obtain ⟨hcode, hbody, hcalls, _, hctx⟩ :=
      handleAssertionOptions_missing_username s r st session req hsession hfresh hdecode hname
    exact ⟨hcode, hbody, hcalls, hctx⟩

/-- Witness of C16: login options for bob, whom the tables of the example do not
know. -/
theorem C16_unregistered_user_is_bad_request_witness :
    (handleAssertionOptions demoServer (serverWriter Tables) { Body := "bob", rand := 0 }
        (demoHandlerWorld { Values := [] } demoTables)).resp.Code = 400 ∧
    (handleAssertionOptions demoServer (serverWriter Tables) { Body := "bob", rand := 0 }
        (demoHandlerWorld { Values := [] } demoTables)).resp.Body
      = (demoHandlerWorld { Values := [] } demoTables).resp.Body ++
          [failedBody ("bob" ++ " is not registered")] ∧
    (handleAssertionOptions demoServer (serverWriter Tables) { Body := "bob", rand := 0 }
        (demoHandlerWorld { Values := [] } demoTables)).ctx
      = (demoHandlerWorld { Values := [] } demoTables).ctx ∧
    (handleAssertionOptions demoServer (serverWriter Tables) { Body := "bob", rand := 0 }
        (demoHandlerWorld { Values := [] } demoTables)).db
      = (demoHandlerWorld { Values := [] } demoTables).db :=
  (C16_unregistered_user_is_bad_request demoServer { Body := "bob", rand := 0 }
    (demoHandlerWorld { Values := [] } demoTables) { Values := [] }
    { Username := "bob", UserVerification := "" } (by decide) (by decide) rfl).1
    (by decide) rfl

/-- C17 (as stated, refuted): a datastore whose `getUser` returns a user with a `UserID`
and an empty list of credential IDs (the `mockNewUser` of the handler tests) does not get
the answer 400: `handleAssertionOptions` answers 200 and stores a login Challenge
Record. -/
theorem C17_user_without_credentials_gets_challenge :
    (mockServer mockNewUser).dataStore.getUser () "johndoe@example.com" = .ok mockNewUser ∧
    mockNewUser.CredentialIDs = [] ∧
    (handleAssertionOptions (mockServer mockNewUser) (serverWriter Unit)
        { Body := "johndoe@example.com", rand := 4 } (mockWorld { Values := [] })).resp.Code
      = 200 ∧
    (loginValue
        (handleAssertionOptions (mockServer mockNewUser) (serverWriter Unit)
          { Body := "johndoe@example.com", rand := 4 } (mockWorld { Values := [] })).ctx
        sessionMapKeyWebAuthnRequestOptions).isSome = true :=
  ⟨rfl, rfl, by decide, by decide⟩

/-- C17 (amended): for a non-empty username for which `getUser` reports `errNoRecords`
or returns a user whose `UserID` is nil, `handleAssertionOptions` answers 400 with the
username followed by " is not registered" and leaves the session as it was, so no login
challenge is issued; a user returned with a `UserID` that is not nil, empty or not and
with or without credential IDs, is passed on to the options builder and answered 200 or
500; and `dbStore.getUser` reports `errNoRecords` for every username none of whose user
rows has a credential row. -/
theorem C17_not_registered_without_user_id (s : server σ) (r : Request) (st : World σ)
    (session : Session) (req : assertionOptionsRequest)
    (hsession : mapGet st.ctx contextKeyLoginSession = some session)
    (hfresh : st.resp.wroteHeader = false)
    (hdecode : s.ext.decodeAssertionOptionsRequest r.Body = .ok req)
    (hname : req.Username ≠ "") :
    ((s.dataStore.getUser st.db req.Username = .error .errNoRecords ∨
        ∃ u, s.dataStore.getUser st.db req.Username = .ok u ∧ u.UserID = none) →
      (handleAssertionOptions s (serverWriter σ) r st).resp.Code = 400 ∧
      (handleAssertionOptions s (serverWriter σ) r st).resp.Body
        = st.resp.Body ++ [failedBody (req.Username ++ " is not registered")] ∧
      (handleAssertionOptions s (serverWriter σ) r st).ctx = st.ctx) ∧
    (∀ u, s.dataStore.getUser st.db req.Username = .ok u → u.UserID ≠ none →
      (handleAssertionOptions s (serverWriter σ) r st).resp.Code = 200 ∨
      (handleAssertionOptions s (serverWriter σ) r st).resp.Code = 500) ∧
    (∀ (db : dbStore) (t : Tables), db.queryErr = none →
      (∀ ur ∈ t.users, ur.username = req.Username →
        ∀ cr ∈ t.credentials, cr.user_id ≠ ur.id) →
      db.getUser t req.Username = .error .errNoRecords) := by
  refine ⟨?_, ?_, ?_⟩
  · intro hnone
    obtain ⟨hcode, hbody, _, _, hctx⟩ :=
      handleAssertionOptions_not_registered s r st session req hsession hfresh hdecode hname
        hnone
    exact ⟨hcode, hbody, hctx⟩
  · intro u hget hid
    exact handleAssertionOptions_with_user_id s r st session req u hsession hfresh hdecode
      hname hget hid
  · intro db t hquery hrows
    exact getUser_without_credentials db t req.Username hquery hrows

/-- Witness of C17 (amended): login options for carol, who has a user row and no
credential row. -/
theorem C17_not_registered_without_user_id_witness :
    (handleAssertionOptions demoServer (serverWriter Tables) { Body := "carol", rand := 0 }
        (demoHandlerWorld { Values := [] } carolTables)).resp.Code = 400 ∧
    (handleAssertionOptions demoServer (serverWriter Tables) { Body := "carol", rand := 0 }
        (demoHandlerWorld { Values := [] } carolTables)).resp.Body
      = (demoHandlerWorld { Values := [] } carolTables).resp.Body ++
          [failedBody ("carol" ++ " is not registered")] ∧
    (handleAssertionOptions demoServer (serverWriter Tables) { Body := "carol", rand := 0 }
        (demoHandlerWorld { Values := [] } carolTables)).ctx
      = (demoHandlerWorld { Values := [] } carolTables).ctx :=
  (C17_not_registered_without_user_id demoServer { Body := "carol", rand := 0 }
    (demoHandlerWorld { Values := [] } carolTables) { Values := [] }
    { Username := "carol", UserVerification := "" } (by decide) (by decide) rfl
    (by decide)).1 (Or.inl rfl)

/-- C18: with the login session in the request context, a fresh response and a body
that decodes to a request: an empty username is answered 400 "Missing username", a
non-empty username with an empty display name is answered 400 "Missing displayName";
in both cases no datastore call is made, the datastore is as before and the sessions of
the request are as before. -/
theorem C18_missing_name_is_bad_request (s : server σ) (r : Request) (st : World σ)
    (session : Session) (req : attestationOptionsRequest)
    (hsession : mapGet st.ctx contextKeyLoginSession = some session)
    (hfresh : st.resp.wroteHeader = false)
    (hdecode : s.ext.decodeAttestationOptionsRequest r.Body = .ok req) :
    (req.Username = "" →
      (handleAttestationOptions s (serverWriter σ) r st).resp.Code = 400 ∧
      (handleAttestationOptions s (serverWriter σ) r st).resp.Body
        = st.resp.Body ++ [failedBody "Missing username"] ∧
      (handleAttestationOptions s (serverWriter σ) r st).dbCalls = st.dbCalls ∧
      (handleAttestationOptions s (serverWriter σ) r st).db = st.db ∧
      (handleAttestationOptions s (serverWriter σ) r st).ctx = st.ctx) ∧
    (req.Username ≠ "" → req.DisplayName = "" →
      (handleAttestationOptions s (serverWriter σ) r st).resp.Code = 400 ∧
      (handleAttestationOptions s (serverWriter σ) r st).resp.Body
        = st.resp.Body ++ [failedBody "Missing displayName"] ∧
      (handleAttestationOptions s (serverWriter σ) r st).dbCalls = st.dbCalls ∧
      (handleAttestationOptions s (serverWriter σ) r st).db = st.db ∧
      (handleAttestationOptions s (serverWriter σ) r st).ctx = st.ctx) :=
  handleAttestationOptions_missing_field s r st session req hsession hfresh hdecode

/-- Witness of C18: a request with a username and no display name, on a server whose
decoder leaves the display name empty. -/
theorem C18_missing_name_is_bad_request_witness :
    (handleAttestationOptions
        { webAuthnConfig := demoConfig, rpOrigin := "http://localhost:3000",
          dataStore := (reliable 0).toDataStore,
          ext := { demoExternal with
            decodeAttestationOptionsRequest := fun body =>
              .ok { Username := body, DisplayName := "",
                    AuthenticatorSelection :=
                      { AuthenticatorAttachment := "", RequireResidentKey := false,
                        ResidentKey := "", UserVerification := "" },
                    Attestation := "" } } }
        (serverWriter Tables) { Body := "alice", rand := 0 }
        (demoHandlerWorld { Values := [] } demoTables)).resp.Code = 400 :=
  ((C18_missing_name_is_bad_request _ { Body := "alice", rand := 0 }
    (demoHandlerWorld { Values := [] } demoTables) { Values := [] }
    { Username := "alice", DisplayName := "",
      AuthenticatorSelection :=
        { AuthenticatorAttachment := "", RequireResidentKey := false,
          ResidentKey := "", UserVerification := "" },
      Attestation := "" } (by decide) (by decide) rfl).2 (by decide) rfl).1

/-- C19: when `handleAttestationOptions` answers 200 (login session in the context,
fresh response, decoded request), the Challenge Record it has stored in the session is
the one it returns in the body, its user verification is the one of the request, or
"preferred" when the request leaves it empty, and its attestation preference is the one
of the request, or "none" when the request leaves it empty, whatever the configuration
of the server and whatever the options builder has put there. -/
theorem C19_request_preferences_are_issued (s : server σ) (r : Request) (st : World σ)
    (session : Session) (req : attestationOptionsRequest)
    (hsession : mapGet st.ctx contextKeyLoginSession = some session)
    (hfresh : st.resp.wroteHeader = false)
    (hdecode : s.ext.decodeAttestationOptionsRequest r.Body = .ok req)
    (hcode : (handleAttestationOptions s (serverWriter σ) r st).resp.Code = 200) :
    ∃ o, loginValue (handleAttestationOptions s (serverWriter σ) r st).ctx
          sessionMapKeyWebAuthnCreationOptions
        = some (SessionValue.creationOptions o) ∧
      (handleAttestationOptions s (serverWriter σ) r st).resp.Body
        = st.resp.Body ++
            [Payload.creationOptions { Status := "ok", ErrorMessage := "" } o] ∧
      o.AuthenticatorSelection.UserVerification
        = (if req.AuthenticatorSelection.UserVerification = "" then "preferred"
           else req.AuthenticatorSelection.UserVerification) ∧
      o.Attestation = (if req.Attestation = "" then "none" else req.Attestation) := by
  obtain ⟨_, _, u0, u, o0, _, _, _, hcreation, _, hbody⟩ :=
    handleAttestationOptions_ok s r st session req hsession hfresh hdecode hcode
  refine ⟨issuedCreationOptions req o0, hcreation, hbody, ?_, ?_⟩
  · simp only [issuedCreationOptions, UserVerificationPreferred]
    split <;> simp_all
  · simp only [issuedCreationOptions, AttestationNone]

/-- Witness of C19: registration options for alice on the example server, whose
configuration asks for attestation "direct"; the request leaves both preferences
empty. -/
theorem C19_request_preferences_are_issued_witness :
    ∃ o, loginValue (handleAttestationOptions demoServer (serverWriter Tables)
            { Body := "alice", rand := 3 } (demoHandlerWorld { Values := [] } demoTables)).ctx
          sessionMapKeyWebAuthnCreationOptions
        = some (SessionValue.creationOptions o) ∧
      (handleAttestationOptions demoServer (serverWriter Tables)
          { Body := "alice", rand := 3 } (demoHandlerWorld { Values := [] } demoTables)).resp.Body
        = (demoHandlerWorld { Values := [] } demoTables).resp.Body ++
            [Payload.creationOptions { Status := "ok", ErrorMessage := "" } o] ∧
      o.AuthenticatorSelection.UserVerification
        = (if (attestationOptionsRequest.mk "alice" "alice"
                { AuthenticatorAttachment := "", RequireResidentKey := false,
                  ResidentKey := "", UserVerification := "" }
                "").AuthenticatorSelection.UserVerification = "" then "preferred"
           else (attestationOptionsRequest.mk "alice" "alice"
                { AuthenticatorAttachment := "", RequireResidentKey := false,
                  ResidentKey := "", UserVerification := "" }
                "").AuthenticatorSelection.UserVerification) ∧
      o.Attestation
        = (if (attestationOptionsRequest.mk "alice" "alice"
                { AuthenticatorAttachment := "", RequireResidentKey := false,
                  ResidentKey := "", UserVerification := "" } "").Attestation = "" then "none"
           else (attestationOptionsRequest.mk "alice" "alice"
                { AuthenticatorAttachment := "", RequireResidentKey := false,
                  ResidentKey := "", UserVerification := "" } "").Attestation) :=
  C19_request_preferences_are_issued demoServer { Body := "alice", rand := 3 }
    (demoHandlerWorld { Values := [] } demoTables) { Values := [] }
    (attestationOptionsRequest.mk "alice" "alice"
      { AuthenticatorAttachment := "", RequireResidentKey := false,
        ResidentKey := "", UserVerification := "" } "")
    (by decide) (by decide) rfl (by decide)

/-- C20: when `handleAttestationOptions` answers 200 (login session in the context,
fresh response, decoded request), the user in the User Session it has stored is the
user the options builder was given. If the datastore returned a user for the username
with a `UserID` that is not nil, as `dbStore.getUser` always does, it is that user, with
the returned `UserID` and `CredentialIDs`. If the datastore reported `errNoRecords`, it
is a new user with the username and the display name of the request, no credential ID,
and as its `UserID` the buffer of 64 bytes that `rand.Read` has filled: `rand.Read`
returned 64 and no error, and the `UserID` is what it delivered, at the start of 64 zero
bytes. A user returned with a nil `UserID` gets a `UserID` in the same way. -/
theorem C20_session_user_after_options (s : server σ) (r : Request) (st : World σ)
    (session : Session) (req : attestationOptionsRequest)
    (hsession : mapGet st.ctx contextKeyLoginSession = some session)
    (hfresh : st.resp.wroteHeader = false)
    (hdecode : s.ext.decodeAttestationOptionsRequest r.Body = .ok req)
    (hcode : (handleAttestationOptions s (serverWriter σ) r st).resp.Code = 200) :
    (∀ u0, s.dataStore.getUser st.db req.Username = .ok u0 → u0.UserID ≠ none →
      loginValue (handleAttestationOptions s (serverWriter σ) r st).ctx sessionMapKeyUserSession
        = some (SessionValue.userSession { User := u0, LoggedInCredentialID := [] }) ∧
      ∃ o0, s.ext.NewAttestationOptions s.webAuthnConfig
            { ID := u0.UserID.getD [], Name := u0.UserName, DisplayName := u0.DisplayName,
              CredentialIDs := u0.CredentialIDs } r.rand = .ok o0 ∧
        loginValue (handleAttestationOptions s (serverWriter σ) r st).ctx
            sessionMapKeyWebAuthnCreationOptions
          = some (SessionValue.creationOptions (issuedCreationOptions req o0))) ∧
    (s.dataStore.getUser st.db req.Username = .error .errNoRecords →
      ∃ src, s.ext.randRead r.rand = (src, 64, none) ∧
        loginValue (handleAttestationOptions s (serverWriter σ) r st).ctx
            sessionMapKeyUserSession
          = some (SessionValue.userSession
              { User := { UserID := some ((src ++ List.replicate 64 0).take 64),
                          UserName := req.Username,
                          DisplayName := req.DisplayName, CredentialIDs := [] },
                LoggedInCredentialID := [] }) ∧
        ∃ o0, s.ext.NewAttestationOptions s.webAuthnConfig
              { ID := (src ++ List.replicate 64 0).take 64, Name := req.Username,
                DisplayName := req.DisplayName, CredentialIDs := [] } r.rand = .ok o0 ∧
          loginValue (handleAttestationOptions s (serverWriter σ) r st).ctx
              sessionMapKeyWebAuthnCreationOptions
            = some (SessionValue.creationOptions (issuedCreationOptions req o0))) ∧
    (∀ u0, s.dataStore.getUser st.db req.Username = .ok u0 → u0.UserID = none →
      ∃ src, s.ext.randRead r.rand = (src, 64, none) ∧
        loginValue (handleAttestationOptions s (serverWriter σ) r st).ctx
            sessionMapKeyUserSession
          = some (SessionValue.userSession
              { User := { UserID := some ((src ++ List.replicate 64 0).take 64),
                          UserName := u0.UserName,
                          DisplayName := u0.DisplayName,
                          CredentialIDs := u0.CredentialIDs },
                LoggedInCredentialID := [] })) ∧
    (∀ (db : dbStore) (t : Tables) (username : String) (u0 : user),
      db.getUser t username = .ok u0 → u0.UserID ≠ none) := by
  obtain ⟨_, _, u1, u, o0, hfound, hgen, hnew, hcreation, huser, _⟩ :=
    handleAttestationOptions_ok s r st session req hsession hfresh hdecode hcode
  refine ⟨?_, ?_, ?_, ?_⟩
  · intro u0 hget hid
    have hu1 : u1 = u0 := by
      rcases attestationFoundUser_ok hfound with h | ⟨h, _⟩
      · rw [hget] at h
        cases h
        rfl
      · rw [hget] at h
        cases h
    subst hu1
    have hu : u = u1 := by
      rcases attestationGeneratedUser_ok hgen with ⟨_, h⟩ | ⟨h, _⟩
      · exact h
      · exact absurd h hid
    subst hu
    exact ⟨huser, o0, hnew, hcreation⟩
  · intro hget
    have hu1 : u1 = (⟨none, req.Username, req.DisplayName, []⟩ : user) := by
      rcases attestationFoundUser_ok hfound with h | ⟨_, h⟩
      · rw [hget] at h
        cases h
      · exact h
    subst hu1
    rcases attestationGeneratedUser_ok hgen with ⟨h, _⟩ | ⟨_, src, hread, h⟩
    · exact absurd rfl h
    · subst h
      rw [fillBuffer_eq 64 64 src (Nat.le_refl _)] at huser hnew
      exact ⟨src, hread, huser, o0, hnew, hcreation⟩
  · intro u0 hget hid
    have hu1 : u1 = u0 := by
      rcases attestationFoundUser_ok hfound with h | ⟨h, _⟩
      · rw [hget] at h
        cases h
        rfl
      · rw [hget] at h
        cases h
    subst hu1
    rcases attestationGeneratedUser_ok hgen with ⟨h, _⟩ | ⟨_, src, hread, h⟩
    · exact absurd hid h
    · subst h
      rw [fillBuffer_eq 64 64 src (Nat.le_refl _)] at huser
      exact ⟨src, hread, huser⟩
  · intro db t username u0 hget hnil
    simp only [dbStore.getUser] at hget
    split at hget
    · cases hget
    · split at hget
      · cases hget
      · rename_i hne
        cases hget
        exact hne hnil

/-- Witness of C20: registration options for alice, whom the tables of the example
know with one credential, and for dave, whom they do not know: his `UserID` is the byte
3 that the example generator delivers, at the start of 64 zero bytes. -/
theorem C20_session_user_after_options_witness :
    loginValue (handleAttestationOptions demoServer (serverWriter Tables)
        { Body := "alice", rand := 3 } (demoHandlerWorld { Values := [] } demoTables)).ctx
        sessionMapKeyUserSession
      = some (SessionValue.userSession { User := demoUser, LoggedInCredentialID := [] }) ∧
    ∃ src, demoServer.ext.randRead 3 = (src, 64, none) ∧
      loginValue (handleAttestationOptions demoServer (serverWriter Tables)
          { Body := "dave", rand := 3 } (demoHandlerWorld { Values := [] } demoTables)).ctx
          sessionMapKeyUserSession
        = some (SessionValue.userSession
            { User := { UserID := some ((src ++ List.replicate 64 0).take 64),
                        UserName := "dave", DisplayName := "dave", CredentialIDs := [] },
              LoggedInCredentialID := [] }) ∧
      ∃ o0, demoServer.ext.NewAttestationOptions demoServer.webAuthnConfig
            { ID := (src ++ List.replicate 64 0).take 64, Name := "dave",
              DisplayName := "dave", CredentialIDs := [] } 3 = .ok o0 ∧
        loginValue (handleAttestationOptions demoServer (serverWriter Tables)
            { Body := "dave", rand := 3 } (demoHandlerWorld { Values := [] } demoTables)).ctx
            sessionMapKeyWebAuthnCreationOptions
          = some (SessionValue.creationOptions
              (issuedCreationOptions
                (attestationOptionsRequest.mk "dave" "dave"
                  { AuthenticatorAttachment := "", RequireResidentKey := false,
                    ResidentKey := "", UserVerification := "" } "") o0)) :=
  ⟨((C20_session_user_after_options demoServer { Body := "alice", rand := 3 }
      (demoHandlerWorld { Values := [] } demoTables) { Values := [] }
      (attestationOptionsRequest.mk "alice" "alice"
        { AuthenticatorAttachment := "", RequireResidentKey := false,
          ResidentKey := "", UserVerification := "" } "")
      (by decide) (by decide) rfl (by decide)).1 demoUser rfl (by decide)).1,
   (C20_session_user_after_options demoServer { Body := "dave", rand := 3 }
      (demoHandlerWorld { Values := [] } demoTables) { Values := [] }
      (attestationOptionsRequest.mk "dave" "dave"
        { AuthenticatorAttachment := "", RequireResidentKey := false,
          ResidentKey := "", UserVerification := "" } "")
      (by decide) (by decide) rfl (by decide)).2.1 rfl⟩

/-- C21: on a connection on which the statement goes through. If no credential row
matches `(c.UserID, c.CredentialID)`, `updateCredential(c)` returns `errNoRecords` and
leaves both tables as they are. Otherwise it returns nil, leaves the table of users as
it is, and in the table of credentials changes only the counter and the last-login time
of the matching row: every row that does not match is unchanged, and the matching row
keeps its ID, user ID, cose key and registration time. -/
theorem C21_update_changes_counter_and_login_time (db : dbStore) (t : Tables)
    (c : credential) (hexec : db.execUpdateErr = none) (hrows : db.rowsAffectedErr = none) :
    ((∀ row ∈ t.credentials, ¬ (row.user_id = c.UserID ∧ row.id = c.CredentialID)) →
      db.updateCredential t c = (some error.errNoRecords, t)) ∧
    ((∃ row ∈ t.credentials, row.user_id = c.UserID ∧ row.id = c.CredentialID) →
      (db.updateCredential t c).1 = none ∧
      (db.updateCredential t c).2.users = t.users ∧
      (db.updateCredential t c).2.credentials.length = t.credentials.length ∧
      ∀ (i : Nat) (row : credentialRow), t.credentials[i]? = some row →
        ((row.user_id = c.UserID ∧ row.id = c.CredentialID) →
          (db.updateCredential t c).2.credentials[i]?
            = some { id := row.id, user_id := row.user_id, counter := c.Counter,
                     cose_key := row.cose_key, registered_at := row.registered_at,
                     loggedin_at := db.now }) ∧
        (¬ (row.user_id = c.UserID ∧ row.id = c.CredentialID) →
          (db.updateCredential t c).2.credentials[i]? = some row)) := by
  constructor
  · intro hnone
    simp [dbStore.updateCredential, hexec, hrows,
      updateCredentialRows_none t c.Counter db.now c.UserID c.CredentialID hnone]
  · intro hsome
    have hne := updateCredentialRows_some t c.Counter db.now c.UserID c.CredentialID hsome
    have hres : db.updateCredential t c
        = (none, (updateCredentialRows t c.Counter db.now c.UserID c.CredentialID).1) := by
      simp [dbStore.updateCredential, hexec, hrows, hne]
    rw [hres]
    refine ⟨rfl, rfl, by simp [updateCredentialRows], ?_⟩
    intro i row hrow
    constructor
    · intro hmatch
      simp [updateCredentialRows, List.getElem?_map, hrow, hmatch]
    · intro hmatch
      simp [updateCredentialRows, List.getElem?_map, hrow, hmatch]

/-- Witness of C21: an update for a credential the tables of the example do not hold. -/
theorem C21_update_changes_counter_and_login_time_witness :
    (reliable 9).updateCredential demoTables
        { CredentialID := [4], UserID := [5], Counter := 1, CoseKey := [] }
      = (some error.errNoRecords, demoTables) :=
  (C21_update_changes_counter_and_login_time (reliable 9) demoTables
    { CredentialID := [4], UserID := [5], Counter := 1, CoseKey := [] } rfl rfl).1
    (by decide)

/-- C29: with the primary key of `credentials` on the credential ID alone and a
connection on which every call goes through: if the store holds no user row with the ID
or the username of `u` and holds a credential row with the ID of `c`,
`addUserCredential(u, c)` returns `errRecordExists` with the transaction committed. The
table of users has gained the row of `u`, the table of credentials is as before; the
store is not the one before the call. -/
theorem C29_record_exists_after_user_insert (now : Nat) (t : Tables) (u : user)
    (c : credential)
    (hid : ∀ row ∈ t.users, row.id ≠ (u.UserID.getD []))
    (hname : ∀ row ∈ t.users, row.username ≠ u.UserName)
    (hcred : ∃ row ∈ t.credentials, row.id = c.CredentialID) :
    (reliable now).addUserCredential t u c
      = (some error.errRecordExists,
         { users := t.users ++
             [{ id := u.UserID.getD [], username := u.UserName, display_name := u.DisplayName }],
           credentials := t.credentials }) ∧
    ((reliable now).addUserCredential t u c).2 ≠ t := by
  have h1 : t.users.any (fun row => decide (row.id = (u.UserID.getD []))) = false :=
    any_false_of_forall _ _ (fun row hrow => by simpa using hid row hrow)
  have h2 : t.users.any (fun row => decide (row.username = u.UserName)) = false :=
    any_false_of_forall _ _ (fun row hrow => by simpa using hname row hrow)
  obtain ⟨crow, hcrow, hcid⟩ := hcred
  have h3 : t.credentials.any (fun row => decide (row.id = c.CredentialID)) = true :=
    any_true_of_mem _ _ crow hcrow (by simpa using hcid)
  have hres : (reliable now).addUserCredential t u c
      = (some error.errRecordExists,
         { users := t.users ++
             [{ id := u.UserID.getD [], username := u.UserName, display_name := u.DisplayName }],
           credentials := t.credentials }) := by
    simp [dbStore.addUserCredential, reliable, insertUser, insertCredential, h1, h2, h3]
  refine ⟨hres, ?_⟩
  rw [hres]
  intro heq
  have hlen := congrArg (fun x => x.users.length) heq
  simp at hlen

/-- Witness of C29: bob registers with the credential ID alice already holds. -/
theorem C29_record_exists_after_user_insert_witness :
    (reliable 1).addUserCredential demoTables
        { UserID := some [6], UserName := "bob", DisplayName := "Bob", CredentialIDs := [] }
        { CredentialID := [1], UserID := [6], Counter := 0, CoseKey := [7] }
      = (some error.errRecordExists,
         { users := demoTables.users ++
             [{ id := [6], username := "bob", display_name := "Bob" }],
           credentials := demoTables.credentials }) :=
  (C29_record_exists_after_user_insert 1 demoTables
    { UserID := some [6], UserName := "bob", DisplayName := "Bob", CredentialIDs := [] }
    { CredentialID := [1], UserID := [6], Counter := 0, CoseKey := [7] }
    (by decide) (by decide) (by decide)).1

/-- C22, counterexample: the store holds alice under the user ID `[5]`. A user with the
same ID and the username bob is added with a new credential of that user ID: the call
returns nil (the insert of the user is skipped, the credential is inserted), and
`getUser("bob")` on the resulting store returns `errNoRecords`. -/
theorem C22_added_user_not_found_by_name :
    ((reliable 1).addUserCredential demoTables
        { UserID := some [5], UserName := "bob", DisplayName := "Bob", CredentialIDs := [] }
        { CredentialID := [9], UserID := [5], Counter := 0, CoseKey := [7] }).1 = none ∧
    (reliable 1).getUser
        ((reliable 1).addUserCredential demoTables
          { UserID := some [5], UserName := "bob", DisplayName := "Bob", CredentialIDs := [] }
          { CredentialID := [9], UserID := [5], Counter := 0, CoseKey := [7] }).2 "bob"
      = .error error.errNoRecords :=
  ⟨rfl, rfl⟩

/-- C22, amended: on a connection on which every call goes through, for a store whose
usernames are unique, a user `u` such that a stored row with the ID of `u` has the
username of `u`, and a credential `c` of that user ID. After `addUserCredential(u, c)`
returns nil, `getCredential(c.UserID, c.CredentialID)` returns `c`, and
`getUser(u.UserName)` returns a user with the bytes of the ID of `u` as its ID (not
nil, also when they are empty), the username of `u`, the display name of a stored row
with that ID, and `c.CredentialID` among its credential IDs. On every store, `getUser`
returns `errNoRecords` for a username no user row has, and `getCredential` returns
`errNoRecords` for a pair no credential row has. -/
theorem C22_store_round_trip (now : Nat) (t : Tables) (u : user) (c : credential)
    (hown : c.UserID = (u.UserID.getD []))
    (hunique : ∀ r1 ∈ t.users, ∀ r2 ∈ t.users, r1.username = r2.username → r1.id = r2.id)
    (hname : ∀ row ∈ t.users, row.id = (u.UserID.getD []) → row.username = u.UserName)
    (hret : ((reliable now).addUserCredential t u c).1 = none) :
    ((reliable now).getCredential ((reliable now).addUserCredential t u c).2
        c.UserID c.CredentialID = .ok c ∧
     ∃ usr, (reliable now).getUser ((reliable now).addUserCredential t u c).2 u.UserName
        = .ok usr ∧
      usr.UserID = some (u.UserID.getD []) ∧ usr.UserName = u.UserName ∧
      c.CredentialID ∈ usr.CredentialIDs ∧
      ∃ row ∈ ((reliable now).addUserCredential t u c).2.users,
        row.id = (u.UserID.getD []) ∧ usr.DisplayName = row.display_name) ∧
    (∀ (t0 : Tables) (username : String),
      (∀ row ∈ t0.users, row.username ≠ username) →
      (reliable now).getUser t0 username = .error error.errNoRecords) ∧
    (∀ (t0 : Tables) (userID credentialID : Bytes),
      (∀ row ∈ t0.credentials, ¬ (row.user_id = userID ∧ row.id = credentialID)) →
      (reliable now).getCredential t0 userID credentialID = .error error.errNoRecords) := by
  obtain ⟨hcreds, hnew, husers⟩ := addUserCredential_nil now t u c hret
  refine ⟨⟨?_, ?_⟩, ?_, ?_⟩
  · have hfind : ((reliable now).addUserCredential t u c).2.credentials.find?
        (fun row => decide (row.user_id = c.UserID ∧ row.id = c.CredentialID))
        = some { id := c.CredentialID, user_id := c.UserID, counter := c.Counter,
                 cose_key := c.CoseKey, registered_at := now, loggedin_at := now } := by
      rw [hcreds, List.find?_append]
      have hnot : t.credentials.find?
          (fun row => decide (row.user_id = c.UserID ∧ row.id = c.CredentialID)) = none := by
        rw [List.find?_eq_none]
        intro row hrow
        simp [hnew row hrow]
      rw [hnot]
      simp
    exact getCredential_found (reliable now) _ c.UserID c.CredentialID _ rfl hfind
  · have hcr0 : (⟨c.CredentialID, c.UserID, c.Counter, c.CoseKey, now, now⟩ : credentialRow)
        ∈ ((reliable now).addUserCredential t u c).2.credentials := by
      rw [hcreds]
      simp
    rcases husers with ⟨hsame, ur0, hur0, hur0id⟩ | ⟨happ, hfresh⟩
    · have hids : ∀ ur ∈ ((reliable now).addUserCredential t u c).2.users,
          ur.username = u.UserName → ur.id = (u.UserID.getD []) := by
        rw [hsame]
        intro ur hur hurname
        rw [← hur0id]
        exact hunique ur hur ur0 hur0 (hurname.trans (hname ur0 hur0 hur0id).symm)
      exact getUser_found (reliable now) _ u.UserName (u.UserID.getD []) rfl hids ur0 _
        (by rw [hsame]; exact hur0) hcr0 (by rw [hur0id, hown]) (hname ur0 hur0 hur0id)
    · have hids : ∀ ur ∈ ((reliable now).addUserCredential t u c).2.users,
          ur.username = u.UserName → ur.id = (u.UserID.getD []) := by
        rw [happ]
        intro ur hur hurname
        rw [List.mem_append] at hur
        rcases hur with hur | hur
        · exact absurd hurname (hfresh ur hur)
        · rw [List.mem_singleton] at hur
          rw [hur]
      exact getUser_found (reliable now) _ u.UserName (u.UserID.getD []) rfl hids
        { id := u.UserID.getD [], username := u.UserName, display_name := u.DisplayName } _
        (by rw [happ]; simp) hcr0 hown.symm rfl
  · intro t0 username hnone
    exact getUser_without_credentials (reliable now) t0 username rfl
      (fun ur hur hurname => absurd hurname (hnone ur hur))
  · intro t0 userID credentialID hnone
    exact getCredential_none (reliable now) t0 userID credentialID rfl hnone

/-- Witness of C22: a user whose ID is the empty slice is added with a credential;
`getCredential` returns the credential and `getUser` returns the user with that ID. -/
theorem C22_store_round_trip_witness :
    (reliable 1).getCredential
        ((reliable 1).addUserCredential demoTables
          { UserID := some [], UserName := "eve", DisplayName := "Eve", CredentialIDs := [] }
          { CredentialID := [9], UserID := [], Counter := 0, CoseKey := [7] }).2 [] [9]
      = .ok { CredentialID := [9], UserID := [], Counter := 0, CoseKey := [7] } ∧
    ∃ usr, (reliable 1).getUser
        ((reliable 1).addUserCredential demoTables
          { UserID := some [], UserName := "eve", DisplayName := "Eve", CredentialIDs := [] }
          { CredentialID := [9], UserID := [], Counter := 0, CoseKey := [7] }).2 "eve"
        = .ok usr ∧
      usr.UserID = some [] ∧ usr.UserName = "eve" ∧ [9] ∈ usr.CredentialIDs ∧
      ∃ row ∈ ((reliable 1).addUserCredential demoTables
          { UserID := some [], UserName := "eve", DisplayName := "Eve", CredentialIDs := [] }
          { CredentialID := [9], UserID := [], Counter := 0, CoseKey := [7] }).2.users,
        row.id = [] ∧ usr.DisplayName = row.display_name :=
  (C22_store_round_trip 1 demoTables
    { UserID := some [], UserName := "eve", DisplayName := "Eve", CredentialIDs := [] }
    { CredentialID := [9], UserID := [], Counter := 0, CoseKey := [7] }
    rfl (by decide) (by decide) rfl).1

/-- C24: for every handler made of calls on its response writer and of writes to the
sessions of the request context, under `handleSession(rwNames, rNames, next)` on the
server's writer. Every call of `Save` the request adds names a session of `rwNames`, so
a session named only in `rNames` is never passed to `Save`; with `rwNames` empty, as on
the route `/user`, the session store after the request is the one before it. When `Get`
succeeds for every named session, the wrapped handler (any handler) is called with a
context that binds every name of `rwNames` and `rNames` to the session `Get` returned. -/
theorem C24_read_only_session_is_loaded_not_saved (rw rn : List String)
    (ops : List HandlerOp) (r : Request) (st : World σ) :
    (∃ added : List (String × Session),
      (handleSession rw rn (runOps ops) (serverWriter σ) r st).sessionStore.saveCalls
        = st.sessionStore.saveCalls ++ added ∧
      ∀ e ∈ added, e.1 ∈ rw) ∧
    (handleSession [] rn (runOps ops) (serverWriter σ) r st).sessionStore = st.sessionStore ∧
    (∀ next : HandlerFunc σ,
      (∀ name ∈ rw ++ rn, ∃ session, st.sessionStore.Get name = .ok session) →
      ∃ ctx, (∀ name ∈ rw ++ rn, ∃ session, st.sessionStore.Get name = .ok session ∧
          mapGet ctx name = some session) ∧
        handleSession rw rn next (serverWriter σ) r st
          = if rw.length > 0 then
              next (sessionWriter (serverWriter σ) rw) r { st with ctx := ctx, status := 0 }
            else next (serverWriter σ) r { st with ctx := ctx }) :=
  ⟨handleSession_savesOnly rw rn ops r st, handleSession_read_only_store rn ops r st,
    fun next hget => handleSession_loaded rw rn next (serverWriter σ) r st hget⟩

/-- C25: on a response not yet started. If `Get` fails for a session named in either
list, `handleSession` answers with the failed response of status 500 for the first such
session, whatever the wrapped handler is: the handler is not called and the session
store is as before. If `Save` fails for a session of the read-write list when a body is
written through the `sessionWriter` with no status set (all read-write sessions being
in the context), the response is the failed response of status 500 for that session and
the body is not written; so it is for a logout under `handleAuthnSession`. If `Get`
fails in the login gate, the gate answers with the failed response of status 500 and
does not call the handler it wraps. -/
theorem C25_session_store_failure_is_internal_error (rw rn : List String) (r : Request)
    (st : World σ) (hfresh : st.resp.wroteHeader = false) :
    (∀ next : HandlerFunc σ,
      (∃ name ∈ rw ++ rn, ∃ e, st.sessionStore.Get name = .error e) →
      ∃ name e, name ∈ rw ++ rn ∧ st.sessionStore.Get name = .error e ∧
        handleSession rw rn next (serverWriter σ) r st
          = writeFailedServerResponse (serverWriter σ) StatusInternalServerError
              ("failed to retrieve session \"" ++ name ++ "\": " ++ e) st ∧
        (handleSession rw rn next (serverWriter σ) r st).resp.Code = 500 ∧
        (handleSession rw rn next (serverWriter σ) r st).resp.Body
          = st.resp.Body ++
              [failedBody ("failed to retrieve session \"" ++ name ++ "\": " ++ e)] ∧
        (handleSession rw rn next (serverWriter σ) r st).sessionStore = st.sessionStore) ∧
    (∀ b : Payload, st.status = 0 →
      (∀ name ∈ rw, (mapGet st.ctx name).isSome = true) →
      (∃ name ∈ rw, (mapGet st.sessionStore.saveErr name).isSome = true) →
      ∃ name e, name ∈ rw ∧ mapGet st.sessionStore.saveErr name = some e ∧
        ((sessionWriter (serverWriter σ) rw).Write b st).resp.Code = 500 ∧
        ((sessionWriter (serverWriter σ) rw).Write b st).resp.Body
          = st.resp.Body ++
              [failedBody ("Failed to save session " ++ name ++ ": " ++ e)]) ∧
    (∀ (s : server σ) (session : Session) (e : String),
      st.sessionStore.Get sessionNameLoginSession = .ok session →
      mapGet st.sessionStore.saveErr sessionNameLoginSession = some e →
      (handleAuthnSession (handleLogout s) (serverWriter σ) r st).resp.Code = 500 ∧
      (handleAuthnSession (handleLogout s) (serverWriter σ) r st).resp.Body
        = st.resp.Body ++
            [failedBody ("Failed to save session " ++ sessionNameLoginSession ++ ": " ++ e)]) ∧
    (∀ (next : HandlerFunc σ) (e : String),
      st.sessionStore.Get sessionNameLoginSession = .error e →
      loggedInUserOnly next (serverWriter σ) r st
        = writeFailedServerResponse (serverWriter σ) StatusInternalServerError
            ("Failed to retrieve session \"" ++ sessionNameLoginSession ++ "\": " ++ e) st ∧
      (loggedInUserOnly next (serverWriter σ) r st).resp.Code = 500) := by
  refine ⟨?_, ?_, ?_, ?_⟩
  · intro next hget
    obtain ⟨name, e, hname, he, hres⟩ :=
      handleSession_get_error rw rn next (serverWriter σ) r st hget
    refine ⟨name, e, hname, he, hres, ?_, ?_, ?_⟩
    · rw [hres]
      exact writeFailed_code WriterKind.server _ _ st (by decide) hfresh
    · rw [hres]
      exact writeFailed_body _ _ st
    · rw [hres]
      rfl
  · intro b hstatus hctx herr
    obtain ⟨name, e, hname, he, hcode, hbody⟩ :=
      saveSessions_save_error rw b st hfresh hctx herr
    refine ⟨name, e, hname, he, ?_, ?_⟩
    · simp only [sessionWriter, hstatus, ne_eq, not_true_eq_false, if_false]
      exact hcode
    · simp only [sessionWriter, hstatus, ne_eq, not_true_eq_false, if_false]
      exact hbody
  · intro s session e hget hsave
    rw [handleAuthnSession_eq]
    simp only [hget]
    simp [handleLogout, contextKeyLoginSession, mapGet_mapSet_self, writeOKServerResponse,
      sessionWriter, saveSessions, deleteSessionValue, mapGet_mapModify_self,
      SessionStore.Save, hsave, serverWriter, ResponseRecorder.Write,
      ResponseRecorder.WriteHeader, hfresh, writeFailedServerResponse, failedBody,
      StatusInternalServerError]
  · intro next e hget
    have heq : loggedInUserOnly next (serverWriter σ) r st
        = writeFailedServerResponse (serverWriter σ) StatusInternalServerError
            ("Failed to retrieve session \"" ++ sessionNameLoginSession ++ "\": " ++ e) st := by
      simp only [loggedInUserOnly, hget]
    refine ⟨heq, ?_⟩
    rw [heq]
    exact writeFailed_code WriterKind.server _ _ st (by decide) hfresh

/-- Witness of C25: a logout when the session store cannot save the login session. -/
theorem C25_session_store_failure_is_internal_error_witness :
    (handleAuthnSession (handleLogout demoServer) (serverWriter Tables)
        { Body := "", rand := 0 }
        { demoWorld (some loggedInSession) demoTables with
          sessionStore :=
            { records := [(sessionNameLoginSession, loggedInSession)], getErr := [],
              saveErr := [(sessionNameLoginSession, "redis is down")],
              saveCalls := [] } }).resp.Code = 500 :=
  ((C25_session_store_failure_is_internal_error [sessionNameLoginSession]
    [sessionNameLoginSession] { Body := "", rand := 0 }
    { demoWorld (some loggedInSession) demoTables with
      sessionStore :=
        { records := [(sessionNameLoginSession, loggedInSession)], getErr := [],
          saveErr := [(sessionNameLoginSession, "redis is down")],
          saveCalls := [] } } rfl).2.2.1
    demoServer loggedInSession "redis is down" rfl rfl).1

/-- C30: for each route of `routes()`, on the server's writer, when `Get` returns the
login session. The request ends with the panic state it started with: neither the
panic "Failed to get session data from context" of a handler nor the panic of
`sessionWriter.Write` is raised. The handler of the route is called with a context
that binds `contextKeyLoginSession` to the session `Get` returned: through the
`sessionWriter` for the five routes under `handleAuthnSession`; for `/user`, on the
server's writer, unless the login gate has answered before. -/
theorem C30_handlers_find_the_login_session (s : server σ) (route : Route) (r : Request)
    (st : World σ) (session : Session)
    (hget : st.sessionStore.Get sessionNameLoginSession = .ok session) :
    (routes s route (serverWriter σ) r st).panicked = st.panicked ∧
    ∃ ctx, mapGet ctx contextKeyLoginSession = some session ∧
      (route ≠ Route.user →
        routes s route (serverWriter σ) r st
          = route.handler s (sessionWriter (serverWriter σ) [sessionNameLoginSession]) r
              { st with ctx := ctx, status := 0 }) ∧
      (route = Route.user →
        routes s route (serverWriter σ) r st
            = route.handler s (serverWriter σ) r { st with ctx := ctx } ∨
        routes s route (serverWriter σ) r st
            = writeFailedServerResponse (serverWriter σ) StatusUnauthorized
                "User is not logged in" st) := by
  have hauthn : ∀ next : HandlerFunc σ,
      handleAuthnSession next (serverWriter σ) r st
        = next (sessionWriter (serverWriter σ) [sessionNameLoginSession]) r
            { st with ctx := mapSet (mapSet st.ctx sessionNameLoginSession session)
                               sessionNameLoginSession session,
                      status := 0 } := by
    intro next
    rw [handleAuthnSession_eq]
    simp only [hget]
  have hctx : mapGet (mapSet (mapSet st.ctx sessionNameLoginSession session)
      sessionNameLoginSession session) contextKeyLoginSession = some session := by
    simp [contextKeyLoginSession, mapGet_mapSet_self]
  have hrw : routeWriter (WriterKind.session [sessionNameLoginSession]) := Or.inr rfl
  have huser : handleSession [] [sessionNameLoginSession] (handleUser s) (serverWriter σ) r st
      = handleUser s (serverWriter σ) r
          { st with ctx := mapSet st.ctx sessionNameLoginSession session } := by
    simp [handleSession, sessionHandler.ServeHTTP, storeSessionInContext, hget]
  have hctx1 : mapGet (mapSet st.ctx sessionNameLoginSession session) contextKeyLoginSession
      = some session := by
    simp [contextKeyLoginSession, mapGet_mapSet_self]
  cases route with
  | user =>
    have hgate : routes s Route.user (serverWriter σ) r st
          = handleUser s (serverWriter σ) r
              { st with ctx := mapSet st.ctx sessionNameLoginSession session } ∨
        routes s Route.user (serverWriter σ) r st
          = writeFailedServerResponse (serverWriter σ) StatusUnauthorized
              "User is not logged in" st := by
      simp only [routes, loggedInUserOnly, hget]
      split
      · right
        rfl
      · split
        · right
          rfl
        · left
          exact huser
    refine ⟨?_, mapSet st.ctx sessionNameLoginSession session, hctx1,
      fun h => absurd rfl h, fun _ => hgate⟩
    rcases hgate with h | h
    · rw [h]
      exact handleUser_panicked s WriterKind.server r _ (Or.inl rfl) (by simp [hctx1])
    · rw [h]
      rfl
  | attestationOptions =>
    refine ⟨?_, _, hctx, fun _ => hauthn _, fun h => by cases h⟩
    simp only [routes]
    rw [hauthn]
    exact handleAttestationOptions_panicked s _ r _ hrw (by simp [hctx])
  | assertionOptions =>
    refine ⟨?_, _, hctx, fun _ => hauthn _, fun h => by cases h⟩
    simp only [routes]
    rw [hauthn]
    exact handleAssertionOptions_panicked s _ r _ hrw (by simp [hctx])
  | attestationResult =>
    refine ⟨?_, _, hctx, fun _ => hauthn _, fun h => by cases h⟩
    simp only [routes]
    rw [hauthn]
    exact handleAttestationResult_panicked s _ r _ hrw (by simp [hctx])
  | assertionResult =>
    refine ⟨?_, _, hctx, fun _ => hauthn _, fun h => by cases h⟩
    simp only [routes]
    rw [hauthn]
    exact handleAssertionResult_panicked s _ r _ hrw (by simp [hctx])
  | logout =>
    refine ⟨?_, _, hctx, fun _ => hauthn _, fun h => by cases h⟩
    simp only [routes]
    rw [hauthn]
    exact handleLogout_panicked s _ r _ hrw (by simp [hctx])

/-- Witness of C30: the route `/user` in the logged-in session of the example. -/
theorem C30_handlers_find_the_login_session_witness :
    (routes demoServer Route.user (serverWriter Tables) { Body := "", rand := 0 }
        (demoWorld (some loggedInSession) demoTables)).panicked = none :=
  (C30_handlers_find_the_login_session demoServer Route.user { Body := "", rand := 0 }
    (demoWorld (some loggedInSession) demoTables) loggedInSession rfl).1

/-- C27: with the login session in the context and a fresh response, on either writer
of the server: when `handleAttestationOptions` or `handleAssertionOptions` answers 200,
the User Session of the session in the context is a record with an empty
`LoggedInCredentialID`, whatever the session held before. Under `handleAuthnSession`,
when `Get` returns the login session and the answer is 200, the stored session holds
that record, and on the next request the login gate answers 401 "User is not logged in"
whatever handler it wraps. -/
theorem C27_options_discard_login_state (s : server σ) (r : Request) (st : World σ)
    (session : Session) (hfresh : st.resp.wroteHeader = false)
    (hget : st.sessionStore.Get sessionNameLoginSession = .ok session) :
    (∀ (k : WriterKind) (st0 : World σ) (session0 : Session),
      mapGet st0.ctx contextKeyLoginSession = some session0 →
      st0.resp.wroteHeader = false →
      ((handleAttestationOptions s (k.writer σ) r st0).resp.Code = 200 →
        ∃ u, loginValue (handleAttestationOptions s (k.writer σ) r st0).ctx
          sessionMapKeyUserSession
          = some (SessionValue.userSession { User := u, LoggedInCredentialID := [] })) ∧
      ((handleAssertionOptions s (k.writer σ) r st0).resp.Code = 200 →
        ∃ u, loginValue (handleAssertionOptions s (k.writer σ) r st0).ctx
          sessionMapKeyUserSession
          = some (SessionValue.userSession { User := u, LoggedInCredentialID := [] }))) ∧
    ((handleAuthnSession (handleAttestationOptions s) (serverWriter σ) r st).resp.Code = 200 →
      ∃ u, storedLoginValue
          (handleAuthnSession (handleAttestationOptions s) (serverWriter σ) r st).sessionStore
          sessionMapKeyUserSession
          = some (SessionValue.userSession { User := u, LoggedInCredentialID := [] }) ∧
        ∀ (gated : HandlerFunc σ) (r2 : Request),
          loggedInUserOnly gated (serverWriter σ) r2
              (nextRequest (handleAuthnSession (handleAttestationOptions s) (serverWriter σ) r st))
            = writeFailedServerResponse (serverWriter σ) StatusUnauthorized
                "User is not logged in"
                (nextRequest
                  (handleAuthnSession (handleAttestationOptions s) (serverWriter σ) r st))) ∧
    ((handleAuthnSession (handleAssertionOptions s) (serverWriter σ) r st).resp.Code = 200 →
      ∃ u, storedLoginValue
          (handleAuthnSession (handleAssertionOptions s) (serverWriter σ) r st).sessionStore
          sessionMapKeyUserSession
          = some (SessionValue.userSession { User := u, LoggedInCredentialID := [] }) ∧
        ∀ (gated : HandlerFunc σ) (r2 : Request),
          loggedInUserOnly gated (serverWriter σ) r2
              (nextRequest (handleAuthnSession (handleAssertionOptions s) (serverWriter σ) r st))
            = writeFailedServerResponse (serverWriter σ) StatusUnauthorized
                "User is not logged in"
                (nextRequest
                  (handleAuthnSession (handleAssertionOptions s) (serverWriter σ) r st))) := by
  refine ⟨?_, ?_, ?_⟩
  · intro k st0 session0 hsession0 hfresh0
    constructor
    · intro hcode
      rcases handleAttestationOptions_cases s k r st0 session0 hsession0 hfresh0 with h | h
      · exact absurd hcode h
      · obtain ⟨u, b, hw⟩ := h
        exact ⟨u, optionsWritten_ctx k st0 _ u b session0 hsession0 hw⟩
    · intro hcode
      rcases handleAssertionOptions_cases s k r st0 session0 hsession0 hfresh0 with h | h
      · exact absurd hcode h
      · obtain ⟨u, b, hw⟩ := h
        exact ⟨u, optionsWritten_ctx k st0 _ u b session0 hsession0 hw⟩
  · intro hcode
    exact authn_options_reset (handleAttestationOptions s) r st session
      (fun st1 session1 h1 h2 => handleAttestationOptions_cases s _ r st1 session1 h1 h2)
      hfresh hget hcode
  · intro hcode
    exact authn_options_reset (handleAssertionOptions s) r st session
      (fun st1 session1 h1 h2 => handleAssertionOptions_cases s _ r st1 session1 h1 h2)
      hfresh hget hcode

/-- Witness of C27: alice, logged in, asks for login options; on the next request the
login gate turns her away. -/
theorem C27_options_discard_login_state_witness :
    ∃ u, storedLoginValue
        (handleAuthnSession (handleAssertionOptions demoServer) (serverWriter Tables)
          { Body := "alice", rand := 3 }
          (demoWorld (some loggedInSession) demoTables)).sessionStore
        sessionMapKeyUserSession
        = some (SessionValue.userSession { User := u, LoggedInCredentialID := [] }) ∧
      ∀ (gated : HandlerFunc Tables) (r2 : Request),
        loggedInUserOnly gated (serverWriter Tables) r2
            (nextRequest (handleAuthnSession (handleAssertionOptions demoServer)
              (serverWriter Tables) { Body := "alice", rand := 3 }
              (demoWorld (some loggedInSession) demoTables)))
          = writeFailedServerResponse (serverWriter Tables) StatusUnauthorized
              "User is not logged in"
              (nextRequest (handleAuthnSession (handleAssertionOptions demoServer)
                (serverWriter Tables) { Body := "alice", rand := 3 }
                (demoWorld (some loggedInSession) demoTables))) :=
  (C27_options_discard_login_state demoServer { Body := "alice", rand := 3 }
    (demoWorld (some loggedInSession) demoTables) loggedInSession rfl rfl).2.2 (by decide)

/-- C28: with the login session in the context, whatever it holds, and a fresh
response: for a request with a username and a display name whose username the datastore
returns a user for (with a `UserID`), when the options builder and the encoder succeed,
`handleAttestationOptions` answers 200 and binds the User Session to the stored user
with no logged-in credential. A later `handleAttestationResult` on the session so left,
whose attestation parses and is accepted against the issued options, calls
`addUserCredential` with the stored user and a credential whose `UserID` is the
`UserID` of the stored user. -/
theorem C28_registration_options_ignore_login_state (s : server σ) (r : Request)
    (st : World σ) (session : Session) (req : attestationOptionsRequest)
    (u0 : user) (o0 : PublicKeyCredentialCreationOptions)
    (hsession : mapGet st.ctx contextKeyLoginSession = some session)
    (hfresh : st.resp.wroteHeader = false)
    (hdecode : s.ext.decodeAttestationOptionsRequest r.Body = .ok req)
    (hu : req.Username ≠ "") (hd : req.DisplayName ≠ "")
    (hget : s.dataStore.getUser st.db req.Username = .ok u0) (hid : u0.UserID ≠ none)
    (hnew : s.ext.NewAttestationOptions s.webAuthnConfig (webAuthnUserOf u0) r.rand = .ok o0)
    (hm : s.ext.marshalErr
      (Payload.creationOptions { Status := statusOK, ErrorMessage := "" }
        (issuedCreationOptions req o0)) = none) :
    (handleAttestationOptions s (serverWriter σ) r st).resp.Code = 200 ∧
    loginValue (handleAttestationOptions s (serverWriter σ) r st).ctx sessionMapKeyUserSession
      = some (SessionValue.userSession { User := u0, LoggedInCredentialID := [] }) ∧
    ∀ (k : WriterKind) (r2 : Request) (st2 : World σ) (a : PublicKeyCredentialAttestation),
      mapGet st2.ctx contextKeyLoginSession
        = mapGet (handleAttestationOptions s (serverWriter σ) r st).ctx
            contextKeyLoginSession →
      s.ext.ParseAttestation r2.Body = .ok a →
      s.ext.VerifyAttestation a (attestationExpectedData s (issuedCreationOptions req o0))
        = none →
      (handleAttestationResult s (k.writer σ) r2 st2).dbCalls
        = st2.dbCalls ++ [dataStoreCall.addUserCredential u0
            { CredentialID := a.RawID, UserID := u0.UserID.getD [],
              Counter := a.AuthnData.Counter, CoseKey := a.AuthnData.CredentialRaw }] := by
  have heq := handleAttestationOptions_stored_user s ((WriterKind.server).writer σ) r st
    session req u0 o0 hsession hdecode hu hd hget hid hnew hm
  have hctx : mapGet (handleAttestationOptions s ((WriterKind.server).writer σ) r st).ctx
      contextKeyLoginSession
      = some (Session.mk (mapSet
          (mapSet session.Values sessionMapKeyWebAuthnCreationOptions
            (SessionValue.creationOptions (issuedCreationOptions req o0)))
          sessionMapKeyUserSession
          (SessionValue.userSession (userSession.mk u0 [])))) := by
    rw [heq]
    simp only [write_ctx, headerSet_ctx]
    simp [setSessionValue, mapGet_mapModify_self, hsession]
  refine ⟨?_, ?_, ?_⟩
  · show (handleAttestationOptions s ((WriterKind.server).writer σ) r st).resp.Code = 200
    rw [heq]
    simp [write_code, hfresh]
  · show loginValue (handleAttestationOptions s ((WriterKind.server).writer σ) r st).ctx
      sessionMapKeyUserSession = _
    simp [loginValue, hctx, mapGet_mapSet_self]
  · intro k r2 st2 a hsame hparse hverify
    have hctx2 : mapGet st2.ctx contextKeyLoginSession
        = some (Session.mk (mapSet
            (mapSet session.Values sessionMapKeyWebAuthnCreationOptions
              (SessionValue.creationOptions (issuedCreationOptions req o0)))
            sessionMapKeyUserSession
            (SessionValue.userSession (userSession.mk u0 [])))) :=
      hsame.trans hctx
    exact (handleAttestationResult_accepted s k r2 st2 _ hctx2 (issuedCreationOptions req o0)
      { User := u0, LoggedInCredentialID := [] } a
      (by simp [mapGet_mapSet_ne _ _ key_user_ne_creation, mapGet_mapSet_self,
        asCreationOptions])
      (by simp [mapGet_mapSet_self, asUserSession]) hparse hverify).1

/-- Witness of C28: in a session in which bob is logged in, registration options are
asked for alice, whom the tables of the example know. -/
theorem C28_registration_options_ignore_login_state_witness :
    loginValue (handleAttestationOptions demoServer (serverWriter Tables)
        { Body := "alice", rand := 3 } (demoHandlerWorld bobLoggedIn demoTables)).ctx
        sessionMapKeyUserSession
      = some (SessionValue.userSession { User := demoUser, LoggedInCredentialID := [] }) :=
  (C28_registration_options_ignore_login_state demoServer { Body := "alice", rand := 3 }
    (demoHandlerWorld bobLoggedIn demoTables) bobLoggedIn
    (attestationOptionsRequest.mk "alice" "alice"
      { AuthenticatorAttachment := "", RequireResidentKey := false,
        ResidentKey := "", UserVerification := "" } "")
    demoUser aliceCreationOptions
    (by decide) (by decide) rfl (by decide) (by decide) rfl (by decide) rfl rfl).2.1

/-- C23, counterexample: a logout and a request for `/user` in the logged-in session of
the example both answer 200. The body of the logout is the object with the one member
`status`; the body of `/user` has the members `status`, `name`, `displayName`,
`credentialID`, `registeredAt` and `loggedInAt`. Neither has a member `errorMessage`. -/
theorem C23_ok_body_has_no_error_message :
    (handleLogout demoServer (serverWriter Tables) { Body := "", rand := 0 }
        (demoHandlerWorld loggedInSession demoTables)).resp.Code = 200 ∧
    (handleLogout demoServer (serverWriter Tables) { Body := "", rand := 0 }
        (demoHandlerWorld loggedInSession demoTables)).resp.Body.map jsonMembers
      = [[("status", "ok")]] ∧
    (handleUser demoServer (serverWriter Tables) { Body := "", rand := 0 }
        (demoHandlerWorld loggedInSession demoTables)).resp.Code = 200 ∧
    (handleUser demoServer (serverWriter Tables) { Body := "", rand := 0 }
        (demoHandlerWorld loggedInSession demoTables)).resp.Body.map jsonMembers
      = [[("status", "ok"), ("name", "alice"), ("displayName", "Alice"),
          ("credentialID", "x"), ("registeredAt", "0"), ("loggedInAt", "0")]] := by
  refine ⟨by decide, by decide, by decide, by decide⟩

/-- C23, amended: with the login session in the context and a fresh response, when the
handler of a route answers 200 on the server's writer it has written one body, a JSON
object whose first member is `status` with the value "ok". The member `errorMessage`
is the second member, with the empty string, in the two options responses; the OK
response of the result routes and of logout has no other member than `status`, and the
response of `/user` has `status` and the five fields of the user: these have no member
`errorMessage`. -/
theorem C23_success_bodies_begin_with_status_ok (s : server σ) (route : Route)
    (r : Request) (st : World σ) (session : Session)
    (hsession : mapGet st.ctx contextKeyLoginSession = some session)
    (hfresh : st.resp.wroteHeader = false)
    (hcode : (route.handler s (serverWriter σ) r st).resp.Code = 200) :
    ∃ b, (route.handler s (serverWriter σ) r st).resp.Body = st.resp.Body ++ [b] ∧
      successMembers route b ∧
      (jsonMembers b).head? = some ("status", "ok") ∧
      ((jsonMembers b)[1]? = some ("errorMessage", "") ∨
        ∀ m ∈ jsonMembers b, m.1 ≠ "errorMessage") := by
  have hctx : (mapGet st.ctx contextKeyLoginSession).isSome = true := by simp [hsession]
  cases route with
  | attestationOptions =>
    obtain ⟨o, hbody⟩ := handleAttestationOptions_success_body s r st hfresh hcode hctx
    exact ⟨_, hbody, rfl, successBody_creation o⟩
  | assertionOptions =>
    obtain ⟨o, hbody⟩ := handleAssertionOptions_success_body s r st hfresh hcode hctx
    exact ⟨_, hbody, rfl, successBody_request o⟩
  | attestationResult =>
    exact ⟨_, handleAttestationResult_success_body s r st hfresh hcode hctx, okBody_members,
      successBody_ok⟩
  | assertionResult =>
    exact ⟨_, handleAssertionResult_success_body s r st hfresh hcode hctx, okBody_members,
      successBody_ok⟩
  | logout =>
    exact ⟨_, handleLogout_success_body s r st hcode hctx, okBody_members, successBody_ok⟩
  | user =>
    obtain ⟨name, displayName, credentialID, registeredAt, loggedInAt, hbody⟩ :=
      handleUser_success_body s r st hfresh hcode hctx
    exact ⟨_, hbody, ⟨name, displayName, credentialID, registeredAt, loggedInAt, rfl⟩,
      successBody_user name displayName credentialID registeredAt loggedInAt⟩

/-- Witness of C23: login options for alice in the example. -/
theorem C23_success_bodies_begin_with_status_ok_witness :
    ∃ b, (Route.handler demoServer Route.assertionOptions (serverWriter Tables)
        { Body := "alice", rand := 3 }
        (demoHandlerWorld { Values := [] } demoTables)).resp.Body
        = (demoHandlerWorld { Values := [] } demoTables).resp.Body ++ [b] ∧
      successMembers Route.assertionOptions b ∧
      (jsonMembers b).head? = some ("status", "ok") ∧
      ((jsonMembers b)[1]? = some ("errorMessage", "") ∨
        ∀ m ∈ jsonMembers b, m.1 ≠ "errorMessage") :=
  C23_success_bodies_begin_with_status_ok demoServer Route.assertionOptions
    { Body := "alice", rand := 3 } (demoHandlerWorld { Values := [] } demoTables)
    { Values := [] } (by decide) (by decide) (by decide)

/-- C26 (the code at the failing input): a config file that decodes and has no
WebAuthn section. `newConfig` neither returns an error nor succeeds: the call
`c.WebAuthn.Valid()` on the nil pointer panics, before the origin and the environment
are looked at. For the empty file it returns the decoding error, and for the file of
the example with a WebAuthn section it returns the configuration with the decoded
session key and the defaults "tcp" and "localhost:6379". -/
theorem C26_missing_webauthn_section_panics :
    demoEnvironment.Decode originOnlyConfigFile
      = .ok { WebAuthn := none, Origin := "https://localhost:8443", SessionKey := [],
              DBConnString := "", RedisNetwork := "", RedisAddr := "", RedisPwd := "" } ∧
    newConfig demoEnvironment originOnlyConfigFile
      = .panics "runtime error: invalid memory address or nil pointer dereference" ∧
    (∀ (env : Environment) (configFile : String) (c : config),
      env.Decode configFile = .ok c → c.WebAuthn = none →
      (∀ e, newConfig env configFile ≠ .returns (.error e)) ∧
      (∀ c1, newConfig env configFile ≠ .returns (.ok c1))) ∧
    newConfig demoEnvironment "" = .returns (.error "failed to decode config file: EOF") ∧
    newConfig demoEnvironment "config.json"
      = .returns (.ok
          { WebAuthn := some demoConfig, Origin := "https://localhost:8443",
            SessionKey := [115, 101, 99], DBConnString := "user=testuser dbname=testdb",
            RedisNetwork := "tcp", RedisAddr := "localhost:6379", RedisPwd := "" }) := by
  refine ⟨rfl, rfl, ?_, rfl, rfl⟩
  intro env configFile c hdecode hnil
  have hpanic := ((newConfig_checks env configFile).2 c hdecode).1 hnil
  constructor
  · intro e he
    rw [hpanic] at he
    cases he
  · intro c1 he
    rw [hpanic] at he
    cases he

end Claims

end WebAuthnDemo
